import Mathlib

/-!
Bristol32: packet codecs and alarm coordination.

A shallow embedding of the messaging core of the Bristol32 firmware:

* `lib/common/crc8.cpp`, `lib/common/proto.{h,cpp}`: the header + payload + CRC-8 frame
  ("Format B");
* `boat_monitoring_system/common/MessageProtocol.h`: the fixed-size XOR-checksummed packets
  ("Format A");
* `boat_monitoring_system/hub_firmware/alarm/AlarmManager.h`: the hub alarm coordinator;
* `int_gateway/src/main.cpp`: the gateway intrusion state machine;
* `boat_monitoring_system/hub_firmware/lora/LoRaHub.h`: the hub message dispatch;
* `boat_monitoring_system/node_firmware/lora/LoRaComm.h`: the node receive path;
* `int_gateway/src/smtp_client.cpp`: the notification queue and its retry task.

Conventions. A `uint8_t`, `uint16_t`, `uint32_t` or `size_t` value is a `Nat`, a signed value
is an `Int`; a store into a narrower type is written with an explicit `%`. A byte buffer
(`uint8_t*`) is a `List Nat`; a read `buf[i]` is `buf.getD i 0` and a write `buf[i] = v` is
`buf.set i v`. A finite `float` or `double` value is the rational it denotes, and an
arithmetic result is the exact result rounded to the format (`f32`, `f64`). Serial logging is
modelled for the node receive path only.
-/

namespace Bristol32

/-! ## Buffers -/

/-- Every element of the buffer is an 8-bit value. -/
def isBytes (l : List Nat) : Prop := ∀ b ∈ l, b < 256

instance (l : List Nat) : Decidable (isBytes l) := by
  unfold isBytes; infer_instance

/-- The call `memcpy(dst + off, src, n)`: bytes `off .. off+n-1` of `dst` are replaced by the
first `n` bytes of `src`. -/
def memcpy (dst : List Nat) (off : Nat) (src : List Nat) (n : Nat) : List Nat :=
  dst.take off ++ src.take n ++ dst.drop (off + n)

/-- Invert bit `pos % 8` of byte `pos / 8` of a buffer. -/
def flipBit (buf : List Nat) (pos : Nat) : List Nat :=
  buf.set (pos / 8) (buf.getD (pos / 8) 0 ^^^ 2 ^ (pos % 8))

/-! ## `lib/common/crc8.cpp` -/

/-- One pass of the inner loop of `crc8_dallas`:
`crc = (crc & 0x80) ? (crc << 1) ^ 0x31 : (crc << 1)`, stored into a `uint8_t`. -/
def crc8_shift (crc : Nat) : Nat :=
  if crc &&& 0x80 ≠ 0 then ((crc <<< 1) ^^^ 0x31) % 256 else (crc <<< 1) % 256

/-- One pass of the outer loop of `crc8_dallas`: `crc ^= data[i]`, then eight inner passes. -/
def crc8_byte (crc d : Nat) : Nat :=
  crc8_shift^[8] ((crc ^^^ d) % 256)

/-- The function `crc8_dallas(data, len, init)`: the outer loop runs over `data[0 .. len-1]`. -/
def crc8_dallas (data : List Nat) (len : Nat) (init : Nat) : Nat :=
  (data.take len).foldl crc8_byte init

/-! ### The CRC-8 as the specification words it

MSB-first, polynomial `0x31`, seed `0xFF`, no reflection, no final XOR: the register starts at
the seed, the message bits enter one at a time, most significant bit of each byte first, and
the polynomial is folded in whenever the bit shifted out of the register differs from the
incoming message bit. -/

/-- Feed one message bit into the 8-bit register. -/
def crcSpecBit (poly : Nat) (reg bit : Nat) : Nat :=
  let fed := (reg / 128) % 2 ≠ bit % 2
  let reg := (2 * reg) % 256
  if fed then reg ^^^ poly else reg

/-- The bits of a byte, most significant first. -/
def bitsMsbFirst (d : Nat) : List Nat :=
  [d / 128 % 2, d / 64 % 2, d / 32 % 2, d / 16 % 2, d / 8 % 2, d / 4 % 2, d / 2 % 2, d % 2]

/-- Bit-serial CRC-8 of a message with the given polynomial and seed. -/
def crcSpec (poly seed : Nat) (msg : List Nat) : Nat :=
  (msg.flatMap bitsMsbFirst).foldl (crcSpecBit poly) seed

/-! ## `lib/common/proto.h`, `lib/common/proto.cpp` -/

namespace proto

/-- The packed 9-byte `struct Header`, with its default member initialisers. -/
structure Header where
  ver : Nat := 0x01
  type : Nat := 0
  node_id : Nat := 0
  seq : Nat := 0
  flags : Nat := 0
deriving DecidableEq, Repr

/-- The fields of a header fit their declared types
(`uint8_t`, `uint8_t`, `uint16_t`, `uint32_t`, `uint8_t`). -/
def Header.wf (h : Header) : Prop :=
  h.ver < 256 ∧ h.type < 256 ∧ h.node_id < 65536 ∧ h.seq < 4294967296 ∧ h.flags < 256

instance (h : Header) : Decidable h.wf := by
  unfold Header.wf; infer_instance

/-- The value `sizeof(Header)` of the packed struct. -/
def hdr_len : Nat := 9

/-- Object representation of a `Header`, as read by `memcpy(out, &h, hdr_len)`: the struct is
packed, so the fields follow each other without padding, and the targets are little-endian. -/
def Header.toBytes (h : Header) : List Nat :=
  [h.ver % 256, h.type % 256,
   h.node_id % 256, h.node_id / 256 % 256,
   h.seq % 256, h.seq / 256 % 256, h.seq / 65536 % 256, h.seq / 16777216 % 256,
   h.flags % 256]

/-- The header stored by `memcpy(&h, in, hdr_len)`. -/
def Header.ofBytes (inp : List Nat) : Header :=
  { ver := inp.getD 0 0
    type := inp.getD 1 0
    node_id := inp.getD 2 0 + 256 * inp.getD 3 0
    seq := inp.getD 4 0 + 256 * inp.getD 5 0 + 65536 * inp.getD 6 0 + 16777216 * inp.getD 7 0
    flags := inp.getD 8 0 }

/-- The function `proto::encode(out, cap, h, payload, payload_len)`: the returned length and
the contents of `out` afterwards. The sum `hdr_len + payload_len + 1` cannot wrap: the
payload and the disjoint output buffer both lie in one address space. -/
def encode (out : List Nat) (cap : Nat) (h : Header) (payload : List Nat)
    (payload_len : Nat) : Nat × List Nat :=
  if cap < hdr_len + payload_len + 1 then (0, out)
  else
    let out := memcpy out 0 h.toBytes hdr_len
    let out := memcpy out hdr_len payload payload_len
    let crc := crc8_dallas out (hdr_len + payload_len) 0xFF
    let out := out.set (hdr_len + payload_len) crc
    (hdr_len + payload_len + 1, out)

/-- What a call of `proto::decode` leaves behind: the returned flag, the caller's header, and
the caller's `payload` pointer (the bytes readable from it) and `payload_len`. -/
structure DecodeResult where
  ok : Bool
  h : Header
  payload : List Nat
  payload_len : Nat
deriving DecidableEq, Repr

/-- The function `proto::decode(in, len, h, &payload, &payload_len)`; `h0`, `payload0` and
`payload_len0` are the caller's values before the call. -/
def decode (inp : List Nat) (len : Nat) (h0 : Header) (payload0 : List Nat)
    (payload_len0 : Nat) : DecodeResult :=
  if len < hdr_len + 1 then ⟨false, h0, payload0, payload_len0⟩
  else
    let h := Header.ofBytes inp
    let crc := inp.getD (len - 1) 0
    if crc8_dallas inp (len - 1) 0xFF ≠ crc then ⟨false, h, payload0, payload_len0⟩
    else ⟨true, h, inp.drop hdr_len, len - hdr_len - 1⟩

/-- The frame a successful `encode` leaves at the start of `out`. -/
def frameOf (h : Header) (p : List Nat) : List Nat :=
  h.toBytes ++ p ++ [crc8_dallas (h.toBytes ++ p) (hdr_len + p.length) 0xFF]

end proto

/-! ## `boat_monitoring_system/common/MessageProtocol.h` -/

def MSG_TYPE_ENVIRONMENTAL : Nat := 0x01
def MSG_TYPE_DETECTION : Nat := 0x02
def MSG_TYPE_ALARM : Nat := 0x03
def MSG_TYPE_HEARTBEAT : Nat := 0x04
def MSG_TYPE_WIND : Nat := 0x22

def ENV_PACKET_SIZE : Nat := 12
def DETECTION_PACKET_SIZE : Nat := 8
def ALARM_PACKET_SIZE : Nat := 6
def HEARTBEAT_PACKET_SIZE : Nat := 5
def WIND_PACKET_SIZE : Nat := 16

/-- The expression `x & 0xFF` for a signed (two's complement) `int`, stored into a `uint8_t`:
the residue of `x` modulo 256 in `0 .. 255`. -/
def low8 (x : Int) : Nat := (x % 256).toNat

/-- The conversion `(int8_t)b` of a byte. -/
def toInt8 (b : Nat) : Int :=
  if b % 256 < 128 then ((b % 256 : Nat) : Int) else ((b % 256 : Nat) : Int) - 256

/-- The conversion `(int16_t)n` of a non-negative `int`. -/
def toInt16 (n : Nat) : Int :=
  if n % 65536 < 32768 then ((n % 65536 : Nat) : Int) else ((n % 65536 : Nat) : Int) - 65536

/-- Rounding to the nearest integer, a tie going to the even one. -/
def roundNearestEven (q : ℚ) : Int :=
  let f := ⌊q⌋
  let r := q - f
  if r < 1 / 2 then f
  else if 1 / 2 < r then f + 1
  else if f % 2 = 0 then f else f + 1

/-- The spacing of the values of a binary floating-point format around `x`: `prec` is the
number of significand bits and `emin` the exponent of the least normal value; below
`2 ^ emin` the spacing stays that of the subnormal values. -/
def ulp (prec : Nat) (emin : Int) (x : ℚ) : ℚ :=
  (2 : ℚ) ^ (max (Int.log 2 |x|) emin - ((prec : Int) - 1))

/-- The value of the format nearest to `x`, ties to even (the IEEE 754 default rounding).
Overflow to infinity is not modelled: the result is the one of the hardware for every `x`
below the largest finite value of the format in magnitude. -/
def roundBinary (prec : Nat) (emin : Int) (x : ℚ) : ℚ :=
  (roundNearestEven (x / ulp prec emin x) : ℚ) * ulp prec emin x

/-- Rounding to `float` (IEEE 754 binary32): the result of a `float` operation whose exact
result is `x`, and the conversion of a `double` `x` to `float`. -/
def f32 (x : ℚ) : ℚ := roundBinary 24 (-126) x

/-- Rounding to `double` (IEEE 754 binary64). -/
def f64 (x : ℚ) : ℚ := roundBinary 53 (-1022) x

/-- Conversion of a floating value to an integer type: the fractional part is discarded
(truncation toward zero). The value must fit the target type; no wrap is applied here. -/
def truncToInt (x : ℚ) : Int := if 0 ≤ x then ⌊x⌋ else ⌈x⌉

/-- The conversion `(int16_t)x` of a `float`. C++ defines it when the truncated value fits
`int16_t`. For a value outside that range the behaviour is undefined; the model then keeps
the low 16 bits of the truncated value, which is what the usual targets yield as long as the
truncated value fits a 32-bit `int`. Every statement below about the converted value assumes
the range. -/
def floatToInt16 (x : ℚ) : Int := toInt16 (truncToInt x % 65536).toNat

/-- The conversion `(uint16_t)x` of a `float`, with the same convention outside the range of
`uint16_t`. -/
def floatToUint16 (x : ℚ) : Nat := (truncToInt x % 65536).toNat

/-- The function `packInt16(buf, offset, value)`; `value >> 8` is the arithmetic shift. -/
def packInt16 (buf : List Nat) (offset : Nat) (value : Int) : List Nat :=
  let buf := buf.set offset (low8 (value >>> (8 : Nat)))
  buf.set (offset + 1) (low8 value)

/-- The function `packUint16(buf, offset, value)`. -/
def packUint16 (buf : List Nat) (offset : Nat) (value : Nat) : List Nat :=
  let buf := buf.set offset ((value >>> 8) &&& 0xFF)
  buf.set (offset + 1) (value &&& 0xFF)

/-- The function `unpackInt16(buf, offset)`. -/
def unpackInt16 (buf : List Nat) (offset : Nat) : Int :=
  toInt16 ((buf.getD offset 0 <<< 8) ||| buf.getD (offset + 1) 0)

/-- The function `unpackUint16(buf, offset)`. -/
def unpackUint16 (buf : List Nat) (offset : Nat) : Nat :=
  ((buf.getD offset 0 <<< 8) ||| buf.getD (offset + 1) 0) % 65536

/-- The function `calculateChecksum(buf, len)`: XOR of `buf[0 .. len-1]`. -/
def calculateChecksum (buf : List Nat) (len : Nat) : Nat :=
  (buf.take len).foldl (fun checksum b => checksum ^^^ b) 0

/-- The function `verifyChecksum(buf, len)`. -/
def verifyChecksum (buf : List Nat) (len : Nat) : Bool :=
  if len < 2 then false
  else
    let received := buf.getD (len - 1) 0
    let calculated := calculateChecksum buf (len - 1)
    decide (received = calculated)

/-- The function `packEnvironmentalPacket`: the contents of `packet` afterwards. The
products `temp * 100`, `humidity * 100` and `pressure * 10` are `float` products. -/
def packEnvironmentalPacket (packet : List Nat) (nodeID : Nat) (temp humidity pressure : ℚ)
    (batteryMv : Nat) (rssi : Int) : List Nat :=
  let packet := packet.set 0 nodeID
  let packet := packet.set 1 MSG_TYPE_ENVIRONMENTAL
  let packet := packInt16 packet 2 (floatToInt16 (f32 (temp * 100)))
  let packet := packUint16 packet 4 (floatToUint16 (f32 (humidity * 100)))
  let packet := packUint16 packet 6 (floatToUint16 (f32 (pressure * 10)))
  let packet := packUint16 packet 8 batteryMv
  let packet := packet.set 10 (low8 rssi)
  packet.set 11 (calculateChecksum packet 11)

/-- The values `unpackEnvironmentalPacket` stores through its output pointers. -/
structure EnvFields where
  nodeID : Nat
  temp : ℚ
  humidity : ℚ
  pressure : ℚ
  batteryMv : Nat
  rssi : Int
deriving DecidableEq

/-- The function `unpackEnvironmentalPacket`: `none` when it returns `false` (nothing is
stored), the stored values when it returns `true`. The divisors `100.0` and `10.0` are
`double`, so each quotient is a `double` quotient, narrowed by the store through `float*`. -/
def unpackEnvironmentalPacket (packet : List Nat) : Option EnvFields :=
  if !verifyChecksum packet ENV_PACKET_SIZE then none
  else some
    { nodeID := packet.getD 0 0
      temp := f32 (f64 ((unpackInt16 packet 2 : ℚ) / 100))
      humidity := f32 (f64 ((unpackUint16 packet 4 : ℚ) / 100))
      pressure := f32 (f64 ((unpackUint16 packet 6 : ℚ) / 10))
      batteryMv := unpackUint16 packet 8
      rssi := toInt8 (packet.getD 10 0) }

/-- The function `packDetectionPacket`. -/
def packDetectionPacket (packet : List Nat) (nodeID eventType confidence distance zone : Nat) :
    List Nat :=
  let packet := packet.set 0 nodeID
  let packet := packet.set 1 MSG_TYPE_DETECTION
  let packet := packet.set 2 eventType
  let packet := packet.set 3 confidence
  let packet := packUint16 packet 4 distance
  let packet := packet.set 6 zone
  packet.set 7 (calculateChecksum packet 7)

/-- The values `unpackDetectionPacket` stores through its output pointers. -/
structure DetectionFields where
  nodeID : Nat
  eventType : Nat
  confidence : Nat
  distance : Nat
  zone : Nat
deriving DecidableEq, Repr

/-- The function `unpackDetectionPacket`: `none` when it returns `false`. -/
def unpackDetectionPacket (packet : List Nat) : Option DetectionFields :=
  if !verifyChecksum packet DETECTION_PACKET_SIZE then none
  else some
    { nodeID := packet.getD 0 0
      eventType := packet.getD 2 0
      confidence := packet.getD 3 0
      distance := unpackUint16 packet 4
      zone := packet.getD 6 0 }

/-- The function `packAlarmPacket`. -/
def packAlarmPacket (packet : List Nat) (fromNodeID command mode targetNode : Nat) : List Nat :=
  let packet := packet.set 0 fromNodeID
  let packet := packet.set 1 MSG_TYPE_ALARM
  let packet := packet.set 2 command
  let packet := packet.set 3 mode
  let packet := packet.set 4 targetNode
  packet.set 5 (calculateChecksum packet 5)

/-- The values `unpackAlarmPacket` stores through its output pointers. -/
structure AlarmFields where
  fromNodeID : Nat
  command : Nat
  mode : Nat
  targetNode : Nat
deriving DecidableEq, Repr

/-- The function `unpackAlarmPacket`: `none` when it returns `false`. -/
def unpackAlarmPacket (packet : List Nat) : Option AlarmFields :=
  if !verifyChecksum packet ALARM_PACKET_SIZE then none
  else some
    { fromNodeID := packet.getD 0 0
      command := packet.getD 2 0
      mode := packet.getD 3 0
      targetNode := packet.getD 4 0 }

/-- The function `packHeartbeatPacket`. -/
def packHeartbeatPacket (packet : List Nat) (nodeID batteryMv : Nat) : List Nat :=
  let packet := packet.set 0 nodeID
  let packet := packet.set 1 MSG_TYPE_HEARTBEAT
  let packet := packUint16 packet 2 batteryMv
  packet.set 4 (calculateChecksum packet 4)

/-- What a call of `unpackHeartbeatPacket` leaves behind: the value handed back by a `return`
statement, if one was executed, and the caller's `nodeID` and `batteryMv`. -/
structure HeartbeatResult where
  returned : Option Bool
  nodeID : Nat
  batteryMv : Nat
deriving DecidableEq, Repr

/-- The function `unpackHeartbeatPacket`; `nodeID0` and `batteryMv0` are the caller's values
before the call. Its body is
`if (!verifyChecksum(packet, HEARTBEAT_PACKET_SIZE)) return false;`
`*nodeID = packet[0]; *batteryMv = unpackUint16(packet, 2);`
and ends there: on the path where the checksum verifies no `return` statement is executed,
so no value is handed back. -/
def unpackHeartbeatPacket (packet : List Nat) (nodeID0 batteryMv0 : Nat) : HeartbeatResult :=
  if !verifyChecksum packet HEARTBEAT_PACKET_SIZE then
    { returned := some false, nodeID := nodeID0, batteryMv := batteryMv0 }
  else
    { returned := none, nodeID := packet.getD 0 0, batteryMv := unpackUint16 packet 2 }

/-- The function `packWindPacket`. -/
def packWindPacket (packet : List Nat) (nodeID aws awd tws twd bsp bhd fixQuality : Nat) :
    List Nat :=
  let packet := packet.set 0 nodeID
  let packet := packet.set 1 MSG_TYPE_WIND
  let packet := packUint16 packet 2 aws
  let packet := packUint16 packet 4 awd
  let packet := packUint16 packet 6 tws
  let packet := packUint16 packet 8 twd
  let packet := packUint16 packet 10 bsp
  let packet := packUint16 packet 12 bhd
  let packet := packet.set 14 fixQuality
  packet.set 15 (calculateChecksum packet 15)

/-- The values `unpackWindPacket` stores through its output pointers. -/
structure WindFields where
  nodeID : Nat
  aws : Nat
  awd : Nat
  tws : Nat
  twd : Nat
  bsp : Nat
  bhd : Nat
  fixQuality : Nat
deriving DecidableEq, Repr

/-- The function `unpackWindPacket`: `none` when it returns `false`. -/
def unpackWindPacket (packet : List Nat) : Option WindFields :=
  if !verifyChecksum packet WIND_PACKET_SIZE then none
  else some
    { nodeID := packet.getD 0 0
      aws := unpackUint16 packet 2
      awd := unpackUint16 packet 4
      tws := unpackUint16 packet 6
      twd := unpackUint16 packet 8
      bsp := unpackUint16 packet 10
      bhd := unpackUint16 packet 12
      fixQuality := packet.getD 14 0 }

/-! ## `boat_monitoring_system/common/CommonTypes.h`, `hub_firmware/alarm/AlarmManager.h` -/

/-- The enumeration `AlarmMode`. -/
inductive AlarmMode where
  | MODE_DISARMED
  | MODE_DOORBELL
  | MODE_PERIMETER
  | MODE_FULL
  | MODE_QUIET
deriving DecidableEq, Repr

/-- The data members of `class AlarmManager`. -/
structure AlarmManager where
  currentMode : AlarmMode
  alarmTriggered : Bool
  triggeringNode : Nat
  alarmTime : Nat
  alarmPin : String
deriving DecidableEq, Repr

namespace AlarmManager

/-- The constructor `AlarmManager()`. -/
def new : AlarmManager :=
  { currentMode := AlarmMode.MODE_DISARMED
    alarmTriggered := false
    triggeringNode := 0
    alarmTime := 0
    alarmPin := "1234" }

/-- The method `begin()`. -/
def begin (s : AlarmManager) : AlarmManager :=
  { s with currentMode := AlarmMode.MODE_DISARMED, alarmTriggered := false }

/-- The method `armSystem(mode)`. -/
def armSystem (s : AlarmManager) (mode : AlarmMode) : AlarmManager :=
  { s with currentMode := mode, alarmTriggered := false }

/-- The method `disarm()`. -/
def disarm (s : AlarmManager) : AlarmManager :=
  { s with currentMode := AlarmMode.MODE_DISARMED, alarmTriggered := false, triggeringNode := 0 }

/-- The method `triggerAlarm(nodeID)`; `millis` is the value `millis()` returns during the
call. -/
def triggerAlarm (s : AlarmManager) (nodeID : Nat) (millis : Nat) : AlarmManager :=
  if s.currentMode = AlarmMode.MODE_DISARMED then s
  else if !s.alarmTriggered then
    { s with alarmTriggered := true, triggeringNode := nodeID, alarmTime := millis }
  else s

/-- The method `verifyPin(pin)`. -/
def verifyPin (s : AlarmManager) (pin : String) : Bool :=
  decide (pin = s.alarmPin)

/-- The method `setPin(newPin)`. -/
def setPin (s : AlarmManager) (newPin : String) : AlarmManager :=
  { s with alarmPin := newPin }

/-- The method `process()`; `millis() - alarmTime` is a subtraction of 32-bit `unsigned long`
values. -/
def process (s : AlarmManager) (millis : Nat) : AlarmManager :=
  if s.alarmTriggered && decide ((millis + 4294967296 - s.alarmTime) % 4294967296 > 600000)
  then s.disarm
  else s

end AlarmManager

namespace AlarmManager

/-- One call of a public method of `AlarmManager` that can be made on the hub; `millis` is the
value `millis()` returns during the call. -/
inductive Call where
  | begin
  | armSystem (mode : AlarmMode)
  | disarm
  | triggerAlarm (nodeID : Nat) (millis : Nat)
  | setPin (newPin : String)
  | verifyPin (pin : String)
  | process (millis : Nat)
deriving DecidableEq, Repr

/-- Whether the call is a `triggerAlarm`. -/
def Call.isTriggerAlarm : Call → Bool
  | Call.triggerAlarm _ _ => true
  | _ => false

/-- The state after one call; `verifyPin` is a `const`-like query and changes nothing. -/
def call (s : AlarmManager) : Call → AlarmManager
  | Call.begin => s.begin
  | Call.armSystem mode => s.armSystem mode
  | Call.disarm => s.disarm
  | Call.triggerAlarm nodeID millis => s.triggerAlarm nodeID millis
  | Call.setPin newPin => s.setPin newPin
  | Call.verifyPin _ => s
  | Call.process millis => s.process millis

/-- The state after a sequence of calls, first call first. -/
def calls (s : AlarmManager) (cs : List Call) : AlarmManager :=
  cs.foldl call s

end AlarmManager

/-! ## 32-bit unsigned arithmetic (`uint32_t`) -/

/-- A value stored into a `uint32_t`. -/
def u32 (n : Nat) : Nat := n % 4294967296

/-- The difference `a - b` of two `uint32_t` values. -/
def u32sub (a b : Nat) : Nat := (a + 4294967296 - b % 4294967296) % 4294967296

/-! ## `lib/common/config.h` -/

/-- The `struct AlarmCfg`, with its default member initialisers. -/
structure AlarmCfg where
  armed : Bool := true
  grace_period_s : Nat := 30
  alert_cooldown_s : Nat := 300
deriving DecidableEq, Repr

/-- The part of `struct AppCfg` read by the intrusion state machine (the global `CFG`). -/
structure AppCfg where
  alarm : AlarmCfg := {}
deriving DecidableEq, Repr

namespace proto

/-- The enumerators of `proto::Type`. -/
def ENV : Nat := 0
def MOTION : Nat := 1
def PING : Nat := 2
def POWER : Nat := 3
def ACK : Nat := 4
def WIND : Nat := 5

end proto

/-! ## `int_gateway/src/main.cpp` -/

namespace gateway

/-- The enumeration `AlarmState`. -/
inductive AlarmState where
  | DISARMED
  | ARMED
  | ALARM_ACTIVE
  | GRACE_PERIOD
deriving DecidableEq, Repr

/-- One call `smtp_send_async(subject, body)`. -/
structure Mail where
  subject : String
  body : String
deriving DecidableEq, Repr

/-- The file-scope variables of the alarm state management, with their initialisers. -/
structure Statics where
  alarm_state : AlarmState := AlarmState.ARMED
  last_motion_time : Nat := 0
  last_alert_time : Nat := 0
  grace_period_active : Bool := false
  last_tws_knots : ℚ := 0
  last_twd_deg : Int := 0
deriving DecidableEq

/-- The notice sent when a motion frame arrives in `ARMED`. -/
def mailGraceStarted : Mail :=
  { subject := "[Bristol32] NOTICE", body := "Motion detected - grace period started" }

/-- The notice sent when a motion frame arrives in `GRACE_PERIOD`. -/
def mailVisitor : Mail :=
  { subject := "[Bristol32] VISITOR", body := "Visitor detected at entrance" }

/-- The notice sent when a motion frame arrives in `ALARM_ACTIVE` after the cooldown. -/
def mailAlarmUpdate : Mail :=
  { subject := "[Bristol32] ALARM UPDATE",
    body := "Additional motion detected during active alarm" }

/-- The alert sent when the grace period expires. -/
def mailIntruder : Mail :=
  { subject := "[Bristol32] INTRUDER ALERT",
    body := "Motion detected without visitor confirmation - possible intruder!" }

/-- The notice sent when the alarm resets after the cooldown. -/
def mailAlarmReset : Mail :=
  { subject := "[Bristol32] ALARM RESET", body := "Alarm system reset to armed state" }

/-- The function `handle_frame(buf, len)`: the variables afterwards and the calls of
`smtp_send_async` made, in order; `millis` is the value `millis()` returns. The local header
is default-constructed; `p` and `n` are set by a successful `decode`. In the `WIND` branch the
payload is read through `(const proto::WindPayload *)p`: `tws_mms` is the 16-bit value at
payload offset 4 and `twd_deg10` the one at offset 6 (little-endian target); the quotient by
the `double` constant `514.444` is a `double` quotient, narrowed by the store into the
`float` variable. -/
def handle_frame (CFG : AppCfg) (st : Statics) (buf : List Nat) (len : Nat) (millis : Nat) :
    Statics × List Mail :=
  let d := proto.decode buf len {} [] 0
  if !d.ok then (st, [])
  else
    let now := u32 millis
    if d.h.type = proto.MOTION then
      let st := { st with last_motion_time := now }
      if st.alarm_state = AlarmState.ARMED then
        ({ st with alarm_state := AlarmState.GRACE_PERIOD, grace_period_active := true },
          [mailGraceStarted])
      else if st.alarm_state = AlarmState.GRACE_PERIOD then
        (st, [mailVisitor])
      else if st.alarm_state = AlarmState.ALARM_ACTIVE then
        if u32sub now st.last_alert_time > u32 (CFG.alarm.alert_cooldown_s * 1000) then
          ({ st with last_alert_time := now }, [mailAlarmUpdate])
        else (st, [])
      else (st, [])
    else if d.h.type = proto.ENV then (st, [])
    else if d.h.type = proto.WIND then
      let tws_mms := d.payload.getD 4 0 + 256 * d.payload.getD 5 0
      let twd_deg10 := d.payload.getD 6 0 + 256 * d.payload.getD 7 0
      ({ st with last_tws_knots := f32 (f64 ((tws_mms : ℚ) / f64 (514444 / 1000))),
                 last_twd_deg := ((twd_deg10 / 10 : Nat) : Int) }, [])
    else (st, [])

/-- One pass of the `for (;;)` body of `task_alarm_manager`: the variables afterwards and the
calls of `smtp_send_async` made, in order; `millis` is the value `millis()` returns. -/
def task_alarm_manager (CFG : AppCfg) (st : Statics) (millis : Nat) : Statics × List Mail :=
  let now := u32 millis
  let r1 : Statics × List Mail :=
    if st.alarm_state = AlarmState.GRACE_PERIOD ∧ st.grace_period_active = true then
      if u32sub now st.last_motion_time > u32 (CFG.alarm.grace_period_s * 1000) then
        ({ st with alarm_state := AlarmState.ALARM_ACTIVE, grace_period_active := false,
                   last_alert_time := now }, [mailIntruder])
      else (st, [])
    else (st, [])
  let r2 : Statics × List Mail :=
    if r1.1.alarm_state = AlarmState.ALARM_ACTIVE ∧
        u32sub now r1.1.last_alert_time > u32 (CFG.alarm.alert_cooldown_s * 1000) then
      ({ r1.1 with alarm_state := AlarmState.ARMED }, [mailAlarmReset])
    else (r1.1, [])
  (r2.1, r1.2 ++ r2.2)

/-- What the two tasks do to the shared variables: `task_lora_rx` hands a received buffer to
`handle_frame`, `task_alarm_manager` makes one pass of its loop. -/
inductive Event where
  | frame (buf : List Nat) (len : Nat) (millis : Nat)
  | tick (millis : Nat)
deriving DecidableEq, Repr

/-- The clock value read during an event. -/
def Event.millis : Event → Nat
  | Event.frame _ _ millis => millis
  | Event.tick millis => millis

/-- The effect of one event. -/
def step (CFG : AppCfg) (st : Statics) : Event → Statics × List Mail
  | Event.frame buf len millis => handle_frame CFG st buf len millis
  | Event.tick millis => task_alarm_manager CFG st millis

/-- The effect of a sequence of events, first event first: the variables afterwards and every
notification sent, each with the clock value of the event that sent it. -/
def run (CFG : AppCfg) (st : Statics) : List Event → Statics × List (Nat × Mail)
  | [] => (st, [])
  | e :: es =>
    let r := step CFG st e
    let rs := run CFG r.1 es
    (rs.1, r.2.map (fun m => (u32 e.millis, m)) ++ rs.2)

/-- The notifications sent along a sequence of events, each with the time of the event that
sent it. Here the `millis` of an event is the time in milliseconds since boot, which does not
wrap; `handle_frame` and `task_alarm_manager` work on the 32-bit counter value `u32 millis`
that `millis()` returns at that time. -/
def sentAt (CFG : AppCfg) (st : Statics) : List Event → List (Nat × Mail)
  | [] => []
  | e :: es =>
    (step CFG st e).2.map (fun m => (e.millis, m)) ++ sentAt CFG (step CFG st e).1 es

end gateway

/-! ## `boat_monitoring_system/hub_firmware/lora/LoRaHub.h` -/

namespace LoRaHub

/-- The final byte of an `n`-byte packet equals the XOR of all bytes before it. -/
def lastIsXorOfRest (buf : List Nat) (n : Nat) : Prop :=
  buf.getD (n - 1) 0 = (buf.take (n - 1)).foldl (fun c b => c ^^^ b) 0

instance (buf : List Nat) (n : Nat) : Decidable (lastIsXorOfRest buf n) := by
  unfold lastIsXorOfRest; infer_instance

/-- One invocation of a registered callback, with its arguments. -/
inductive Invocation where
  | onEnvData (nodeID : Nat) (temp humidity pressure : ℚ) (batteryMv : Nat) (rssi : Int)
  | onDetection (nodeID eventType confidence distance zone : Nat)
  | onAlarm (nodeID command mode : Nat)
deriving DecidableEq

/-- The callback members of `class LoRaHub`: whether each pointer is non-null. -/
structure Callbacks where
  onEnvData : Bool := false
  onDetection : Bool := false
  onAlarm : Bool := false
deriving DecidableEq, Repr

/-- The method `handleEnvironmentalPacket(buf, len, rssi)`: the callback invocations made.
The callback takes its last argument as `int8_t`, so the `int16_t rssi` is narrowed. -/
def handleEnvironmentalPacket (cb : Callbacks) (buf : List Nat) (len : Nat) (rssi : Int) :
    List Invocation :=
  if len ≠ ENV_PACKET_SIZE then []
  else
    match unpackEnvironmentalPacket buf with
    | some e =>
      if cb.onEnvData then
        [Invocation.onEnvData e.nodeID e.temp e.humidity e.pressure e.batteryMv
          (toInt8 (low8 rssi))]
      else []
    | none => []

/-- The method `handleDetectionPacket(buf, len)`. -/
def handleDetectionPacket (cb : Callbacks) (buf : List Nat) (len : Nat) : List Invocation :=
  if len ≠ DETECTION_PACKET_SIZE then []
  else
    match unpackDetectionPacket buf with
    | some e =>
      if cb.onDetection then
        [Invocation.onDetection e.nodeID e.eventType e.confidence e.distance e.zone]
      else []
    | none => []

/-- The method `handleAlarmPacket(buf, len)`. -/
def handleAlarmPacket (cb : Callbacks) (buf : List Nat) (len : Nat) : List Invocation :=
  if len ≠ ALARM_PACKET_SIZE then []
  else
    match unpackAlarmPacket buf with
    | some e => if cb.onAlarm then [Invocation.onAlarm e.fromNodeID e.command e.mode] else []
    | none => []

/-- The method `handleHeartbeatPacket(buf, len)`; it has no callback and only logs. The
result is `none` when the behaviour is undefined: on a packet whose checksum verifies,
control flows off the end of the value-returning `unpackHeartbeatPacket`, and the `if` tests
a value that was never returned. -/
def handleHeartbeatPacket (_cb : Callbacks) (buf : List Nat) (len : Nat) :
    Option (List Invocation) :=
  if len ≠ HEARTBEAT_PACKET_SIZE then some []
  else
    match (unpackHeartbeatPacket buf 0 0).returned with
    | some true => some []
    | some false => some []
    | none => none

/-- The method `handleMessage(buf, len, from, rssi)`: the callback invocations made, or
`none` when the behaviour is undefined (see `handleHeartbeatPacket`). -/
def handleMessage (cb : Callbacks) (buf : List Nat) (len : Nat) (_from : Nat) (rssi : Int) :
    Option (List Invocation) :=
  if len < 2 then some []
  else
    let packetType := buf.getD 1 0
    if packetType = MSG_TYPE_ENVIRONMENTAL then some (handleEnvironmentalPacket cb buf len rssi)
    else if packetType = MSG_TYPE_DETECTION then some (handleDetectionPacket cb buf len)
    else if packetType = MSG_TYPE_ALARM then some (handleAlarmPacket cb buf len)
    else if packetType = MSG_TYPE_HEARTBEAT then handleHeartbeatPacket cb buf len
    else some []

end LoRaHub

/-! ## `MessageProtocol.h`, continued: what the node firmware uses -/

def MSG_TYPE_CONFIG : Nat := 0x20
def MSG_TYPE_TIME_SYNC : Nat := 0x21
def HUB_ADDRESS : Nat := 0x00
def BROADCAST_ADDRESS : Nat := 0xFF

/-- The function `unpackUint32(buf, offset)`. -/
def unpackUint32 (buf : List Nat) (offset : Nat) : Nat :=
  ((buf.getD offset 0 <<< 24) ||| (buf.getD (offset + 1) 0 <<< 16) |||
    (buf.getD (offset + 2) 0 <<< 8) ||| buf.getD (offset + 3) 0) % 4294967296

/-! ## `boat_monitoring_system/node_firmware/lora/LoRaComm.h` -/

namespace LoRaComm

/-- The lines a handler writes to the serial log, by meaning. -/
inductive Log where
  | nonHubSource
  | tooShort
  | invalidAlarmSize
  | alarmChecksumFailed
  | alarmCommand (command mode : Nat)
  | configUpdate
  | timeSync
  | timestamp (value : Nat)
  | unknownType (packetType : Nat)
deriving DecidableEq, Repr

/-- The members of `class LoRaComm` the receive path reads; `onMessageReceived` is whether the
callback pointer is non-null. -/
structure Node where
  nodeID : Nat
  hubID : Nat
  onMessageReceived : Bool
deriving DecidableEq, Repr

/-- One invocation `onMessageReceived(data, len, from)`. -/
structure Invocation where
  data : List Nat
  len : Nat
  sender : Nat
deriving DecidableEq, Repr

/-- What handling one received message does: the log lines and the callback invocations. -/
structure Effect where
  log : List Log
  invocations : List Invocation
deriving DecidableEq, Repr

/-- The method `handleAlarmCommand(buf, len)`. -/
def handleAlarmCommand (node : Node) (buf : List Nat) (len : Nat) : List Log :=
  if len ≠ ALARM_PACKET_SIZE then [Log.invalidAlarmSize]
  else
    match unpackAlarmPacket buf with
    | none => [Log.alarmChecksumFailed]
    | some a =>
      if a.targetNode ≠ node.nodeID ∧ a.targetNode ≠ BROADCAST_ADDRESS then []
      else [Log.alarmCommand a.command a.mode]

/-- The method `handleConfigUpdate(buf, len)`. -/
def handleConfigUpdate (_buf : List Nat) (_len : Nat) : List Log :=
  [Log.configUpdate]

/-- The method `handleTimeSync(buf, len)`. -/
def handleTimeSync (buf : List Nat) (len : Nat) : List Log :=
  if len ≥ 6 then [Log.timeSync, Log.timestamp (unpackUint32 buf 2)] else [Log.timeSync]

/-- The method `handleIncomingMessage(buf, len, from)`. The `return` statements inside the
three handlers leave the handler only; the callback test follows the `switch`. -/
def handleIncomingMessage (node : Node) (buf : List Nat) (len : Nat) (sender : Nat) : Effect :=
  if sender ≠ node.hubID ∧ sender ≠ BROADCAST_ADDRESS then
    { log := [Log.nonHubSource], invocations := [] }
  else if len < 2 then
    { log := [Log.tooShort], invocations := [] }
  else
    let packetType := buf.getD 1 0
    let log :=
      if packetType = MSG_TYPE_ALARM then handleAlarmCommand node buf len
      else if packetType = MSG_TYPE_CONFIG then handleConfigUpdate buf len
      else if packetType = MSG_TYPE_TIME_SYNC then handleTimeSync buf len
      else [Log.unknownType packetType]
    { log := log
      invocations :=
        if node.onMessageReceived then [{ data := buf, len := len, sender := sender }] else [] }

end LoRaComm

/-! ## `int_gateway/src/smtp_client.cpp` -/

namespace smtp

/-- The `struct MailItem`. -/
structure MailItem where
  subject : String
  body : String
deriving DecidableEq, Repr

/-- The length given to `xQueueCreate(10, sizeof(MailItem))`. -/
def QUEUE_LENGTH : Nat := 10

/-- The FreeRTOS call `xQueueSend(q, &it, 0)` on a queue of `QUEUE_LENGTH` slots: with a zero
wait the item goes to the back if a slot is free, and the call fails at once otherwise. The
result is the queue afterwards and whether the item was taken. -/
def xQueueSend (q : List MailItem) (it : MailItem) : List MailItem × Bool :=
  if q.length < QUEUE_LENGTH then (q ++ [it], true) else (q, false)

/-- The FreeRTOS call `xQueueSendToFront(q, &it, 0)`: as `xQueueSend`, at the front. -/
def xQueueSendToFront (q : List MailItem) (it : MailItem) : List MailItem × Bool :=
  if q.length < QUEUE_LENGTH then (it :: q, true) else (q, false)

/-- The function `smtp_client_start()`, on the handle `q_mail` (`none` is the null handle,
`some q` a created queue with contents `q`). -/
def smtp_client_start (q_mail : Option (List MailItem)) : Option (List MailItem) :=
  match q_mail with
  | some q => some q
  | none => some []

/-- The function `smtp_send_async(subject, body)`: the handle `q_mail` afterwards. The result
of `xQueueSend` is not looked at. -/
def smtp_send_async (q_mail : Option (List MailItem)) (subject body : String) :
    Option (List MailItem) :=
  match q_mail with
  | none => none
  | some q => some (xQueueSend q { subject := subject, body := body }).1

/-- How one delivery attempt of `smtp_task` ends: `ensure_login()` fails, `sendMail` fails, or
the mail is sent. -/
inductive Attempt where
  | loginFailed
  | sendFailed
  | sent
deriving DecidableEq, Repr

/-- Whether the attempt failed. -/
def Attempt.failed : Attempt → Bool
  | Attempt.sent => false
  | _ => true

/-- The state of `smtp_task`: the queue contents, the item `it` held by the inner loop (if
any), `backoff_ms`, and the waits `vTaskDelay(backoff_ms)` made so far, oldest first. -/
structure Task where
  q : List MailItem := []
  it : Option MailItem := none
  backoff_ms : Nat := 10000
  delays : List Nat := []
deriving DecidableEq, Repr

/-- One pass of the inner loop of `smtp_task` with the given outcome. When no item is held,
`xQueueReceive(q_mail, &it, portMAX_DELAY)` first takes the queue head; on an empty queue the
task stays blocked there. The update `min<uint32_t>(backoff_ms * 2, 600000)` is computed in
`uint32_t`. After a failed send the item is pushed back to the queue front (dropped if the
queue is full) and the loop goes on with the same item. -/
def smtp_task_pass (s : Task) (a : Attempt) : Task :=
  let held : Option (MailItem × List MailItem) :=
    match s.it with
    | some it => some (it, s.q)
    | none =>
      match s.q with
      | [] => none
      | it :: rest => some (it, rest)
  match held with
  | none => s
  | some (it, q) =>
    match a with
    | Attempt.loginFailed =>
      { q := q, it := some it, backoff_ms := min (u32 (s.backoff_ms * 2)) 600000,
        delays := s.delays ++ [s.backoff_ms] }
    | Attempt.sendFailed =>
      { q := (xQueueSendToFront q it).1, it := some it,
        backoff_ms := min (u32 (s.backoff_ms * 2)) 600000,
        delays := s.delays ++ [s.backoff_ms] }
    | Attempt.sent =>
      { q := q, it := none, backoff_ms := 10000, delays := s.delays }

/-- A sequence of passes, first pass first. -/
def smtp_task_run (s : Task) (outcomes : List Attempt) : Task :=
  outcomes.foldl smtp_task_pass s

end smtp

/-! ## Lemmas: bytes and CRC -/

theorem crc8_shift_lt (c : Nat) : crc8_shift c < 256 := by
  unfold crc8_shift
  split <;> exact Nat.mod_lt _ (by norm_num)

theorem crc8_shift_iterate_lt (k : Nat) (c : Nat) (hc : c < 256) : crc8_shift^[k] c < 256 := by
  induction k generalizing c with
  | zero => simpa using hc
  | succ k ih =>
    rw [Function.iterate_succ_apply]
    exact ih _ (crc8_shift_lt c)

theorem crc8_byte_lt (c d : Nat) : crc8_byte c d < 256 :=
  crc8_shift_iterate_lt 8 _ (Nat.mod_lt _ (by norm_num))

theorem crc8_foldl_lt (l : List Nat) (c : Nat) (hc : c < 256) :
    l.foldl crc8_byte c < 256 := by
  induction l generalizing c with
  | nil => simpa using hc
  | cons d l ih => exact ih _ (crc8_byte_lt c d)

theorem crc8_dallas_lt (data : List Nat) (len init : Nat) (hi : init < 256) :
    crc8_dallas data len init < 256 :=
  crc8_foldl_lt _ _ hi

theorem crc8_dallas_append (a b : List Nat) (init : Nat) :
    crc8_dallas (a ++ b) a.length init = a.foldl crc8_byte init := by
  simp [crc8_dallas]

theorem crc8_dallas_full (a : List Nat) (init : Nat) :
    crc8_dallas a a.length init = a.foldl crc8_byte init := by
  simp [crc8_dallas]

namespace proto

theorem Header.toBytes_length (h : Header) : h.toBytes.length = 9 := rfl

theorem Header.ofBytes_toBytes (h : Header) (rest : List Nat) (hwf : h.wf) :
    Header.ofBytes (h.toBytes ++ rest) = h := by
  obtain ⟨h1, h2, h3, h4, h5⟩ := hwf
  cases h with
  | mk ver type node_id seq flags =>
    simp only [Header.toBytes, Header.ofBytes, List.cons_append, List.getD_cons_zero,
      List.getD_cons_succ, Header.mk.injEq] at *
    refine ⟨?_, ?_, ?_, ?_, ?_⟩ <;> omega

theorem encode_too_small (out : List Nat) (cap : Nat) (h : Header) (p : List Nat)
    (hcap : cap < 9 + p.length + 1) : encode out cap h p p.length = (0, out) := by
  simp [encode, hdr_len, hcap]

theorem encode_fits (out : List Nat) (cap : Nat) (h : Header) (p : List Nat)
    (hcap : 9 + p.length + 1 ≤ cap) (hout : cap ≤ out.length) :
    encode out cap h p p.length
      = (9 + p.length + 1, frameOf h p ++ out.drop (9 + p.length + 1)) := by
  have hlen : 9 + p.length + 1 ≤ out.length := le_trans hcap hout
  have hnot : ¬ cap < 9 + p.length + 1 := by omega
  have e1 : memcpy out 0 h.toBytes 9 = h.toBytes ++ out.drop 9 := by
    simp [memcpy, ← Header.toBytes_length h]
  have e2 : memcpy (h.toBytes ++ out.drop 9) 9 p p.length
      = (h.toBytes ++ p) ++ out.drop (9 + p.length) := by
    have hd : (h.toBytes ++ out.drop 9).drop (9 + p.length) = out.drop (9 + p.length) := by
      rw [List.drop_append_eq_append_drop, Header.toBytes_length]
      have : List.drop (9 + p.length) h.toBytes = [] :=
        List.drop_eq_nil_of_le (by rw [Header.toBytes_length]; omega)
      rw [this, List.nil_append, List.drop_drop]
      congr 1; omega
    have ht : (h.toBytes ++ out.drop 9).take 9 = h.toBytes := by
      rw [← Header.toBytes_length h, List.take_left]
    simp only [memcpy, hd, ht, List.take_length]
  have hlen2 : (h.toBytes ++ p).length = 9 + p.length := by
    simp [Header.toBytes_length]
  have e3 : crc8_dallas ((h.toBytes ++ p) ++ out.drop (9 + p.length)) (9 + p.length) 0xFF
      = crc8_dallas (h.toBytes ++ p) (9 + p.length) 0xFF := by
    rw [← hlen2, crc8_dallas_append, crc8_dallas_full]
  have e4 : ∀ c : Nat, ((h.toBytes ++ p) ++ out.drop (9 + p.length)).set (9 + p.length) c
      = (h.toBytes ++ p) ++ [c] ++ out.drop (9 + p.length + 1) := by
    intro c
    have hne : out.drop (9 + p.length) ≠ [] := by
      intro hnil
      have := congrArg List.length hnil
      simp at this
      omega
    obtain ⟨x, xs, hx⟩ := List.exists_cons_of_ne_nil hne
    have hxs : out.drop (9 + p.length + 1) = xs := by
      rw [← List.drop_drop, hx]
      rfl
    rw [hx, hxs, ← hlen2, List.set_append_right _ _ (le_refl _)]
    simp
  simp only [encode, hdr_len, hnot, if_false, e1, e2, e3, e4, frameOf]

theorem frameOf_length (h : Header) (p : List Nat) :
    (frameOf h p).length = 9 + p.length + 1 := by
  simp only [frameOf, List.length_append, Header.toBytes_length, List.length_singleton]

theorem encode_frame (out : List Nat) (cap : Nat) (h : Header) (p : List Nat)
    (hcap : 9 + p.length + 1 ≤ cap) (hout : cap ≤ out.length) :
    (encode out cap h p p.length).2.take (encode out cap h p p.length).1 = frameOf h p := by
  rw [encode_fits out cap h p hcap hout]
  simp only []
  rw [← frameOf_length h p, List.take_left]

/-- Unfolding of `decode` on a buffer given as a body followed by one trailer byte. -/
theorem decode_snoc (body : List Nat) (c : Nat) (h0 : Header) (pl0 : List Nat) (n0 : Nat)
    (hlen : 9 ≤ body.length) :
    decode (body ++ [c]) (body.length + 1) h0 pl0 n0 =
      if body.foldl crc8_byte 0xFF ≠ c then ⟨false, Header.ofBytes (body ++ [c]), pl0, n0⟩
      else ⟨true, Header.ofBytes (body ++ [c]), (body ++ [c]).drop 9, body.length - 9⟩ := by
  have h1 : ¬ body.length + 1 < 9 + 1 := by omega
  have h2 : (body ++ [c]).getD body.length 0 = c := by
    rw [List.getD_append_right _ _ _ _ (le_refl _)]
    simp
  have h3 : crc8_dallas (body ++ [c]) body.length 0xFF = body.foldl crc8_byte 0xFF :=
    crc8_dallas_append body [c] 0xFF
  have h4 : body.length + 1 - 9 - 1 = body.length - 9 := by omega
  simp only [decode, hdr_len, h1, if_false, Nat.add_sub_cancel, h2, h3, h4]

theorem decode_ok_snoc (body : List Nat) (c : Nat) (h0 : Header) (pl0 : List Nat) (n0 : Nat)
    (hlen : 9 ≤ body.length) :
    (decode (body ++ [c]) (body.length + 1) h0 pl0 n0).ok = true
      ↔ body.foldl crc8_byte 0xFF = c := by
  rw [decode_snoc body c h0 pl0 n0 hlen]
  by_cases hc : body.foldl crc8_byte 0xFF = c <;> simp [hc]

theorem decode_frameOf (h : Header) (p : List Nat) (h0 : Header) (pl0 : List Nat) (n0 : Nat)
    (hwf : h.wf) :
    decode (frameOf h p) (9 + p.length + 1) h0 pl0 n0
      = ⟨true, h, p ++ [(h.toBytes ++ p).foldl crc8_byte 0xFF], p.length⟩ := by
  have hl : (h.toBytes ++ p).length = 9 + p.length := by simp [Header.toBytes_length]
  have hc : crc8_dallas (h.toBytes ++ p) (hdr_len + p.length) 0xFF
      = (h.toBytes ++ p).foldl crc8_byte 0xFF := by
    rw [show hdr_len + p.length = (h.toBytes ++ p).length from hl.symm, crc8_dallas_full]
  have hd := decode_snoc (h.toBytes ++ p) ((h.toBytes ++ p).foldl crc8_byte 0xFF) h0 pl0 n0
    (by omega)
  rw [hl] at hd
  rw [frameOf, hc, hd]
  have e1 : Header.ofBytes (h.toBytes ++ p ++ [(h.toBytes ++ p).foldl crc8_byte 0xFF]) = h := by
    rw [List.append_assoc]
    exact Header.ofBytes_toBytes h _ hwf
  have e2 : (h.toBytes ++ p ++ [(h.toBytes ++ p).foldl crc8_byte 0xFF]).drop 9
      = p ++ [(h.toBytes ++ p).foldl crc8_byte 0xFF] := by
    rw [List.append_assoc, ← Header.toBytes_length h, List.drop_left]
  rw [e1, e2]
  simp

end proto

/-! ## Lemmas: the CRC register is a bijection -/

/-- One shift of the CRC register is injective on bytes. -/
theorem crc8_shift_injOn : ∀ c < 256, ∀ c' < 256, crc8_shift c = crc8_shift c' → c = c' := by
  have key : ∀ c < 256,
      (if crc8_shift c &&& 1 ≠ 0 then ((crc8_shift c ^^^ 0x31) >>> 1) ||| 0x80
        else crc8_shift c >>> 1) = c := by
    decide!
  intro c hc c' hc' h
  rw [← key c hc, ← key c' hc', h]

theorem crc8_shift_iterate_inj (k : Nat) (c c' : Nat) (hc : c < 256) (hc' : c' < 256)
    (h : crc8_shift^[k] c = crc8_shift^[k] c') : c = c' := by
  induction k generalizing c c' with
  | zero => simpa using h
  | succ k ih =>
    rw [Function.iterate_succ_apply, Function.iterate_succ_apply] at h
    exact crc8_shift_injOn c hc c' hc' (ih _ _ (crc8_shift_lt c) (crc8_shift_lt c') h)

theorem xor_byte_lt (a b : Nat) (ha : a < 256) (hb : b < 256) : a ^^^ b < 256 :=
  Nat.xor_lt_two_pow (n := 8) ha hb

theorem crc8_byte_inj_left (c c' d : Nat) (hc : c < 256) (hc' : c' < 256) (hd : d < 256)
    (h : crc8_byte c d = crc8_byte c' d) : c = c' := by
  unfold crc8_byte at h
  have h1 := xor_byte_lt c d hc hd
  have h2 := xor_byte_lt c' d hc' hd
  rw [Nat.mod_eq_of_lt h1, Nat.mod_eq_of_lt h2] at h
  have h3 := crc8_shift_iterate_inj 8 _ _ h1 h2 h
  have h4 := congrArg (fun x => x ^^^ d) h3
  simpa [Nat.xor_cancel_right] using h4

theorem crc8_byte_inj_right (c d d' : Nat) (hc : c < 256) (hd : d < 256) (hd' : d' < 256)
    (h : crc8_byte c d = crc8_byte c d') : d = d' := by
  unfold crc8_byte at h
  have h1 := xor_byte_lt c d hc hd
  have h2 := xor_byte_lt c d' hc hd'
  rw [Nat.mod_eq_of_lt h1, Nat.mod_eq_of_lt h2] at h
  have h3 := crc8_shift_iterate_inj 8 _ _ h1 h2 h
  have h4 := congrArg (fun x => c ^^^ x) h3
  simpa [Nat.xor_cancel_left] using h4

theorem crc8_foldl_inj (l : List Nat) (hl : isBytes l) (c c' : Nat) (hc : c < 256)
    (hc' : c' < 256) (h : l.foldl crc8_byte c = l.foldl crc8_byte c') : c = c' := by
  induction l generalizing c c' with
  | nil => simpa using h
  | cons d l ih =>
    have hd : d < 256 := hl d (List.mem_cons_self d l)
    have hl' : isBytes l := fun b hb => hl b (List.mem_cons_of_mem d hb)
    have := ih hl' _ _ (crc8_byte_lt c d) (crc8_byte_lt c' d) h
    exact crc8_byte_inj_left c c' d hc hc' hd this

/-- Changing one byte of the data by a non-zero mask changes the CRC. -/
theorem crc8_foldl_set_ne (l : List Nat) (hl : isBytes l) (i m c : Nat) (hi : i < l.length)
    (hm0 : m ≠ 0) (hm : m < 256) (hc : c < 256) :
    (l.set i (l.getD i 0 ^^^ m)).foldl crc8_byte c ≠ l.foldl crc8_byte c := by
  induction l generalizing i c with
  | nil => simp at hi
  | cons d l ih =>
    have hd : d < 256 := hl d (List.mem_cons_self d l)
    have hl' : isBytes l := fun b hb => hl b (List.mem_cons_of_mem d hb)
    cases i with
    | zero =>
      simp only [List.set_cons_zero, List.getD_cons_zero, List.foldl_cons]
      intro h
      have h1 := crc8_foldl_inj l hl' _ _ (crc8_byte_lt _ _) (crc8_byte_lt _ _) h
      have h2 := crc8_byte_inj_right c _ _ hc (xor_byte_lt d m hd hm) hd h1
      have h3 := congrArg (fun x => d ^^^ x) h2
      simp only [Nat.xor_cancel_left, Nat.xor_self] at h3
      exact hm0 h3
    | succ j =>
      simp only [List.set_cons_succ, List.getD_cons_succ, List.foldl_cons]
      exact ih hl' j _ (by simpa using hi) (crc8_byte_lt c d)

theorem two_pow_mod8_lt (pos : Nat) : 2 ^ (pos % 8) < 256 := by
  have h : pos % 8 < 8 := Nat.mod_lt _ (by norm_num)
  calc 2 ^ (pos % 8) < 2 ^ 8 := Nat.pow_lt_pow_right (by norm_num) h
    _ = 256 := by norm_num

theorem two_pow_ne_zero_nat (k : Nat) : 2 ^ k ≠ 0 := by positivity

/-! ## Lemmas: the code's CRC is the bit-serial CRC -/

theorem xor_div_128 (a b : Nat) : (a ^^^ b) / 128 = (a / 128) ^^^ (b / 128) := by
  have h : ∀ x : Nat, x / 128 = x >>> 7 := fun x => (Nat.shiftRight_eq_div_pow x 7).symm
  rw [h, h, h]
  apply Nat.eq_of_testBit_eq
  intro i
  simp [Nat.testBit_shiftRight, Nat.testBit_xor]

theorem xor_double_mod (a b : Nat) :
    (2 * (a ^^^ b)) % 256 = ((2 * a) % 256) ^^^ ((2 * b) % 256) := by
  have h : ∀ x : Nat, (2 * x) % 256 = (x <<< 1) % 2 ^ 8 := fun x => by
    rw [Nat.shiftLeft_eq, Nat.mul_comm]; rfl
  rw [h, h, h]
  apply Nat.eq_of_testBit_eq
  intro i
  simp only [Nat.testBit_mod_two_pow, Nat.testBit_shiftLeft, Nat.testBit_xor]
  by_cases h1 : i < 8 <;> by_cases h2 : i ≥ 1 <;> simp [h1, h2]

theorem crc8_shift_eq : ∀ x < 256,
    crc8_shift x = ((2 * x) % 256) ^^^ (if x / 128 = 1 then 0x31 else 0) := by
  decide!

theorem crcSpecBit_eq (s b : Nat) :
    crcSpecBit 0x31 s b = ((2 * s) % 256) ^^^ (if (s / 128) % 2 ≠ b % 2 then 0x31 else 0) := by
  unfold crcSpecBit
  simp only []
  split <;> simp

/-- One shift of the code's register, in terms of feeding the top bit of the pending data. -/
theorem crc8_shift_xor (s e : Nat) (hs : s < 256) (he : e < 256) :
    crc8_shift (s ^^^ e) = crcSpecBit 0x31 s (e / 128) ^^^ ((2 * e) % 256) := by
  have hx : s ^^^ e < 256 := Nat.xor_lt_two_pow (n := 8) hs he
  rw [crc8_shift_eq _ hx, crcSpecBit_eq, xor_double_mod, xor_div_128]
  have hs1 : s / 128 = 0 ∨ s / 128 = 1 := by omega
  have he1 : e / 128 = 0 ∨ e / 128 = 1 := by omega
  rcases hs1 with h1 | h1 <;> rcases he1 with h2 | h2 <;> simp [h1, h2] <;>
    rw [Nat.xor_assoc, Nat.xor_comm (2 * e % 256), ← Nat.xor_assoc]

theorem crcSpecBit_lt (s b : Nat) : crcSpecBit 0x31 s b < 256 := by
  rw [crcSpecBit_eq]
  apply Nat.xor_lt_two_pow (n := 8)
  · exact Nat.mod_lt _ (by norm_num)
  · split <;> norm_num

theorem crc8_shift_feed (s e b : Nat) (hs : s < 256) (he : e < 256) (hb : b = e / 128) :
    crc8_shift (s ^^^ e) = crcSpecBit 0x31 s b ^^^ (2 * e % 256) ∧ 2 * e % 256 < 256 := by
  subst hb
  exact ⟨crc8_shift_xor s e hs he, Nat.mod_lt _ (by norm_num)⟩

theorem crc8_byte_eq_spec (c d : Nat) (hc : c < 256) (hd : d < 256) :
    crc8_byte c d = (bitsMsbFirst d).foldl (crcSpecBit 0x31) c := by
  have hx : (c ^^^ d) % 256 = c ^^^ d :=
    Nat.mod_eq_of_lt (Nat.xor_lt_two_pow (n := 8) hc hd)
  simp only [crc8_byte, hx, Function.iterate_succ_apply, Function.iterate_zero, id_eq,
    bitsMsbFirst, List.foldl_cons, List.foldl_nil]
  rw [(crc8_shift_feed c d (d / 128 % 2) hc hd (by omega)).1]
  rw [(crc8_shift_feed _ (2 * d % 256) (d / 64 % 2) (crcSpecBit_lt _ _) (by omega)
    (by omega)).1]
  rw [(crc8_shift_feed _ (2 * (2 * d % 256) % 256) (d / 32 % 2) (crcSpecBit_lt _ _) (by omega)
    (by omega)).1]
  rw [(crc8_shift_feed _ (2 * (2 * (2 * d % 256) % 256) % 256) (d / 16 % 2) (crcSpecBit_lt _ _)
    (by omega) (by omega)).1]
  rw [(crc8_shift_feed _ (2 * (2 * (2 * (2 * d % 256) % 256) % 256) % 256) (d / 8 % 2)
    (crcSpecBit_lt _ _) (by omega) (by omega)).1]
  rw [(crc8_shift_feed _ (2 * (2 * (2 * (2 * (2 * d % 256) % 256) % 256) % 256) % 256)
    (d / 4 % 2) (crcSpecBit_lt _ _) (by omega) (by omega)).1]
  rw [(crc8_shift_feed _ (2 * (2 * (2 * (2 * (2 * (2 * d % 256) % 256) % 256) % 256) % 256) % 256)
    (d / 2 % 2) (crcSpecBit_lt _ _) (by omega) (by omega)).1]
  rw [(crc8_shift_feed _
    (2 * (2 * (2 * (2 * (2 * (2 * (2 * d % 256) % 256) % 256) % 256) % 256) % 256) % 256)
    (d % 2) (crcSpecBit_lt _ _) (by omega) (by omega)).1]
  have hz : 2 * (2 * (2 * (2 * (2 * (2 * (2 * (2 * d % 256) % 256) % 256) % 256) % 256) % 256)
      % 256) % 256 = 0 := by omega
  rw [hz, Nat.xor_zero]

theorem crc8_foldl_eq_spec (l : List Nat) (hl : isBytes l) (c : Nat) (hc : c < 256) :
    l.foldl crc8_byte c = (l.flatMap bitsMsbFirst).foldl (crcSpecBit 0x31) c := by
  induction l generalizing c with
  | nil => rfl
  | cons d l ih =>
    have hd : d < 256 := hl d (List.mem_cons_self d l)
    have hl' : isBytes l := fun b hb => hl b (List.mem_cons_of_mem d hb)
    rw [List.foldl_cons, List.flatMap_cons, List.foldl_append, ih hl' _ (crc8_byte_lt c d),
      crc8_byte_eq_spec c d hc hd]

theorem crc8_dallas_eq_spec (l : List Nat) (hl : isBytes l) :
    crc8_dallas l l.length 0xFF = crcSpec 0x31 0xFF l := by
  rw [crc8_dallas_full, crcSpec, crc8_foldl_eq_spec l hl 0xFF (by norm_num)]

namespace proto

theorem Header.toBytes_isBytes (h : Header) : isBytes h.toBytes := by
  intro b hb
  simp only [Header.toBytes, List.mem_cons, List.mem_singleton, List.not_mem_nil, or_false] at hb
  rcases hb with rfl | rfl | rfl | rfl | rfl | rfl | rfl | rfl | rfl <;>
    exact Nat.mod_lt _ (by norm_num)

theorem isBytes_append (a b : List Nat) (ha : isBytes a) (hb : isBytes b) : isBytes (a ++ b) := by
  intro x hx
  rcases List.mem_append.mp hx with h | h
  · exact ha x h
  · exact hb x h

end proto

/-! ## Format B: the claims -/

/-- C1: Format B round trip. For every well-typed header `h`, payload `p` of length `n` and
capacity `cap ≥ 9 + n + 1` of the output buffer, `proto::encode` returns `9 + n + 1`, the
frame it wrote has that length, and `proto::decode` on exactly that frame returns `true`
with a header equal to `h`, `payload_len = n` and payload bytes equal to `p`. -/
theorem C1_formatB_round_trip (out : List Nat) (cap : Nat) (h : proto.Header) (p : List Nat)
    (h0 : proto.Header) (payload0 : List Nat) (payload_len0 : Nat)
    (hwf : h.wf) (hcap : 9 + p.length + 1 ≤ cap) (hout : cap ≤ out.length) :
    let r := proto.encode out cap h p p.length
    let frame := r.2.take r.1
    let d := proto.decode frame frame.length h0 payload0 payload_len0
    r.1 = 9 + p.length + 1 ∧ frame.length = 9 + p.length + 1 ∧ d.ok = true ∧ d.h = h ∧
      d.payload_len = p.length ∧ d.payload.take d.payload_len = p := by
  intro r frame d
  have hr : r.1 = 9 + p.length + 1 := by
    simp only [r, proto.encode_fits out cap h p hcap hout]
  have hf : frame = proto.frameOf h p := proto.encode_frame out cap h p hcap hout
  have hd : d = ⟨true, h, p ++ [(h.toBytes ++ p).foldl crc8_byte 0xFF], p.length⟩ := by
    simp only [d, hf, proto.frameOf_length]
    exact proto.decode_frameOf h p h0 payload0 payload_len0 hwf
  refine ⟨hr, ?_, ?_, ?_, ?_, ?_⟩
  · rw [hf, proto.frameOf_length]
  · rw [hd]
  · rw [hd]
  · rw [hd]
  · rw [hd]
    simp

/-- C1 at a concrete input: a MOTION header from node `0x1234` with a 4-byte payload. -/
theorem C1_formatB_round_trip_witness :
    (proto.decode ((proto.encode (List.replicate 16 0) 16
        { type := 1, node_id := 0x1234, seq := 7, flags := 1 } [1, 2, 3, 4] 4).2.take 14) 14
        {} [] 0).ok = true := by
  have h := C1_formatB_round_trip (List.replicate 16 0) 16
    { type := 1, node_id := 0x1234, seq := 7, flags := 1 } [1, 2, 3, 4] {} [] 0
    (by decide) (by decide) (by decide)
  exact h.2.2.1

/-- C9: postcondition of `proto::encode`. With too small a capacity it returns 0 and leaves
`out` as it was; otherwise it returns `9 + n + 1` and `out` starts with the 9 header bytes,
then the payload, then the bit-serial MSB-first CRC-8 (polynomial `0x31`, seed `0xFF`, no
reflection, no final XOR) of those `9 + n` bytes, the rest of `out` being untouched. Under
that CRC the bytes `0xBE 0xEF` give `0x92`. -/
theorem C9_encode_postcondition (out : List Nat) (cap : Nat) (h : proto.Header) (p : List Nat)
    (hp : isBytes p) (hout : cap ≤ out.length) :
    (cap < 9 + p.length + 1 → proto.encode out cap h p p.length = (0, out)) ∧
    (9 + p.length + 1 ≤ cap →
      proto.encode out cap h p p.length
        = (9 + p.length + 1,
            h.toBytes ++ p ++ [crcSpec 0x31 0xFF (h.toBytes ++ p)]
              ++ out.drop (9 + p.length + 1))) ∧
    h.toBytes.length = 9 ∧
    crcSpec 0x31 0xFF [0xBE, 0xEF] = 0x92 := by
  refine ⟨proto.encode_too_small out cap h p, ?_, rfl, by decide⟩
  intro hcap
  rw [proto.encode_fits out cap h p hcap hout, proto.frameOf]
  have hl : proto.hdr_len + p.length = (h.toBytes ++ p).length := by
    simp [proto.hdr_len, proto.Header.toBytes_length]
  rw [hl, crc8_dallas_eq_spec _ (proto.isBytes_append _ _ (proto.Header.toBytes_isBytes h) hp)]

/-- C9 at a concrete input: the frame written for a 4-byte payload into a 16-byte buffer. -/
theorem C9_encode_postcondition_witness :
    proto.encode (List.replicate 16 0) 16
        { type := 1, node_id := 0x1234, seq := 7, flags := 1 } [1, 2, 3, 4] 4
      = (14, [1, 1, 0x34, 0x12, 7, 0, 0, 0, 1, 1, 2, 3, 4, 201, 0, 0]) := by
  have h := (C9_encode_postcondition (List.replicate 16 0) 16
    { type := 1, node_id := 0x1234, seq := 7, flags := 1 } [1, 2, 3, 4]
    (by decide) (by decide)).2.1 (by decide)
  exact h.trans (by decide!)

/-- C6: Format B checksum sensitivity. For every header, every payload of bytes and every
bit position of the encoded frame (header, payload or CRC byte), `proto::decode` on the
frame with that one bit inverted, at the same length, returns `false`. -/
theorem C6_formatB_bit_flip_rejected (out : List Nat) (cap : Nat) (h : proto.Header)
    (p : List Nat) (pos : Nat) (h0 : proto.Header) (payload0 : List Nat) (payload_len0 : Nat)
    (hp : isBytes p) (hcap : 9 + p.length + 1 ≤ cap) (hout : cap ≤ out.length)
    (hpos : pos < 8 * (9 + p.length + 1)) :
    let r := proto.encode out cap h p p.length
    let frame := r.2.take r.1
    (proto.decode (flipBit frame pos) frame.length h0 payload0 payload_len0).ok = false := by
  intro r frame
  have hf : frame = proto.frameOf h p := proto.encode_frame out cap h p hcap hout
  have hbody : isBytes (h.toBytes ++ p) :=
    proto.isBytes_append _ _ (proto.Header.toBytes_isBytes h) hp
  have hl : (h.toBytes ++ p).length = 9 + p.length := by
    simp [proto.Header.toBytes_length]
  have hc : crc8_dallas (h.toBytes ++ p) (proto.hdr_len + p.length) 0xFF
      = (h.toBytes ++ p).foldl crc8_byte 0xFF := by
    rw [show proto.hdr_len + p.length = (h.toBytes ++ p).length from hl.symm, crc8_dallas_full]
  have hm := two_pow_mod8_lt pos
  have hm0 := two_pow_ne_zero_nat (pos % 8)
  rw [hf, proto.frameOf_length, proto.frameOf, hc]
  generalize hbd : h.toBytes ++ p = body at hbody hl
  rw [Bool.eq_false_iff]
  have hi : pos / 8 < body.length ∨ pos / 8 = body.length := by omega
  rcases hi with hi | hi
  · have e : flipBit (body ++ [body.foldl crc8_byte 0xFF]) pos
        = body.set (pos / 8) (body.getD (pos / 8) 0 ^^^ 2 ^ (pos % 8))
          ++ [body.foldl crc8_byte 0xFF] := by
      rw [flipBit, List.set_append_left _ _ hi, List.getD_append _ _ _ _ hi]
    have hd := proto.decode_ok_snoc (body.set (pos / 8) (body.getD (pos / 8) 0 ^^^ 2 ^ (pos % 8)))
      (body.foldl crc8_byte 0xFF) h0 payload0 payload_len0 (by rw [List.length_set]; omega)
    rw [List.length_set, hl] at hd
    rw [e, ne_eq, hd]
    exact crc8_foldl_set_ne body hbody (pos / 8) _ 0xFF hi hm0 hm (by norm_num)
  · have e : flipBit (body ++ [body.foldl crc8_byte 0xFF]) pos
        = body ++ [body.foldl crc8_byte 0xFF ^^^ 2 ^ (pos % 8)] := by
      rw [flipBit, hi, List.set_append_right _ _ (le_refl _),
        List.getD_append_right _ _ _ _ (le_refl _)]
      simp
    have hd := proto.decode_ok_snoc body (body.foldl crc8_byte 0xFF ^^^ 2 ^ (pos % 8))
      h0 payload0 payload_len0 (by omega)
    rw [hl] at hd
    rw [e, ne_eq, hd]
    intro hx
    have h3 := congrArg (fun x => body.foldl crc8_byte 0xFF ^^^ x) hx
    simp only [Nat.xor_cancel_left, Nat.xor_self] at h3
    exact hm0 h3.symm

/-- C6 at a concrete input: bit 3 of payload byte 1 (frame byte 10) inverted. -/
theorem C6_formatB_bit_flip_rejected_witness :
    (proto.decode (flipBit ((proto.encode (List.replicate 16 0) 16
        { type := 1, node_id := 0x1234, seq := 7, flags := 1 } [1, 2, 3, 4] 4).2.take 14) 83) 14
        {} [] 0).ok = false := by
  have h := C6_formatB_bit_flip_rejected (List.replicate 16 0) 16
    { type := 1, node_id := 0x1234, seq := 7, flags := 1 } [1, 2, 3, 4] 83 {} [] 0
    (by decide) (by decide) (by decide) (by decide)
  exact h

/-- C7, counterexample: the default header with the one-byte payload `0xE0`, which is the
CRC-8 of the nine header bytes. The frame has 11 bytes; its first 10 bytes are accepted. -/
theorem C7_truncation_counterexample :
    (proto.encode (List.replicate 11 0) 11 {} [0xE0] 1).1 = 11 ∧
    (proto.decode ((proto.encode (List.replicate 11 0) 11 {} [0xE0] 1).2.take 10) 10
        {} [] 0).ok = true := by
  decide!

/-- C7, amended: `proto::decode` on the frame truncated by one byte returns `false` exactly
when the payload is empty or the last payload byte differs from the CRC-8 (seed `0xFF`) of
the header bytes followed by the payload without its last byte. -/
theorem C7_truncation_amended (out : List Nat) (cap : Nat) (h : proto.Header) (p : List Nat)
    (h0 : proto.Header) (payload0 : List Nat) (payload_len0 : Nat)
    (hcap : 9 + p.length + 1 ≤ cap) (hout : cap ≤ out.length) :
    let r := proto.encode out cap h p p.length
    let frame := r.2.take r.1
    ((proto.decode (frame.take (frame.length - 1)) (frame.length - 1)
        h0 payload0 payload_len0).ok = false
      ↔ (p = [] ∨
          p.getLastD 0 ≠ crc8_dallas (h.toBytes ++ p.dropLast) (9 + (p.length - 1)) 0xFF)) := by
  intro r frame
  have hf : frame = proto.frameOf h p := proto.encode_frame out cap h p hcap hout
  have ht : frame.take (frame.length - 1) = h.toBytes ++ p := by
    rw [hf, proto.frameOf_length, proto.frameOf]
    have : 9 + p.length + 1 - 1 = (h.toBytes ++ p).length := by
      simp [proto.Header.toBytes_length]
    rw [this, List.take_left]
  rw [ht, hf, proto.frameOf_length]
  rcases List.eq_nil_or_concat p with hnil | ⟨q, x, hq⟩
  · subst hnil
    simp [proto.decode, proto.hdr_len]
  · rw [List.concat_eq_append] at hq
    subst hq
    have hl : (h.toBytes ++ q).length = 9 + q.length := by
      simp [proto.Header.toBytes_length]
    have hd := proto.decode_ok_snoc (h.toBytes ++ q) x h0 payload0 payload_len0 (by omega)
    have hc : crc8_dallas (h.toBytes ++ q) (9 + q.length) 0xFF
        = (h.toBytes ++ q).foldl crc8_byte 0xFF := by
      rw [← hl, crc8_dallas_full]
    have e1 : 9 + (q ++ [x]).length + 1 - 1 = (h.toBytes ++ q).length + 1 := by
      simp [proto.Header.toBytes_length]; omega
    have e2 : h.toBytes ++ (q ++ [x]) = (h.toBytes ++ q) ++ [x] := by simp
    rw [e1, e2, Bool.eq_false_iff, ne_eq, hd]
    simp only [List.append_eq_nil, List.cons_ne_self, and_false, false_or, List.dropLast_concat,
      List.length_append, List.length_singleton, Nat.add_sub_cancel, hc,
      List.getLastD_concat]
    constructor
    · intro hne heq
      exact hne heq.symm
    · intro hne heq
      exact hne heq.symm

/-- C7 amended, at a concrete input: a payload whose last byte is not the CRC of what
precedes it; the truncated frame is rejected. -/
theorem C7_truncation_amended_witness :
    (proto.decode ((proto.encode (List.replicate 16 0) 16
        { type := 1, node_id := 0x1234, seq := 7, flags := 1 } [1, 2, 3, 4] 4).2.take 13) 13
        {} [] 0).ok = false := by
  have h := C7_truncation_amended (List.replicate 16 0) 16
    { type := 1, node_id := 0x1234, seq := 7, flags := 1 } [1, 2, 3, 4] {} [] 0
    (by decide) (by decide)
  exact h.mpr (Or.inr (by decide!))

/-! ## Lemmas: byte splitting and the XOR checksum -/

theorem and_255 (x : Nat) : x &&& 0xFF = x % 256 := Nat.and_pow_two_sub_one_eq_mod x 8

theorem shr_8 (x : Nat) : x >>> 8 = x / 256 := Nat.shiftRight_eq_div_pow x 8

theorem shl_8_or (a b : Nat) (hb : b < 256) : (a <<< 8) ||| b = a * 256 + b := by
  rw [Nat.shiftLeft_eq, Nat.mul_comm a, ← Nat.mul_add_lt_is_or (i := 8) hb a]

/-- The two bytes written by `packUint16`, read back by `unpackUint16`. -/
theorem uint16_bytes_round_trip (v : Nat) (hv : v < 65536) :
    ((((v >>> 8) &&& 0xFF) <<< 8) ||| (v &&& 0xFF)) % 65536 = v := by
  rw [and_255, and_255, shr_8, shl_8_or _ _ (Nat.mod_lt _ (by norm_num))]
  omega

theorem xor_foldl_init (l : List Nat) (c : Nat) :
    l.foldl (fun checksum b => checksum ^^^ b) c
      = c ^^^ l.foldl (fun checksum b => checksum ^^^ b) 0 := by
  induction l generalizing c with
  | nil => simp
  | cons a l ih =>
    simp only [List.foldl_cons, Nat.zero_xor]
    rw [ih (c ^^^ a), ih a, Nat.xor_assoc]

theorem calculateChecksum_cons_succ (a : Nat) (l : List Nat) (n : Nat) :
    calculateChecksum (a :: l) (n + 1) = a ^^^ calculateChecksum l n := by
  simp only [calculateChecksum, List.take_succ_cons, List.foldl_cons, Nat.zero_xor]
  exact xor_foldl_init _ a

/-- Changing a byte inside the summed range changes the checksum by the same mask. -/
theorem calculateChecksum_set_lt (l : List Nat) (n i m : Nat) (hi : i < n)
    (hl : i < l.length) :
    calculateChecksum (l.set i (l.getD i 0 ^^^ m)) n = calculateChecksum l n ^^^ m := by
  induction l generalizing n i with
  | nil => simp at hl
  | cons a l ih =>
    obtain ⟨n, rfl⟩ : ∃ k, n = k + 1 := ⟨n - 1, by omega⟩
    cases i with
    | zero =>
      simp only [List.set_cons_zero, List.getD_cons_zero, calculateChecksum_cons_succ]
      rw [Nat.xor_assoc, Nat.xor_comm m, ← Nat.xor_assoc]
    | succ j =>
      simp only [List.set_cons_succ, List.getD_cons_succ, calculateChecksum_cons_succ]
      rw [ih n j (by omega) (by simpa using hl), Nat.xor_assoc]

/-- Writing a byte at or beyond the end of the summed range leaves the checksum alone. -/
theorem calculateChecksum_set_ge (l : List Nat) (n i v : Nat) (hi : n ≤ i) :
    calculateChecksum (l.set i v) n = calculateChecksum l n := by
  induction l generalizing n i with
  | nil => simp
  | cons a l ih =>
    cases n with
    | zero => simp [calculateChecksum]
    | succ n =>
      obtain ⟨j, rfl⟩ : ∃ k, i = k + 1 := ⟨i - 1, by omega⟩
      simp only [List.set_cons_succ, calculateChecksum_cons_succ]
      rw [ih n j (by omega)]

theorem getD_set_self (l : List Nat) (i v : Nat) (hi : i < l.length) :
    (l.set i v).getD i 0 = v := by
  simp [List.getD_eq_getElem?_getD, hi]

theorem getD_set_ne (l : List Nat) (i j v : Nat) (hij : i ≠ j) :
    (l.set i v).getD j 0 = l.getD j 0 := by
  simp [List.getD_eq_getElem?_getD, List.getElem?_set_ne hij]

/-- Every pack function ends with `packet[N-1] = calculateChecksum(packet, N-1)`; the result
verifies. -/
theorem verifyChecksum_set_checksum (buf : List Nat) (n : Nat) (hn : 2 ≤ n)
    (hlen : n ≤ buf.length) :
    verifyChecksum (buf.set (n - 1) (calculateChecksum buf (n - 1))) n = true := by
  have h1 : ¬ n < 2 := by omega
  simp only [verifyChecksum, h1, if_false, decide_eq_true_eq]
  rw [getD_set_self _ _ _ (by omega), calculateChecksum_set_ge _ _ _ _ (le_refl _)]

theorem verifyChecksum_flipBit (buf : List Nat) (n pos : Nat) (hn : 2 ≤ n)
    (hlen : n ≤ buf.length) (hv : verifyChecksum buf n = true) (hpos : pos < 8 * n) :
    verifyChecksum (flipBit buf pos) n = false := by
  have h1 : ¬ n < 2 := by omega
  have hm0 := two_pow_ne_zero_nat (pos % 8)
  simp only [verifyChecksum, h1, if_false, decide_eq_true_eq] at hv
  simp only [verifyChecksum, h1, if_false, decide_eq_false_iff_not, flipBit]
  have hi : pos / 8 < n - 1 ∨ pos / 8 = n - 1 := by omega
  rcases hi with hi | hi
  · rw [getD_set_ne _ _ _ _ (by omega), calculateChecksum_set_lt _ _ _ _ hi (by omega), hv]
    intro hx
    have h3 := congrArg (fun x => calculateChecksum buf (n - 1) ^^^ x) hx
    simp only [Nat.xor_cancel_left, Nat.xor_self] at h3
    exact hm0 h3.symm
  · rw [hi, getD_set_self _ _ _ (by omega), calculateChecksum_set_ge _ _ _ _ (le_refl _), hv]
    intro hx
    have h3 := congrArg (fun x => calculateChecksum buf (n - 1) ^^^ x) hx
    simp only [Nat.xor_cancel_left, Nat.xor_self] at h3
    exact hm0 h3

theorem packUint16_length (buf : List Nat) (offset value : Nat) :
    (packUint16 buf offset value).length = buf.length := by
  simp [packUint16]

theorem packInt16_length (buf : List Nat) (offset : Nat) (value : Int) :
    (packInt16 buf offset value).length = buf.length := by
  simp [packInt16]

/-! ## Lemmas: the Format A pack functions -/

theorem exists_cons_of_succ_le {l : List Nat} {n : Nat} (h : n + 1 ≤ l.length) :
    ∃ a r, l = a :: r ∧ n ≤ r.length := by
  cases l with
  | nil => simp at h
  | cons a r => exact ⟨a, r, rfl, by simpa using h⟩

theorem split_5 {l : List Nat} (h : 5 ≤ l.length) :
    ∃ a0 a1 a2 a3 a4 r, l = a0 :: a1 :: a2 :: a3 :: a4 :: r := by
  obtain ⟨a0, r, rfl, h1⟩ := exists_cons_of_succ_le h
  obtain ⟨a1, r, rfl, h2⟩ := exists_cons_of_succ_le h1
  obtain ⟨a2, r, rfl, h3⟩ := exists_cons_of_succ_le h2
  obtain ⟨a3, r, rfl, h4⟩ := exists_cons_of_succ_le h3
  obtain ⟨a4, r, rfl, _⟩ := exists_cons_of_succ_le h4
  exact ⟨a0, a1, a2, a3, a4, r, rfl⟩

theorem split_6 {l : List Nat} (h : 6 ≤ l.length) :
    ∃ a0 a1 a2 a3 a4 a5 r, l = a0 :: a1 :: a2 :: a3 :: a4 :: a5 :: r := by
  obtain ⟨a0, r, rfl, h1⟩ := exists_cons_of_succ_le h
  obtain ⟨a1, a2, a3, a4, a5, r, rfl⟩ := split_5 h1
  exact ⟨a0, a1, a2, a3, a4, a5, r, rfl⟩

theorem split_8 {l : List Nat} (h : 8 ≤ l.length) :
    ∃ a0 a1 a2 a3 a4 a5 a6 a7 r, l = a0 :: a1 :: a2 :: a3 :: a4 :: a5 :: a6 :: a7 :: r := by
  obtain ⟨a0, r, rfl, h1⟩ := exists_cons_of_succ_le h
  obtain ⟨a1, r, rfl, h2⟩ := exists_cons_of_succ_le h1
  obtain ⟨a2, a3, a4, a5, a6, a7, r, rfl⟩ := split_6 h2
  exact ⟨a0, a1, a2, a3, a4, a5, a6, a7, r, rfl⟩

theorem split_12 {l : List Nat} (h : 12 ≤ l.length) :
    ∃ a0 a1 a2 a3 a4 a5 a6 a7 a8 a9 a10 a11 r,
      l = a0 :: a1 :: a2 :: a3 :: a4 :: a5 :: a6 :: a7 :: a8 :: a9 :: a10 :: a11 :: r := by
  obtain ⟨a0, r, rfl, h1⟩ := exists_cons_of_succ_le h
  obtain ⟨a1, r, rfl, h2⟩ := exists_cons_of_succ_le h1
  obtain ⟨a2, r, rfl, h3⟩ := exists_cons_of_succ_le h2
  obtain ⟨a3, r, rfl, h4⟩ := exists_cons_of_succ_le h3
  obtain ⟨a4, a5, a6, a7, a8, a9, a10, a11, r, rfl⟩ := split_8 h4
  exact ⟨a0, a1, a2, a3, a4, a5, a6, a7, a8, a9, a10, a11, r, rfl⟩

theorem split_16 {l : List Nat} (h : 16 ≤ l.length) :
    ∃ a0 a1 a2 a3 a4 a5 a6 a7 a8 a9 a10 a11 a12 a13 a14 a15 r,
      l = a0 :: a1 :: a2 :: a3 :: a4 :: a5 :: a6 :: a7 :: a8 :: a9 :: a10 :: a11
            :: a12 :: a13 :: a14 :: a15 :: r := by
  obtain ⟨a0, r, rfl, h1⟩ := exists_cons_of_succ_le h
  obtain ⟨a1, r, rfl, h2⟩ := exists_cons_of_succ_le h1
  obtain ⟨a2, r, rfl, h3⟩ := exists_cons_of_succ_le h2
  obtain ⟨a3, r, rfl, h4⟩ := exists_cons_of_succ_le h3
  obtain ⟨a4, a5, a6, a7, a8, a9, a10, a11, a12, a13, a14, a15, r, rfl⟩ := split_12 h4
  exact ⟨a0, a1, a2, a3, a4, a5, a6, a7, a8, a9, a10, a11, a12, a13, a14, a15, r, rfl⟩

theorem packEnvironmentalPacket_eq (packet : List Nat) (nodeID : Nat)
    (temp humidity pressure : ℚ) (batteryMv : Nat) (rssi : Int) (hlen : 12 ≤ packet.length) :
    packEnvironmentalPacket packet nodeID temp humidity pressure batteryMv rssi
      = [nodeID, 0x01,
          low8 (floatToInt16 (f32 (temp * 100)) >>> (8 : Nat)),
          low8 (floatToInt16 (f32 (temp * 100))),
          (floatToUint16 (f32 (humidity * 100)) >>> 8) &&& 0xFF,
          floatToUint16 (f32 (humidity * 100)) &&& 0xFF,
          (floatToUint16 (f32 (pressure * 10)) >>> 8) &&& 0xFF,
          floatToUint16 (f32 (pressure * 10)) &&& 0xFF,
          (batteryMv >>> 8) &&& 0xFF, batteryMv &&& 0xFF, low8 rssi,
          calculateChecksum [nodeID, 0x01,
            low8 (floatToInt16 (f32 (temp * 100)) >>> (8 : Nat)),
            low8 (floatToInt16 (f32 (temp * 100))),
            (floatToUint16 (f32 (humidity * 100)) >>> 8) &&& 0xFF,
            floatToUint16 (f32 (humidity * 100)) &&& 0xFF,
            (floatToUint16 (f32 (pressure * 10)) >>> 8) &&& 0xFF,
            floatToUint16 (f32 (pressure * 10)) &&& 0xFF,
            (batteryMv >>> 8) &&& 0xFF, batteryMv &&& 0xFF, low8 rssi] 11]
        ++ packet.drop 12 := by
  obtain ⟨a0, a1, a2, a3, a4, a5, a6, a7, a8, a9, a10, a11, r, rfl⟩ := split_12 hlen
  rfl

theorem packDetectionPacket_eq (packet : List Nat) (nodeID eventType confidence distance
    zone : Nat) (hlen : 8 ≤ packet.length) :
    packDetectionPacket packet nodeID eventType confidence distance zone
      = [nodeID, 0x02, eventType, confidence, (distance >>> 8) &&& 0xFF, distance &&& 0xFF,
          zone,
          calculateChecksum [nodeID, 0x02, eventType, confidence, (distance >>> 8) &&& 0xFF,
            distance &&& 0xFF, zone] 7]
        ++ packet.drop 8 := by
  obtain ⟨a0, a1, a2, a3, a4, a5, a6, a7, r, rfl⟩ := split_8 hlen
  rfl

theorem packAlarmPacket_eq (packet : List Nat) (fromNodeID command mode targetNode : Nat)
    (hlen : 6 ≤ packet.length) :
    packAlarmPacket packet fromNodeID command mode targetNode
      = [fromNodeID, 0x03, command, mode, targetNode,
          calculateChecksum [fromNodeID, 0x03, command, mode, targetNode] 5]
        ++ packet.drop 6 := by
  obtain ⟨a0, a1, a2, a3, a4, a5, r, rfl⟩ := split_6 hlen
  rfl

theorem packHeartbeatPacket_eq (packet : List Nat) (nodeID batteryMv : Nat)
    (hlen : 5 ≤ packet.length) :
    packHeartbeatPacket packet nodeID batteryMv
      = [nodeID, 0x04, (batteryMv >>> 8) &&& 0xFF, batteryMv &&& 0xFF,
          calculateChecksum [nodeID, 0x04, (batteryMv >>> 8) &&& 0xFF, batteryMv &&& 0xFF] 4]
        ++ packet.drop 5 := by
  obtain ⟨a0, a1, a2, a3, a4, r, rfl⟩ := split_5 hlen
  rfl

theorem packWindPacket_eq (packet : List Nat) (nodeID aws awd tws twd bsp bhd fixQuality : Nat)
    (hlen : 16 ≤ packet.length) :
    packWindPacket packet nodeID aws awd tws twd bsp bhd fixQuality
      = [nodeID, 0x22, (aws >>> 8) &&& 0xFF, aws &&& 0xFF, (awd >>> 8) &&& 0xFF, awd &&& 0xFF,
          (tws >>> 8) &&& 0xFF, tws &&& 0xFF, (twd >>> 8) &&& 0xFF, twd &&& 0xFF,
          (bsp >>> 8) &&& 0xFF, bsp &&& 0xFF, (bhd >>> 8) &&& 0xFF, bhd &&& 0xFF, fixQuality,
          calculateChecksum [nodeID, 0x22, (aws >>> 8) &&& 0xFF, aws &&& 0xFF,
            (awd >>> 8) &&& 0xFF, awd &&& 0xFF, (tws >>> 8) &&& 0xFF, tws &&& 0xFF,
            (twd >>> 8) &&& 0xFF, twd &&& 0xFF, (bsp >>> 8) &&& 0xFF, bsp &&& 0xFF,
            (bhd >>> 8) &&& 0xFF, bhd &&& 0xFF, fixQuality] 15]
        ++ packet.drop 16 := by
  obtain ⟨a0, a1, a2, a3, a4, a5, a6, a7, a8, a9, a10, a11, a12, a13, a14, a15, r, rfl⟩ :=
    split_16 hlen
  rfl

theorem packEnvironmentalPacket_verifies (packet : List Nat) (nodeID : Nat)
    (temp humidity pressure : ℚ) (batteryMv : Nat) (rssi : Int) (hlen : 12 ≤ packet.length) :
    verifyChecksum (packEnvironmentalPacket packet nodeID temp humidity pressure batteryMv rssi)
      12 = true ∧
    (packEnvironmentalPacket packet nodeID temp humidity pressure batteryMv rssi).length
      = packet.length := by
  unfold packEnvironmentalPacket
  refine ⟨verifyChecksum_set_checksum _ 12 (by norm_num) ?_, ?_⟩ <;>
    simp [packUint16_length, packInt16_length, hlen]

theorem packDetectionPacket_verifies (packet : List Nat) (nodeID eventType confidence distance
    zone : Nat) (hlen : 8 ≤ packet.length) :
    verifyChecksum (packDetectionPacket packet nodeID eventType confidence distance zone) 8
      = true ∧
    (packDetectionPacket packet nodeID eventType confidence distance zone).length
      = packet.length := by
  unfold packDetectionPacket
  refine ⟨verifyChecksum_set_checksum _ 8 (by norm_num) ?_, ?_⟩ <;>
    simp [packUint16_length, hlen]

theorem packAlarmPacket_verifies (packet : List Nat) (fromNodeID command mode targetNode : Nat)
    (hlen : 6 ≤ packet.length) :
    verifyChecksum (packAlarmPacket packet fromNodeID command mode targetNode) 6 = true ∧
    (packAlarmPacket packet fromNodeID command mode targetNode).length = packet.length := by
  unfold packAlarmPacket
  refine ⟨verifyChecksum_set_checksum _ 6 (by norm_num) ?_, ?_⟩ <;> simp [hlen]

theorem packHeartbeatPacket_verifies (packet : List Nat) (nodeID batteryMv : Nat)
    (hlen : 5 ≤ packet.length) :
    verifyChecksum (packHeartbeatPacket packet nodeID batteryMv) 5 = true ∧
    (packHeartbeatPacket packet nodeID batteryMv).length = packet.length := by
  unfold packHeartbeatPacket
  refine ⟨verifyChecksum_set_checksum _ 5 (by norm_num) ?_, ?_⟩ <;>
    simp [packUint16_length, hlen]

theorem packWindPacket_verifies (packet : List Nat)
    (nodeID aws awd tws twd bsp bhd fixQuality : Nat) (hlen : 16 ≤ packet.length) :
    verifyChecksum (packWindPacket packet nodeID aws awd tws twd bsp bhd fixQuality) 16 = true ∧
    (packWindPacket packet nodeID aws awd tws twd bsp bhd fixQuality).length
      = packet.length := by
  unfold packWindPacket
  refine ⟨verifyChecksum_set_checksum _ 16 (by norm_num) ?_, ?_⟩ <;>
    simp [packUint16_length, hlen]

/-! ## Format A: the claims -/

/-- C2: Format A round trip for the integer-only kinds. For every buffer large enough and all
field values (16-bit fields below 65536), `unpackDetectionPacket`, `unpackAlarmPacket` and
`unpackWindPacket` applied to what the matching pack function wrote return `true` and
reproduce every field exactly. -/
theorem C2_formatA_integer_round_trip (packet : List Nat) :
    (∀ nodeID eventType confidence distance zone : Nat,
      8 ≤ packet.length → distance < 65536 →
      unpackDetectionPacket (packDetectionPacket packet nodeID eventType confidence distance zone)
        = some { nodeID := nodeID, eventType := eventType, confidence := confidence,
                 distance := distance, zone := zone }) ∧
    (∀ fromNodeID command mode targetNode : Nat,
      6 ≤ packet.length →
      unpackAlarmPacket (packAlarmPacket packet fromNodeID command mode targetNode)
        = some { fromNodeID := fromNodeID, command := command, mode := mode,
                 targetNode := targetNode }) ∧
    (∀ nodeID aws awd tws twd bsp bhd fixQuality : Nat,
      16 ≤ packet.length →
      aws < 65536 → awd < 65536 → tws < 65536 → twd < 65536 → bsp < 65536 → bhd < 65536 →
      unpackWindPacket (packWindPacket packet nodeID aws awd tws twd bsp bhd fixQuality)
        = some { nodeID := nodeID, aws := aws, awd := awd, tws := tws, twd := twd,
                 bsp := bsp, bhd := bhd, fixQuality := fixQuality }) := by
  refine ⟨?_, ?_, ?_⟩
  · intro nodeID eventType confidence distance zone hlen hd
    have hv := (packDetectionPacket_verifies packet nodeID eventType confidence distance zone
      hlen).1
    simp only [unpackDetectionPacket, DETECTION_PACKET_SIZE, hv, Bool.not_true]
    rw [packDetectionPacket_eq _ _ _ _ _ _ hlen]
    simp [unpackUint16, uint16_bytes_round_trip _ hd]
  · intro fromNodeID command mode targetNode hlen
    have hv := (packAlarmPacket_verifies packet fromNodeID command mode targetNode hlen).1
    simp only [unpackAlarmPacket, ALARM_PACKET_SIZE, hv, Bool.not_true]
    rw [packAlarmPacket_eq _ _ _ _ _ hlen]
    simp
  · intro nodeID aws awd tws twd bsp bhd fixQuality hlen h1 h2 h3 h4 h5 h6
    have hv := (packWindPacket_verifies packet nodeID aws awd tws twd bsp bhd fixQuality
      hlen).1
    simp only [unpackWindPacket, WIND_PACKET_SIZE, hv, Bool.not_true]
    rw [packWindPacket_eq _ _ _ _ _ _ _ _ _ hlen]
    simp [unpackUint16, uint16_bytes_round_trip _ h1, uint16_bytes_round_trip _ h2,
      uint16_bytes_round_trip _ h3, uint16_bytes_round_trip _ h4, uint16_bytes_round_trip _ h5,
      uint16_bytes_round_trip _ h6]

/-- C2 at concrete inputs: one Detection, one Alarm and one Wind packet. -/
theorem C2_formatA_integer_round_trip_witness :
    unpackDetectionPacket (packDetectionPacket (List.replicate 8 0) 5 2 90 350 1)
      = some { nodeID := 5, eventType := 2, confidence := 90, distance := 350, zone := 1 } ∧
    unpackAlarmPacket (packAlarmPacket (List.replicate 6 0) 0 1 3 0xFF)
      = some { fromNodeID := 0, command := 1, mode := 3, targetNode := 0xFF } ∧
    unpackWindPacket (packWindPacket (List.replicate 16 0) 5 5144 450 6173 3599 2572 1800 4)
      = some { nodeID := 5, aws := 5144, awd := 450, tws := 6173, twd := 3599, bsp := 2572,
               bhd := 1800, fixQuality := 4 } :=
  ⟨(C2_formatA_integer_round_trip (List.replicate 8 0)).1 5 2 90 350 1 (by decide) (by decide),
   (C2_formatA_integer_round_trip (List.replicate 6 0)).2.1 0 1 3 0xFF (by decide),
   (C2_formatA_integer_round_trip (List.replicate 16 0)).2.2 5 5144 450 6173 3599 2572 1800 4
     (by decide) (by decide) (by decide) (by decide) (by decide) (by decide) (by decide)⟩

/-- On every Heartbeat packet written by `packHeartbeatPacket`, `unpackHeartbeatPacket` stores
the node id and the battery voltage but executes no `return` statement. -/
theorem unpackHeartbeatPacket_pack (packet : List Nat) (nodeID batteryMv nodeID0 batteryMv0 : Nat)
    (hlen : 5 ≤ packet.length) (hmv : batteryMv < 65536) :
    unpackHeartbeatPacket (packHeartbeatPacket packet nodeID batteryMv) nodeID0 batteryMv0
      = { returned := none, nodeID := nodeID, batteryMv := batteryMv } := by
  have hv := (packHeartbeatPacket_verifies packet nodeID batteryMv hlen).1
  simp only [unpackHeartbeatPacket, HEARTBEAT_PACKET_SIZE, hv, Bool.not_true]
  rw [packHeartbeatPacket_eq _ _ _ hlen]
  simp [unpackUint16, uint16_bytes_round_trip _ hmv]

/-- C3: the Heartbeat packet of node `0x12` with 3700 mV passes the checksum test, and
`unpackHeartbeatPacket` stores both fields, yet it hands back no value: the success path has
no `return true`. -/
theorem C3_heartbeat_unpack_returns_nothing :
    packHeartbeatPacket [0, 0, 0, 0, 0] 0x12 3700 = [0x12, 0x04, 0x0E, 0x74, 0x6C] ∧
    verifyChecksum [0x12, 0x04, 0x0E, 0x74, 0x6C] HEARTBEAT_PACKET_SIZE = true ∧
    unpackHeartbeatPacket [0x12, 0x04, 0x0E, 0x74, 0x6C] 0 0
      = { returned := none, nodeID := 0x12, batteryMv := 3700 } ∧
    (unpackHeartbeatPacket [0x12, 0x04, 0x0E, 0x74, 0x6C] 0 0).returned ≠ some true := by
  decide

/-- C5: Format A checksum sensitivity. For the Environmental (12), Detection (8), Alarm (6)
and Wind (16 bytes) kinds, every packet written by the kind's pack function and every bit
position of that packet, checksum byte included: with that one bit inverted,
`verifyChecksum` over the kind's size is `false` and the kind's unpack function returns
`false`. -/
theorem C5_formatA_bit_flip_rejected (packet : List Nat) (pos : Nat) :
    (∀ (nodeID : Nat) (temp humidity pressure : ℚ) (batteryMv : Nat) (rssi : Int),
      12 ≤ packet.length → pos < 8 * 12 →
      verifyChecksum (flipBit
        (packEnvironmentalPacket packet nodeID temp humidity pressure batteryMv rssi) pos)
        ENV_PACKET_SIZE = false ∧
      unpackEnvironmentalPacket (flipBit
        (packEnvironmentalPacket packet nodeID temp humidity pressure batteryMv rssi) pos)
        = none) ∧
    (∀ nodeID eventType confidence distance zone : Nat,
      8 ≤ packet.length → pos < 8 * 8 →
      verifyChecksum (flipBit
        (packDetectionPacket packet nodeID eventType confidence distance zone) pos)
        DETECTION_PACKET_SIZE = false ∧
      unpackDetectionPacket (flipBit
        (packDetectionPacket packet nodeID eventType confidence distance zone) pos) = none) ∧
    (∀ fromNodeID command mode targetNode : Nat,
      6 ≤ packet.length → pos < 8 * 6 →
      verifyChecksum (flipBit (packAlarmPacket packet fromNodeID command mode targetNode) pos)
        ALARM_PACKET_SIZE = false ∧
      unpackAlarmPacket (flipBit (packAlarmPacket packet fromNodeID command mode targetNode) pos)
        = none) ∧
    (∀ nodeID aws awd tws twd bsp bhd fixQuality : Nat,
      16 ≤ packet.length → pos < 8 * 16 →
      verifyChecksum (flipBit
        (packWindPacket packet nodeID aws awd tws twd bsp bhd fixQuality) pos)
        WIND_PACKET_SIZE = false ∧
      unpackWindPacket (flipBit
        (packWindPacket packet nodeID aws awd tws twd bsp bhd fixQuality) pos) = none) := by
  refine ⟨?_, ?_, ?_, ?_⟩
  · intro nodeID temp humidity pressure batteryMv rssi hlen hpos
    obtain ⟨hv, hl⟩ :=
      packEnvironmentalPacket_verifies packet nodeID temp humidity pressure batteryMv rssi hlen
    have hf := verifyChecksum_flipBit _ 12 pos (by norm_num) (by rw [hl]; exact hlen) hv hpos
    exact ⟨hf, by simp [unpackEnvironmentalPacket, ENV_PACKET_SIZE, hf]⟩
  · intro nodeID eventType confidence distance zone hlen hpos
    obtain ⟨hv, hl⟩ :=
      packDetectionPacket_verifies packet nodeID eventType confidence distance zone hlen
    have hf := verifyChecksum_flipBit _ 8 pos (by norm_num) (by rw [hl]; exact hlen) hv hpos
    exact ⟨hf, by simp [unpackDetectionPacket, DETECTION_PACKET_SIZE, hf]⟩
  · intro fromNodeID command mode targetNode hlen hpos
    obtain ⟨hv, hl⟩ := packAlarmPacket_verifies packet fromNodeID command mode targetNode hlen
    have hf := verifyChecksum_flipBit _ 6 pos (by norm_num) (by rw [hl]; exact hlen) hv hpos
    exact ⟨hf, by simp [unpackAlarmPacket, ALARM_PACKET_SIZE, hf]⟩
  · intro nodeID aws awd tws twd bsp bhd fixQuality hlen hpos
    obtain ⟨hv, hl⟩ :=
      packWindPacket_verifies packet nodeID aws awd tws twd bsp bhd fixQuality hlen
    have hf := verifyChecksum_flipBit _ 16 pos (by norm_num) (by rw [hl]; exact hlen) hv hpos
    exact ⟨hf, by simp [unpackWindPacket, WIND_PACKET_SIZE, hf]⟩

/-- C5 at concrete inputs: an Alarm packet with bit 2 of its checksum byte inverted and a
Detection packet with bit 7 of its node id inverted. -/
theorem C5_formatA_bit_flip_rejected_witness :
    unpackAlarmPacket (flipBit (packAlarmPacket (List.replicate 6 0) 0 1 3 0xFF) 42) = none ∧
    unpackDetectionPacket (flipBit (packDetectionPacket (List.replicate 8 0) 5 2 90 350 1) 7)
      = none :=
  ⟨((C5_formatA_bit_flip_rejected (List.replicate 6 0) 42).2.2.1 0 1 3 0xFF
      (by decide) (by decide)).2,
   ((C5_formatA_bit_flip_rejected (List.replicate 8 0) 7).2.1 5 2 90 350 1
      (by decide) (by decide)).2⟩

/-! ## Lemmas: rounding to `float` and `double` -/

theorem roundNearestEven_err (q : ℚ) : |((roundNearestEven q : ℤ) : ℚ) - q| ≤ 1 / 2 := by
  have h1 := Int.floor_le q
  have h2 := Int.lt_floor_add_one q
  unfold roundNearestEven
  simp only []
  split_ifs with a b c
  · rw [abs_le]; constructor <;> linarith
  · rw [abs_le]; push_cast; constructor <;> linarith
  · rw [abs_le]; constructor <;> linarith
  · rw [abs_le]; push_cast; constructor <;> linarith

theorem roundNearestEven_eq (q : ℚ) (m : ℤ) (h : |q - m| < 1 / 2) : roundNearestEven q = m := by
  rw [abs_lt] at h
  obtain ⟨h1, h2⟩ := h
  unfold roundNearestEven
  simp only []
  by_cases hq : (m : ℚ) ≤ q
  · have hf : ⌊q⌋ = m := by
      rw [Int.floor_eq_iff]
      constructor <;> linarith
    rw [hf, if_pos (by linarith)]
  · have hf : ⌊q⌋ = m - 1 := by
      rw [Int.floor_eq_iff]
      push_cast
      constructor <;> linarith
    rw [hf, if_neg (by push_cast; linarith), if_pos (by push_cast; linarith)]
    ring

theorem ulp_pos (prec : Nat) (emin : Int) (x : ℚ) : 0 < ulp prec emin x := by
  unfold ulp
  positivity

/-- Rounding moves a value by at most half the spacing. -/
theorem roundBinary_err (prec : Nat) (emin : Int) (x : ℚ) :
    |roundBinary prec emin x - x| ≤ ulp prec emin x / 2 := by
  have hu := ulp_pos prec emin x
  have h := roundNearestEven_err (x / ulp prec emin x)
  unfold roundBinary
  have e : (roundNearestEven (x / ulp prec emin x) : ℚ) * ulp prec emin x - x
      = ((roundNearestEven (x / ulp prec emin x) : ℚ) - x / ulp prec emin x)
        * ulp prec emin x := by
    field_simp
  rw [e, abs_mul, abs_of_pos hu]
  nlinarith

theorem roundBinary_zero (prec : Nat) (emin : Int) : roundBinary prec emin 0 = 0 := by
  simp [roundBinary, roundNearestEven]

/-- The spacing around a value below `2 ^ k` in magnitude is at most `2 ^ (k - prec)`. -/
theorem ulp_le (prec : Nat) (emin : Int) (x : ℚ) (k : ℤ) (hx0 : x ≠ 0) (hx : |x| < 2 ^ k)
    (hk : emin < k) : ulp prec emin x ≤ 2 ^ (k - prec) := by
  have hl : Int.log 2 |x| < k :=
    (Int.lt_zpow_iff_log_lt (b := 2) (by norm_num) (abs_pos.mpr hx0)).mp (by exact_mod_cast hx)
  unfold ulp
  apply zpow_le_zpow_right₀ (by norm_num)
  have : max (Int.log 2 |x|) emin ≤ k - 1 := max_le (by omega) (by omega)
  omega

theorem roundBinary_err_lt (prec : Nat) (emin : Int) (x : ℚ) (k : ℤ) (hx : |x| < 2 ^ k)
    (hk : emin < k) : |roundBinary prec emin x - x| ≤ 2 ^ (k - prec) / 2 := by
  by_cases hx0 : x = 0
  · subst hx0
    rw [roundBinary_zero]
    simp only [sub_zero, abs_zero]
    positivity
  · have := roundBinary_err prec emin x
    have := ulp_le prec emin x k hx0 hx hk
    linarith

/-- A value whose rounding is below `2 ^ k` in magnitude is below `2 ^ (k + 1)`. -/
theorem abs_lt_of_roundBinary_lt (prec : Nat) (emin : Int) (x : ℚ) (k : ℤ) (hp : 1 ≤ prec)
    (hk : emin ≤ k) (h : |roundBinary prec emin x| < 2 ^ k) : |x| < 2 ^ (k + 1) := by
  by_cases hx0 : x = 0
  · subst hx0
    rw [abs_zero]
    positivity
  have hpos : 0 < |x| := abs_pos.mpr hx0
  by_cases hs : Int.log 2 |x| < emin
  · have h1 := Int.lt_zpow_succ_log_self (b := 2) (by norm_num) |x|
    have h2 : ((2 : ℕ) : ℚ) ^ (Int.log 2 |x| + 1) ≤ (2 : ℚ) ^ (k + 1) := by
      push_cast
      apply zpow_le_zpow_right₀ (by norm_num)
      omega
    linarith
  · have hmax : max (Int.log 2 |x|) emin = Int.log 2 |x| := max_eq_left (by omega)
    have h1 := Int.zpow_log_le_self (b := 2) (by norm_num) hpos
    push_cast at h1
    have hu : ulp prec emin x ≤ |x| := by
      unfold ulp
      rw [hmax]
      calc (2 : ℚ) ^ (Int.log 2 |x| - ((prec : ℤ) - 1)) ≤ (2 : ℚ) ^ (Int.log 2 |x|) := by
            apply zpow_le_zpow_right₀ (by norm_num)
            omega
        _ ≤ |x| := h1
    have he := roundBinary_err prec emin x
    have h3 : |x| - |roundBinary prec emin x| ≤ |roundBinary prec emin x - x| := by
      rw [abs_sub_comm]
      exact abs_sub_abs_le_abs_sub _ _
    have h4 : (2 : ℚ) ^ (k + 1) = 2 * 2 ^ k := by
      rw [zpow_add_one₀ (by norm_num)]
      ring
    rw [h4]
    linarith

/-- Evaluation of a rounding from the binade of the value and the multiple of the spacing
nearest to it. -/
theorem roundBinary_eq (prec : Nat) (emin : Int) (x : ℚ) (e m : ℤ)
    (h1 : (2 : ℚ) ^ e ≤ |x|) (h2 : |x| < (2 : ℚ) ^ (e + 1)) (he : emin ≤ e)
    (hm : |x / 2 ^ (e - ((prec : ℤ) - 1)) - m| < 1 / 2) :
    roundBinary prec emin x = m * 2 ^ (e - ((prec : ℤ) - 1)) := by
  have hpos : 0 < |x| := lt_of_lt_of_le (by positivity) h1
  have hl : Int.log 2 |x| = e := by
    apply le_antisymm
    · have := (Int.lt_zpow_iff_log_lt (b := 2) (by norm_num) hpos).mp (by exact_mod_cast h2)
      omega
    · exact (Int.zpow_le_iff_le_log (b := 2) (by norm_num) hpos).mp (by exact_mod_cast h1)
  have hu : ulp prec emin x = 2 ^ (e - ((prec : ℤ) - 1)) := by
    unfold ulp
    rw [hl, max_eq_left he]
  unfold roundBinary
  rw [hu, roundNearestEven_eq _ m hm]

theorem f32_zero : f32 0 = 0 := roundBinary_zero 24 (-126)

theorem f64_zero : f64 0 = 0 := roundBinary_zero 53 (-1022)

/-! ## Lemmas: signed fields and fixed-point quantization -/

theorem low8_shr (x : Int) : low8 (x >>> (8 : Nat)) = ((x / 256) % 256).toNat := by
  rw [low8, Int.shiftRight_eq_div_pow]; norm_num

/-- The two bytes written by `packInt16`, read back by `unpackInt16`. -/
theorem int16_bytes_round_trip (v : Int) (h1 : -32768 ≤ v) (h2 : v ≤ 32767) :
    toInt16 ((low8 (v >>> (8 : Nat)) <<< 8) ||| low8 v) = v := by
  have hlo : low8 v < 256 := by unfold low8; omega
  rw [shl_8_or _ _ hlo, low8_shr, low8, toInt16]
  split <;> omega

theorem int8_byte_round_trip (r : Int) (h1 : -128 ≤ r) (h2 : r ≤ 127) :
    toInt8 (low8 r) = r := by
  rw [low8, toInt8]
  split <;> omega

/-- Truncation moves a value by less than one unit. -/
theorem truncToInt_abs_sub_lt (x : ℚ) : |((truncToInt x : ℤ) : ℚ) - x| < 1 := by
  unfold truncToInt
  split
  · rw [abs_lt]
    constructor
    · linarith [Int.lt_floor_add_one x]
    · linarith [Int.floor_le x]
  · rw [abs_lt]
    constructor
    · linarith [Int.le_ceil x]
    · linarith [Int.ceil_lt_add_one x]

theorem truncToInt_intCast (z : ℤ) : truncToInt (z : ℚ) = z := by
  unfold truncToInt
  split <;> simp

theorem toNat_cast_rat (z : Int) (hz : 0 ≤ z) : ((z.toNat : ℕ) : ℚ) = (z : ℚ) := by
  rw [← Int.cast_natCast, Int.toNat_of_nonneg hz]

/-- Where C++ defines the conversion `(int16_t)x`, it is the truncation. -/
theorem floatToInt16_of_range (x : ℚ) (h1 : -32768 ≤ truncToInt x)
    (h2 : truncToInt x ≤ 32767) : floatToInt16 x = truncToInt x := by
  unfold floatToInt16 toInt16
  split <;> omega

/-- Where C++ defines the conversion `(uint16_t)x`, it is the truncation. -/
theorem floatToUint16_of_range (x : ℚ) (h1 : 0 ≤ truncToInt x) (h2 : truncToInt x ≤ 65535) :
    floatToUint16 x = (truncToInt x).toNat ∧ floatToUint16 x < 65536 := by
  unfold floatToUint16
  constructor <;> omega

/-- Unpacking a packed Environmental packet, the conversions being defined. -/
theorem unpackEnvironmentalPacket_pack (packet : List Nat) (nodeID : Nat) (t h p : ℚ)
    (batteryMv : Nat) (rssi : Int) (hlen : 12 ≤ packet.length)
    (ht1 : -32768 ≤ truncToInt (f32 (t * 100))) (ht2 : truncToInt (f32 (t * 100)) ≤ 32767)
    (hh1 : 0 ≤ truncToInt (f32 (h * 100))) (hh2 : truncToInt (f32 (h * 100)) ≤ 65535)
    (hp1 : 0 ≤ truncToInt (f32 (p * 10))) (hp2 : truncToInt (f32 (p * 10)) ≤ 65535)
    (hmv : batteryMv < 65536) (hr1 : -128 ≤ rssi) (hr2 : rssi ≤ 127) :
    unpackEnvironmentalPacket (packEnvironmentalPacket packet nodeID t h p batteryMv rssi)
      = some { nodeID := nodeID,
               temp := f32 (f64 ((truncToInt (f32 (t * 100)) : ℚ) / 100)),
               humidity := f32 (f64 ((truncToInt (f32 (h * 100)) : ℚ) / 100)),
               pressure := f32 (f64 ((truncToInt (f32 (p * 10)) : ℚ) / 10)),
               batteryMv := batteryMv, rssi := rssi } := by
  have hv := (packEnvironmentalPacket_verifies packet nodeID t h p batteryMv rssi hlen).1
  obtain ⟨hH, hHn⟩ := floatToUint16_of_range _ hh1 hh2
  obtain ⟨hP, hPn⟩ := floatToUint16_of_range _ hp1 hp2
  have hT := floatToInt16_of_range _ ht1 ht2
  simp only [unpackEnvironmentalPacket, ENV_PACKET_SIZE, hv, Bool.not_true]
  rw [packEnvironmentalPacket_eq _ _ _ _ _ _ _ hlen]
  simp [unpackUint16, unpackInt16, uint16_bytes_round_trip _ hmv,
    uint16_bytes_round_trip _ hHn, uint16_bytes_round_trip _ hPn, hT,
    int16_bytes_round_trip _ ht1 ht2, int8_byte_round_trip _ hr1 hr2]
  rw [hH, hP, toNat_cast_rat _ hh1, toNat_cast_rat _ hp1]
  exact ⟨rfl, rfl⟩

/-- The error of one fixed-point field over the whole round trip: the `float` product by the
scale `c`, the truncation, the `double` quotient and its narrowing to `float`. -/
theorem field_round_trip_error (t c : ℚ) (k : ℤ) (hc : 0 < c) (hk : -126 < k)
    (hs : |f32 (t * c)| < 2 ^ (16 : ℤ))
    (hq : |(truncToInt (f32 (t * c)) : ℚ) / c| + 2 ^ (k - 53) / 2 < 2 ^ k) :
    |f32 (f64 ((truncToInt (f32 (t * c)) : ℚ) / c)) - t|
      < (1 + 2 ^ (-8 : ℤ)) / c + 2 ^ (k - 53) / 2 + 2 ^ (k - 24) / 2 := by
  have hx : |t * c| < 2 ^ ((16 : ℤ) + 1) :=
    abs_lt_of_roundBinary_lt 24 (-126) (t * c) 16 (by norm_num) (by norm_num) hs
  have e1 : |f32 (t * c) - t * c| ≤ 2 ^ ((16 : ℤ) + 1 - (24 : ℕ)) / 2 :=
    roundBinary_err_lt 24 (-126) (t * c) _ hx (by norm_num)
  have e1' : (2 : ℚ) ^ ((16 : ℤ) + 1 - (24 : ℕ)) / 2 = 2 ^ (-8 : ℤ) := by norm_num
  rw [e1'] at e1
  have e2 := truncToInt_abs_sub_lt (f32 (t * c))
  have hpow : (0 : ℚ) < 2 ^ (k - 53) / 2 := by positivity
  have hq' : |(truncToInt (f32 (t * c)) : ℚ) / c| < 2 ^ k := by linarith
  have e3 : |f64 ((truncToInt (f32 (t * c)) : ℚ) / c) - (truncToInt (f32 (t * c)) : ℚ) / c|
      ≤ 2 ^ (k - (53 : ℕ)) / 2 :=
    roundBinary_err_lt 53 (-1022) _ k hq' (by omega)
  have hy : |f64 ((truncToInt (f32 (t * c)) : ℚ) / c)| < 2 ^ k := by
    have := abs_sub_abs_le_abs_sub (f64 ((truncToInt (f32 (t * c)) : ℚ) / c))
      ((truncToInt (f32 (t * c)) : ℚ) / c)
    push_cast at e3
    linarith
  have e4 : |f32 (f64 ((truncToInt (f32 (t * c)) : ℚ) / c))
      - f64 ((truncToInt (f32 (t * c)) : ℚ) / c)| ≤ 2 ^ (k - (24 : ℕ)) / 2 :=
    roundBinary_err_lt 24 (-126) _ k hy hk
  have e5 : |(truncToInt (f32 (t * c)) : ℚ) / c - t| < (1 + 2 ^ (-8 : ℤ)) / c := by
    have e : (truncToInt (f32 (t * c)) : ℚ) / c - t
        = (((truncToInt (f32 (t * c)) : ℚ) - f32 (t * c)) + (f32 (t * c) - t * c)) / c := by
      field_simp
      ring
    rw [e, abs_div, abs_of_pos hc]
    apply div_lt_div_of_pos_right _ hc
    have := abs_add ((truncToInt (f32 (t * c)) : ℚ) - f32 (t * c)) (f32 (t * c) - t * c)
    linarith
  push_cast at e3 e4
  have a1 := abs_sub_le (f32 (f64 ((truncToInt (f32 (t * c)) : ℚ) / c)))
    (f64 ((truncToInt (f32 (t * c)) : ℚ) / c)) t
  have a2 := abs_sub_le (f64 ((truncToInt (f32 (t * c)) : ℚ) / c))
    ((truncToInt (f32 (t * c)) : ℚ) / c) t
  linarith

/-- A `float` whose truncation lies in `[lo, hi]` lies strictly between `lo - 1` and
`hi + 1`. -/
theorem abs_lt_of_truncToInt (x : ℚ) (lo hi : ℤ) (h1 : lo ≤ truncToInt x)
    (h2 : truncToInt x ≤ hi) : (lo : ℚ) - 1 < x ∧ x < (hi : ℚ) + 1 := by
  have h := truncToInt_abs_sub_lt x
  rw [abs_lt] at h
  have a : (lo : ℚ) ≤ (truncToInt x : ℚ) := by exact_mod_cast h1
  have b : (truncToInt x : ℚ) ≤ (hi : ℚ) := by exact_mod_cast h2
  constructor <;> linarith

/-- C4, counterexample: the code computes in `float`. For the `float` nearest to 15.03
(`15760097 / 2^20`, about 15.0299997) the exact `trunc(100 t)` is 1502, in range, but the
`float` product rounds to 1503.0 and the temperature comes back as the `float` nearest to
15.03, not as 15.02. For the `float` nearest to 16.22 (`8503951 / 2^19`) the temperature
comes back as the `float` nearest to 16.21 (`8498708 / 2^19`), an error of `5243 / 2^19`,
which is not below 0.01. -/
theorem C4_environmental_counterexample :
    truncToInt ((15760097 / 1048576 : ℚ) * 100) = 1502 ∧
    unpackEnvironmentalPacket (packEnvironmentalPacket (List.replicate 12 0) 5
        (15760097 / 1048576) 0 0 3700 (-67))
      = some { nodeID := 5, temp := 15760097 / 1048576, humidity := 0, pressure := 0,
               batteryMv := 3700, rssi := -67 } ∧
    (15760097 / 1048576 : ℚ) ≠ 1502 / 100 ∧
    truncToInt ((8503951 / 524288 : ℚ) * 100) = 1621 ∧
    unpackEnvironmentalPacket (packEnvironmentalPacket (List.replicate 12 0) 5
        (8503951 / 524288) 0 0 3700 (-67))
      = some { nodeID := 5, temp := 8498708 / 524288, humidity := 0, pressure := 0,
               batteryMv := 3700, rssi := -67 } ∧
    (1 / 100 : ℚ) ≤ |8498708 / 524288 - 8503951 / 524288| := by
  have z1 : truncToInt (f32 ((0 : ℚ) * 100)) = 0 := by
    rw [zero_mul, f32_zero]; simp [truncToInt]
  have z2 : truncToInt (f32 ((0 : ℚ) * 10)) = 0 := by
    rw [zero_mul, f32_zero]; simp [truncToInt]
  have a1 : f32 ((15760097 / 1048576 : ℚ) * 100) = 1503 := by
    unfold f32
    rw [roundBinary_eq 24 (-126) _ 10 12312576 (by norm_num [abs_of_pos])
      (by norm_num [abs_of_pos]) (by norm_num) (by norm_num [abs_lt])]
    norm_num
  have a2 : truncToInt (1503 : ℚ) = 1503 := by
    unfold truncToInt
    rw [if_pos (by norm_num), Int.floor_eq_iff]
    norm_num
  have a3 : f64 ((1503 : ℚ) / 100) = 8461137799922319 / 562949953421312 := by
    unfold f64
    rw [roundBinary_eq 53 (-1022) _ 3 8461137799922319 (by norm_num [abs_of_pos])
      (by norm_num [abs_of_pos]) (by norm_num) (by norm_num [abs_lt])]
    norm_num
  have a4 : f32 (8461137799922319 / 562949953421312 : ℚ) = 15760097 / 1048576 := by
    unfold f32
    rw [roundBinary_eq 24 (-126) _ 3 15760097 (by norm_num [abs_of_pos])
      (by norm_num [abs_of_pos]) (by norm_num) (by norm_num [abs_lt])]
    norm_num
  have b1 : f32 ((8503951 / 524288 : ℚ) * 100) = 13287423 / 8192 := by
    unfold f32
    rw [roundBinary_eq 24 (-126) _ 10 13287423 (by norm_num [abs_of_pos])
      (by norm_num [abs_of_pos]) (by norm_num) (by norm_num [abs_lt])]
    norm_num
  have b2 : truncToInt (13287423 / 8192 : ℚ) = 1621 := by
    unfold truncToInt
    rw [if_pos (by norm_num), Int.floor_eq_iff]
    norm_num
  have b3 : f64 ((1621 : ℚ) / 100) = 4562709372479734 / 281474976710656 := by
    unfold f64
    rw [roundBinary_eq 53 (-1022) _ 4 4562709372479734 (by norm_num [abs_of_pos])
      (by norm_num [abs_of_pos]) (by norm_num) (by norm_num [abs_lt])]
    norm_num
  have b4 : f32 (4562709372479734 / 281474976710656 : ℚ) = 8498708 / 524288 := by
    unfold f32
    rw [roundBinary_eq 24 (-126) _ 4 8498708 (by norm_num [abs_of_pos])
      (by norm_num [abs_of_pos]) (by norm_num) (by norm_num [abs_lt])]
    norm_num
  refine ⟨?_, ?_, by norm_num, ?_, ?_, ?_⟩
  · unfold truncToInt
    rw [if_pos (by norm_num), Int.floor_eq_iff]
    norm_num
  · rw [unpackEnvironmentalPacket_pack _ _ _ _ _ _ _ (by decide)
      (by rw [a1, a2]; decide) (by rw [a1, a2]; decide) (by rw [z1]) (by rw [z1]; decide)
      (by rw [z2]) (by rw [z2]; decide) (by decide) (by decide) (by decide)]
    rw [z1, z2, a1, a2]
    simp only [Int.cast_zero, zero_div, f64_zero, f32_zero, Int.cast_ofNat, a3, a4]
  · unfold truncToInt
    rw [if_pos (by norm_num), Int.floor_eq_iff]
    norm_num
  · rw [unpackEnvironmentalPacket_pack _ _ _ _ _ _ _ (by decide)
      (by rw [b1, b2]; decide) (by rw [b1, b2]; decide) (by rw [z1]) (by rw [z1]; decide)
      (by rw [z2]) (by rw [z2]; decide) (by decide) (by decide) (by decide)]
    rw [z1, z2, b1, b2]
    simp only [Int.cast_zero, zero_div, f64_zero, f32_zero, Int.cast_ofNat, b3, b4]
  · rw [abs_sub_comm, abs_of_pos (by norm_num)]
    norm_num

/-- C4, amended: Format A Environmental round trip modulo quantization, in the `float`
arithmetic of the code. When the `float` products `t * 100`, `h * 100` and `p * 10` truncate
into the range of their field (`int16_t`, `uint16_t`, `uint16_t`), the battery value is
16-bit and the RSSI 8-bit signed, unpacking the packed packet returns `true`; node id,
battery and RSSI come back exactly; temperature, humidity and pressure come back as the
`float` nearest to the `double` quotient of the truncated product by 100, 100 and 10, and
their errors are below 0.0101, 0.0101 and 0.101 (negative temperatures included). -/
theorem C4_environmental_float_round_trip (packet : List Nat) (nodeID : Nat) (t h p : ℚ)
    (batteryMv : Nat) (rssi : Int) (hlen : 12 ≤ packet.length)
    (ht1 : -32768 ≤ truncToInt (f32 (t * 100))) (ht2 : truncToInt (f32 (t * 100)) ≤ 32767)
    (hh1 : 0 ≤ truncToInt (f32 (h * 100))) (hh2 : truncToInt (f32 (h * 100)) ≤ 65535)
    (hp1 : 0 ≤ truncToInt (f32 (p * 10))) (hp2 : truncToInt (f32 (p * 10)) ≤ 65535)
    (hmv : batteryMv < 65536) (hr1 : -128 ≤ rssi) (hr2 : rssi ≤ 127) :
    ∃ e : EnvFields,
      unpackEnvironmentalPacket (packEnvironmentalPacket packet nodeID t h p batteryMv rssi)
        = some e ∧
      e.nodeID = nodeID ∧ e.batteryMv = batteryMv ∧ e.rssi = rssi ∧
      e.temp = f32 (f64 ((truncToInt (f32 (t * 100)) : ℚ) / 100)) ∧
      e.humidity = f32 (f64 ((truncToInt (f32 (h * 100)) : ℚ) / 100)) ∧
      e.pressure = f32 (f64 ((truncToInt (f32 (p * 10)) : ℚ) / 10)) ∧
      |e.temp - t| < 101 / 10000 ∧ |e.humidity - h| < 101 / 10000 ∧
      |e.pressure - p| < 101 / 1000 := by
  refine ⟨_, unpackEnvironmentalPacket_pack packet nodeID t h p batteryMv rssi hlen
    ht1 ht2 hh1 hh2 hp1 hp2 hmv hr1 hr2, rfl, rfl, rfl, rfl, rfl, rfl, ?_, ?_, ?_⟩
  · obtain ⟨s1, s2⟩ := abs_lt_of_truncToInt _ _ _ ht1 ht2
    have c1 : (-32768 : ℚ) ≤ (truncToInt (f32 (t * 100)) : ℚ) := by exact_mod_cast ht1
    have c2 : (truncToInt (f32 (t * 100)) : ℚ) ≤ 32767 := by exact_mod_cast ht2
    have hT : |(truncToInt (f32 (t * 100)) : ℚ)| ≤ 32768 := by
      rw [abs_le]; constructor <;> linarith
    have h := field_round_trip_error t 100 9 (by norm_num) (by norm_num)
      (by rw [abs_lt]; push_cast at s1 s2; constructor <;> norm_num <;> linarith)
      (by rw [abs_div, abs_of_pos (by norm_num : (0 : ℚ) < 100)]; norm_num; linarith)
    simp only []
    have e : (1 + (2 : ℚ) ^ (-8 : ℤ)) / 100 + 2 ^ ((9 : ℤ) - 53) / 2 + 2 ^ ((9 : ℤ) - 24) / 2
        < 101 / 10000 := by norm_num
    linarith
  · obtain ⟨s1, s2⟩ := abs_lt_of_truncToInt _ _ _ hh1 hh2
    have c1 : (0 : ℚ) ≤ (truncToInt (f32 (h * 100)) : ℚ) := by exact_mod_cast hh1
    have c2 : (truncToInt (f32 (h * 100)) : ℚ) ≤ 65535 := by exact_mod_cast hh2
    have hT : |(truncToInt (f32 (h * 100)) : ℚ)| ≤ 65535 := by
      rw [abs_le]; constructor <;> linarith
    have h := field_round_trip_error h 100 10 (by norm_num) (by norm_num)
      (by rw [abs_lt]; push_cast at s1 s2; constructor <;> norm_num <;> linarith)
      (by rw [abs_div, abs_of_pos (by norm_num : (0 : ℚ) < 100)]; norm_num; linarith)
    simp only []
    have e : (1 + (2 : ℚ) ^ (-8 : ℤ)) / 100 + 2 ^ ((10 : ℤ) - 53) / 2
        + 2 ^ ((10 : ℤ) - 24) / 2 < 101 / 10000 := by norm_num
    linarith
  · obtain ⟨s1, s2⟩ := abs_lt_of_truncToInt _ _ _ hp1 hp2
    have c1 : (0 : ℚ) ≤ (truncToInt (f32 (p * 10)) : ℚ) := by exact_mod_cast hp1
    have c2 : (truncToInt (f32 (p * 10)) : ℚ) ≤ 65535 := by exact_mod_cast hp2
    have hT : |(truncToInt (f32 (p * 10)) : ℚ)| ≤ 65535 := by
      rw [abs_le]; constructor <;> linarith
    have h := field_round_trip_error p 10 13 (by norm_num) (by norm_num)
      (by rw [abs_lt]; push_cast at s1 s2; constructor <;> norm_num <;> linarith)
      (by rw [abs_div, abs_of_pos (by norm_num : (0 : ℚ) < 10)]; norm_num; linarith)
    simp only []
    have e : (1 + (2 : ℚ) ^ (-8 : ℤ)) / 10 + 2 ^ ((13 : ℤ) - 53) / 2
        + 2 ^ ((13 : ℤ) - 24) / 2 < 101 / 1000 := by norm_num
    linarith

/-- C4 amended, at a concrete input: the `float` values nearest to -12.345 °C
(`-12944671 / 2^20`), 45.5 % and 1013.25 hPa, with 3700 mV and -67 dBm, come back as the
`float` values nearest to -12.34 °C and 1013.2 hPa and as 45.5 %, 3700 mV, -67 dBm. -/
theorem C4_environmental_float_round_trip_witness :
    unpackEnvironmentalPacket (packEnvironmentalPacket (List.replicate 12 0) 5
        (-12944671 / 1048576) (91 / 2) (4053 / 4) 3700 (-67))
      = some { nodeID := 5, temp := -3234857 / 262144, humidity := 91 / 2,
               pressure := 16600269 / 16384, batteryMv := 3700, rssi := -67 } := by
  have a1 : f32 ((-12944671 / 1048576 : ℚ) * 100) = -2469 / 2 := by
    unfold f32
    rw [roundBinary_eq 24 (-126) _ 10 (-10113024) (by norm_num [abs_of_neg])
      (by norm_num [abs_of_neg]) (by norm_num) (by norm_num [abs_lt])]
    norm_num
  have a2 : truncToInt (-2469 / 2 : ℚ) = -1234 := by
    unfold truncToInt
    rw [if_neg (by norm_num), Int.ceil_eq_iff]
    norm_num
  have a3 : f64 ((-1234 : ℚ) / 100) = -3473401212609495 / 281474976710656 := by
    unfold f64
    rw [roundBinary_eq 53 (-1022) _ 3 (-6946802425218990) (by norm_num [abs_of_neg])
      (by norm_num [abs_of_neg]) (by norm_num) (by norm_num [abs_lt])]
    norm_num
  have a4 : f32 (-3473401212609495 / 281474976710656 : ℚ) = -3234857 / 262144 := by
    unfold f32
    rw [roundBinary_eq 24 (-126) _ 3 (-12939428) (by norm_num [abs_of_neg])
      (by norm_num [abs_of_neg]) (by norm_num) (by norm_num [abs_lt])]
    norm_num
  have b1 : f32 ((91 / 2 : ℚ) * 100) = 4550 := by
    unfold f32
    rw [roundBinary_eq 24 (-126) _ 12 9318400 (by norm_num [abs_of_pos])
      (by norm_num [abs_of_pos]) (by norm_num) (by norm_num [abs_lt])]
    norm_num
  have b2 : truncToInt (4550 : ℚ) = 4550 := by
    unfold truncToInt
    rw [if_pos (by norm_num), Int.floor_eq_iff]
    norm_num
  have b3 : f64 ((4550 : ℚ) / 100) = 91 / 2 := by
    unfold f64
    rw [roundBinary_eq 53 (-1022) _ 5 6403555720167424 (by norm_num [abs_of_pos])
      (by norm_num [abs_of_pos]) (by norm_num) (by norm_num [abs_lt])]
    norm_num
  have b4 : f32 (91 / 2 : ℚ) = 91 / 2 := by
    unfold f32
    rw [roundBinary_eq 24 (-126) _ 5 11927552 (by norm_num [abs_of_pos])
      (by norm_num [abs_of_pos]) (by norm_num) (by norm_num [abs_lt])]
    norm_num
  have c1 : f32 ((4053 / 4 : ℚ) * 10) = 20265 / 2 := by
    unfold f32
    rw [roundBinary_eq 24 (-126) _ 13 10375680 (by norm_num [abs_of_pos])
      (by norm_num [abs_of_pos]) (by norm_num) (by norm_num [abs_lt])]
    norm_num
  have c2 : truncToInt (20265 / 2 : ℚ) = 10132 := by
    unfold truncToInt
    rw [if_pos (by norm_num), Int.floor_eq_iff]
    norm_num
  have c3 : f64 ((10132 : ℚ) / 10) = 4456100725050573 / 4398046511104 := by
    unfold f64
    rw [roundBinary_eq 53 (-1022) _ 9 8912201450101146 (by norm_num [abs_of_pos])
      (by norm_num [abs_of_pos]) (by norm_num) (by norm_num [abs_lt])]
    norm_num
  have c4 : f32 (4456100725050573 / 4398046511104 : ℚ) = 16600269 / 16384 := by
    unfold f32
    rw [roundBinary_eq 24 (-126) _ 9 16600269 (by norm_num [abs_of_pos])
      (by norm_num [abs_of_pos]) (by norm_num) (by norm_num [abs_lt])]
    norm_num
  obtain ⟨e, h1, h2, h3, h4, h5, h6, h7, _⟩ :=
    C4_environmental_float_round_trip (List.replicate 12 0) 5
      (-12944671 / 1048576) (91 / 2) (4053 / 4) 3700 (-67) (by decide)
      (by rw [a1, a2]; decide) (by rw [a1, a2]; decide)
      (by rw [b1, b2]; decide) (by rw [b1, b2]; decide)
      (by rw [c1, c2]; decide) (by rw [c1, c2]; decide)
      (by decide) (by decide) (by decide)
  rw [a1, a2] at h5
  rw [b1, b2] at h6
  rw [c1, c2] at h7
  simp only [Int.cast_neg, Int.cast_ofNat, a3, a4] at h5
  simp only [Int.cast_ofNat, b3, b4] at h6
  simp only [Int.cast_ofNat, c3, c4] at h7
  rw [h1]
  cases e
  simp only [EnvFields.mk.injEq, Option.some.injEq]
  simp only [] at h2 h3 h4 h5 h6 h7
  exact ⟨h2, h5, h6, h7, h3, h4⟩

/-- C8: Format A wire layout. For each of the five pack functions and all inputs, the bytes
before the last are the node id, the kind tag (`0x01`, `0x02`, `0x03`, `0x04`, `0x22`) and
the fields at their table offsets, every 16-bit field high byte first (a signed one in
two's complement); the last byte of the packet is the XOR of all preceding bytes
(indices `0 .. N-2`); bytes of the buffer beyond the packet are untouched. The three
fixed-point fields of the Environmental packet hold the truncated `float` products
`temp * 100`, `humidity * 100` and `pressure * 10`, each where the product truncates into
the range of its field, which is where C++ defines the conversion. -/
theorem C8_formatA_wire_layout (packet : List Nat) :
    (∀ (nodeID : Nat) (temp humidity pressure : ℚ) (batteryMv : Nat) (rssi : Int),
      12 ≤ packet.length →
      let out := packEnvironmentalPacket packet nodeID temp humidity pressure batteryMv rssi
      out.take 2 = [nodeID, 0x01] ∧
      (-32768 ≤ truncToInt (f32 (temp * 100)) → truncToInt (f32 (temp * 100)) ≤ 32767 →
        (out.drop 2).take 2
          = [(truncToInt (f32 (temp * 100)) / 256 % 256).toNat,
             (truncToInt (f32 (temp * 100)) % 256).toNat]) ∧
      (0 ≤ truncToInt (f32 (humidity * 100)) → truncToInt (f32 (humidity * 100)) ≤ 65535 →
        (out.drop 4).take 2
          = [(truncToInt (f32 (humidity * 100))).toNat / 256 % 256,
             (truncToInt (f32 (humidity * 100))).toNat % 256]) ∧
      (0 ≤ truncToInt (f32 (pressure * 10)) → truncToInt (f32 (pressure * 10)) ≤ 65535 →
        (out.drop 6).take 2
          = [(truncToInt (f32 (pressure * 10))).toNat / 256 % 256,
             (truncToInt (f32 (pressure * 10))).toNat % 256]) ∧
      (out.drop 8).take 3 = [batteryMv / 256 % 256, batteryMv % 256, (rssi % 256).toNat] ∧
      out.getD 11 0 = (out.take 11).foldl (fun c b => c ^^^ b) 0 ∧
      out.drop 12 = packet.drop 12) ∧
    (∀ nodeID eventType confidence distance zone : Nat,
      8 ≤ packet.length →
      let out := packDetectionPacket packet nodeID eventType confidence distance zone
      out.take 7
        = [nodeID, 0x02, eventType, confidence, distance / 256 % 256, distance % 256, zone] ∧
      out.getD 7 0 = (out.take 7).foldl (fun c b => c ^^^ b) 0 ∧
      out.drop 8 = packet.drop 8) ∧
    (∀ fromNodeID command mode targetNode : Nat,
      6 ≤ packet.length →
      let out := packAlarmPacket packet fromNodeID command mode targetNode
      out.take 5 = [fromNodeID, 0x03, command, mode, targetNode] ∧
      out.getD 5 0 = (out.take 5).foldl (fun c b => c ^^^ b) 0 ∧
      out.drop 6 = packet.drop 6) ∧
    (∀ nodeID batteryMv : Nat,
      5 ≤ packet.length →
      let out := packHeartbeatPacket packet nodeID batteryMv
      out.take 4 = [nodeID, 0x04, batteryMv / 256 % 256, batteryMv % 256] ∧
      out.getD 4 0 = (out.take 4).foldl (fun c b => c ^^^ b) 0 ∧
      out.drop 5 = packet.drop 5) ∧
    (∀ nodeID aws awd tws twd bsp bhd fixQuality : Nat,
      16 ≤ packet.length →
      let out := packWindPacket packet nodeID aws awd tws twd bsp bhd fixQuality
      out.take 15
        = [nodeID, 0x22, aws / 256 % 256, aws % 256, awd / 256 % 256, awd % 256,
            tws / 256 % 256, tws % 256, twd / 256 % 256, twd % 256,
            bsp / 256 % 256, bsp % 256, bhd / 256 % 256, bhd % 256, fixQuality] ∧
      out.getD 15 0 = (out.take 15).foldl (fun c b => c ^^^ b) 0 ∧
      out.drop 16 = packet.drop 16) := by
  refine ⟨?_, ?_, ?_, ?_, ?_⟩
  · intro nodeID temp humidity pressure batteryMv rssi hlen out
    have ho := packEnvironmentalPacket_eq packet nodeID temp humidity pressure batteryMv rssi hlen
    simp only [out, ho]
    refine ⟨?_, ?_, ?_, ?_, ?_, ?_, ?_⟩
    · simp
    · intro h1 h2
      rw [floatToInt16_of_range _ h1 h2, low8_shr]
      simp [low8]
    · intro h1 h2
      rw [(floatToUint16_of_range _ h1 h2).1]
      simp [and_255, shr_8]
    · intro h1 h2
      rw [(floatToUint16_of_range _ h1 h2).1]
      simp [and_255, shr_8]
    · simp [and_255, shr_8, low8]
    · simp [calculateChecksum]
    · simp
  · intro nodeID eventType confidence distance zone hlen out
    have ho := packDetectionPacket_eq packet nodeID eventType confidence distance zone hlen
    simp only [out, ho]
    refine ⟨?_, ?_, ?_⟩
    · simp [and_255, shr_8]
    · simp [calculateChecksum]
    · simp
  · intro fromNodeID command mode targetNode hlen out
    have ho := packAlarmPacket_eq packet fromNodeID command mode targetNode hlen
    simp only [out, ho]
    refine ⟨?_, ?_, ?_⟩
    · simp
    · simp [calculateChecksum]
    · simp
  · intro nodeID batteryMv hlen out
    have ho := packHeartbeatPacket_eq packet nodeID batteryMv hlen
    simp only [out, ho]
    refine ⟨?_, ?_, ?_⟩
    · simp [and_255, shr_8]
    · simp [calculateChecksum]
    · simp
  · intro nodeID aws awd tws twd bsp bhd fixQuality hlen out
    have ho := packWindPacket_eq packet nodeID aws awd tws twd bsp bhd fixQuality hlen
    simp only [out, ho]
    refine ⟨?_, ?_, ?_⟩
    · simp [and_255, shr_8]
    · simp [calculateChecksum]
    · simp

/-- C8 at concrete inputs: the Heartbeat packet of node `0x12` with 3700 mV, the Alarm
packet "arm, mode 3, all nodes" from the hub, and the temperature field of the Environmental
packet for the `float` nearest to 15.03 °C, which holds 1503 (`0x05DF`). -/
theorem C8_formatA_wire_layout_witness :
    (packHeartbeatPacket [0, 0, 0, 0, 0] 0x12 3700).take 4 = [0x12, 0x04, 0x0E, 0x74] ∧
    (packAlarmPacket [9, 9, 9, 9, 9, 9, 9] 0 1 3 0xFF).take 5 = [0, 0x03, 1, 3, 0xFF] ∧
    (packAlarmPacket [9, 9, 9, 9, 9, 9, 9] 0 1 3 0xFF).drop 6 = [9] ∧
    ((packEnvironmentalPacket (List.replicate 12 0) 5 (15760097 / 1048576) 0 0 3700
        (-67)).drop 2).take 2 = [5, 223] := by
  have a1 : f32 ((15760097 / 1048576 : ℚ) * 100) = 1503 := by
    unfold f32
    rw [roundBinary_eq 24 (-126) _ 10 12312576 (by norm_num [abs_of_pos])
      (by norm_num [abs_of_pos]) (by norm_num) (by norm_num [abs_lt])]
    norm_num
  have a2 : truncToInt (1503 : ℚ) = 1503 := by
    unfold truncToInt
    rw [if_pos (by norm_num), Int.floor_eq_iff]
    norm_num
  have h := ((C8_formatA_wire_layout (List.replicate 12 0)).1 5 (15760097 / 1048576) 0 0 3700
    (-67) (by decide)).2.1 (by rw [a1, a2]; decide) (by rw [a1, a2]; decide)
  rw [a1, a2] at h
  exact ⟨((C8_formatA_wire_layout [0, 0, 0, 0, 0]).2.2.2.1 0x12 3700 (by decide)).1,
    ((C8_formatA_wire_layout [9, 9, 9, 9, 9, 9, 9]).2.2.1 0 1 3 0xFF (by decide)).1,
    ((C8_formatA_wire_layout [9, 9, 9, 9, 9, 9, 9]).2.2.1 0 1 3 0xFF (by decide)).2.2, h⟩

/-! ## Alarm coordinator: the claims -/

/-- C10: `AlarmManager::triggerAlarm(nodeID)` at time `now`. When the mode is not
`MODE_DISARMED` and no alarm is triggered it sets `alarmTriggered`, `triggeringNode = nodeID`
and `alarmTime = now`, leaving mode and PIN alone; when the mode is `MODE_DISARMED`, or an
alarm is already triggered, the whole state is unchanged, so a second trigger keeps the first
`alarmTime` and `triggeringNode` whatever node id and time it is given. -/
theorem C10_triggerAlarm (s : AlarmManager) (nodeID now : Nat) :
    (s.currentMode ≠ AlarmMode.MODE_DISARMED ∧ s.alarmTriggered = false →
      s.triggerAlarm nodeID now
        = { s with alarmTriggered := true, triggeringNode := nodeID, alarmTime := now } ∧
      (s.triggerAlarm nodeID now).currentMode = s.currentMode) ∧
    (s.currentMode = AlarmMode.MODE_DISARMED ∨ s.alarmTriggered = true →
      s.triggerAlarm nodeID now = s) ∧
    (∀ nodeID2 now2 : Nat,
      (s.triggerAlarm nodeID now).triggerAlarm nodeID2 now2 = s.triggerAlarm nodeID now) := by
  refine ⟨?_, ?_, ?_⟩
  · rintro ⟨hm, ht⟩
    simp [AlarmManager.triggerAlarm, hm, ht]
  · rintro (hm | ht)
    · simp [AlarmManager.triggerAlarm, hm]
    · simp [AlarmManager.triggerAlarm, ht]
  · intro nodeID2 now2
    by_cases hm : s.currentMode = AlarmMode.MODE_DISARMED
    · simp [AlarmManager.triggerAlarm, hm]
    · by_cases ht : s.alarmTriggered = true
      · simp [AlarmManager.triggerAlarm, hm, ht]
      · simp [AlarmManager.triggerAlarm, hm, ht]

/-- C10 at a concrete input: arm fully, trigger from node 7 at 1000 ms, then trigger again
from node 9 at 5000 ms. -/
theorem C10_triggerAlarm_witness :
    ((AlarmManager.new.armSystem AlarmMode.MODE_FULL).triggerAlarm 7 1000)
      = { currentMode := AlarmMode.MODE_FULL, alarmTriggered := true, triggeringNode := 7,
          alarmTime := 1000, alarmPin := "1234" } ∧
    (((AlarmManager.new.armSystem AlarmMode.MODE_FULL).triggerAlarm 7 1000).triggerAlarm 9 5000)
      = (AlarmManager.new.armSystem AlarmMode.MODE_FULL).triggerAlarm 7 1000 ∧
    AlarmManager.new.triggerAlarm 7 1000 = AlarmManager.new :=
  ⟨((C10_triggerAlarm (AlarmManager.new.armSystem AlarmMode.MODE_FULL) 7 1000).1
      ⟨by decide, rfl⟩).1,
   (C10_triggerAlarm (AlarmManager.new.armSystem AlarmMode.MODE_FULL) 7 1000).2.2 9 5000,
   (C10_triggerAlarm AlarmManager.new 7 1000).2.1 (Or.inl rfl)⟩

/-! ## Alarm coordinator: timeout, invariant, arming -/

/-- The 32-bit difference `millis() - alarmTime` is the plain difference when the counter has
not wrapped since the alarm. -/
theorem u32_elapsed_of_le (now t : Nat) (hnow : now < 4294967296) (ht : t ≤ now) :
    (now + 4294967296 - t) % 4294967296 = now - t := by
  omega

theorem AlarmManager.process_eq (s : AlarmManager) (now : Nat) :
    s.process now
      = if s.alarmTriggered = true ∧ (now + 4294967296 - s.alarmTime) % 4294967296 > 600000
        then { s with currentMode := AlarmMode.MODE_DISARMED, alarmTriggered := false,
                      triggeringNode := 0 }
        else s := by
  unfold AlarmManager.process AlarmManager.disarm
  by_cases h1 : s.alarmTriggered = true <;>
    by_cases h2 : (now + 4294967296 - s.alarmTime) % 4294967296 > 600000 <;>
    simp [h1, h2]

/-- C11: `AlarmManager::process()` at time `now`, with `elapsed` the 32-bit difference
`now - alarmTime` (the plain difference while the counter has not wrapped). It forces a
disarm exactly when the alarm is triggered and `elapsed > 600000`: the mode becomes
`MODE_DISARMED`, `alarmTriggered` false, `triggeringNode` 0, the rest is kept. Otherwise (not
triggered, or `elapsed ≤ 600000`) the state is unchanged. A tick 10 min + 1 s after
`alarmTime` disarms a triggered alarm; a tick exactly 10 min after it changes nothing. -/
theorem C11_process_auto_timeout (s : AlarmManager) (now : Nat)
    (hnow : now < 4294967296) (ht : s.alarmTime < 4294967296) :
    (s.alarmTime ≤ now → (now + 4294967296 - s.alarmTime) % 4294967296 = now - s.alarmTime) ∧
    (s.alarmTriggered = true ∧ (now + 4294967296 - s.alarmTime) % 4294967296 > 600000 →
      s.process now
        = { currentMode := AlarmMode.MODE_DISARMED, alarmTriggered := false,
            triggeringNode := 0, alarmTime := s.alarmTime, alarmPin := s.alarmPin }) ∧
    (¬ (s.alarmTriggered = true ∧ (now + 4294967296 - s.alarmTime) % 4294967296 > 600000) →
      s.process now = s) ∧
    (s.alarmTriggered = true →
      s.process ((s.alarmTime + 601000) % 4294967296)
        = { currentMode := AlarmMode.MODE_DISARMED, alarmTriggered := false,
            triggeringNode := 0, alarmTime := s.alarmTime, alarmPin := s.alarmPin }) ∧
    s.process ((s.alarmTime + 600000) % 4294967296) = s := by
  refine ⟨fun hle => u32_elapsed_of_le now s.alarmTime hnow hle, ?_, ?_, ?_, ?_⟩
  · intro h
    rw [AlarmManager.process_eq, if_pos h]
  · intro h
    rw [AlarmManager.process_eq, if_neg h]
  · intro h
    have he : ((s.alarmTime + 601000) % 4294967296 + 4294967296 - s.alarmTime) % 4294967296
        > 600000 := by omega
    rw [AlarmManager.process_eq, if_pos ⟨h, he⟩]
  · have he : ¬ ((s.alarmTime + 600000) % 4294967296 + 4294967296 - s.alarmTime) % 4294967296
        > 600000 := by omega
    rw [AlarmManager.process_eq, if_neg (fun h => he h.2)]

/-- C11 at a concrete input: an alarm raised by node 7 at 1000 ms, ticks at 601000 ms (exactly
ten minutes later) and at 602000 ms. -/
theorem C11_process_auto_timeout_witness :
    ((AlarmManager.new.armSystem AlarmMode.MODE_FULL).triggerAlarm 7 1000).process 601000
      = (AlarmManager.new.armSystem AlarmMode.MODE_FULL).triggerAlarm 7 1000 ∧
    ((AlarmManager.new.armSystem AlarmMode.MODE_FULL).triggerAlarm 7 1000).process 602000
      = { currentMode := AlarmMode.MODE_DISARMED, alarmTriggered := false,
          triggeringNode := 0, alarmTime := 1000, alarmPin := "1234" } :=
  ⟨(C11_process_auto_timeout
      ((AlarmManager.new.armSystem AlarmMode.MODE_FULL).triggerAlarm 7 1000) 601000
      (by decide) (by decide)).2.2.1 (by decide),
   (C11_process_auto_timeout
      ((AlarmManager.new.armSystem AlarmMode.MODE_FULL).triggerAlarm 7 1000) 602000
      (by decide) (by decide)).2.1 (by decide)⟩

/-- Every public method keeps: a triggered alarm implies an armed mode. -/
theorem AlarmManager.call_preserves (s : AlarmManager) (c : AlarmManager.Call)
    (h : s.alarmTriggered = true → s.currentMode ≠ AlarmMode.MODE_DISARMED) :
    (s.call c).alarmTriggered = true → (s.call c).currentMode ≠ AlarmMode.MODE_DISARMED := by
  cases c with
  | begin => simp [AlarmManager.call, AlarmManager.begin]
  | armSystem mode => simp [AlarmManager.call, AlarmManager.armSystem]
  | disarm => simp [AlarmManager.call, AlarmManager.disarm]
  | triggerAlarm nodeID millis =>
    simp only [AlarmManager.call, AlarmManager.triggerAlarm]
    by_cases hm : s.currentMode = AlarmMode.MODE_DISARMED
    · simpa [hm] using h
    · by_cases ht : s.alarmTriggered = true <;> simp [hm, ht]
  | setPin newPin => simpa [AlarmManager.call, AlarmManager.setPin] using h
  | verifyPin pin => simpa [AlarmManager.call] using h
  | process millis =>
    simp only [AlarmManager.call]
    rw [AlarmManager.process_eq]
    split
    · simp
    · exact h

theorem AlarmManager.calls_preserves (cs : List AlarmManager.Call) (s : AlarmManager)
    (h : s.alarmTriggered = true → s.currentMode ≠ AlarmMode.MODE_DISARMED) :
    (s.calls cs).alarmTriggered = true → (s.calls cs).currentMode ≠ AlarmMode.MODE_DISARMED := by
  induction cs generalizing s with
  | nil => simpa [AlarmManager.calls] using h
  | cons c cs ih =>
    have := ih (s.call c) (AlarmManager.call_preserves s c h)
    simpa [AlarmManager.calls] using this

/-- C12: Alarm Coordinator invariant. In every state reached from a newly constructed
`AlarmManager` by any sequence of `begin`, `armSystem`, `disarm`, `triggerAlarm`, `setPin`,
`verifyPin` and `process` calls, `alarmTriggered` is true only if the mode is not
`MODE_DISARMED`. -/
theorem C12_triggered_implies_armed (cs : List AlarmManager.Call) :
    (AlarmManager.new.calls cs).alarmTriggered = true →
      (AlarmManager.new.calls cs).currentMode ≠ AlarmMode.MODE_DISARMED :=
  AlarmManager.calls_preserves cs AlarmManager.new (by simp [AlarmManager.new])

/-- C12 at a concrete input: after arming and a trigger the alarm is triggered and the mode
is armed. -/
theorem C12_triggered_implies_armed_witness :
    (AlarmManager.new.calls
        [AlarmManager.Call.armSystem AlarmMode.MODE_FULL,
         AlarmManager.Call.triggerAlarm 7 1000,
         AlarmManager.Call.process 2000]).alarmTriggered = true ∧
    (AlarmManager.new.calls
        [AlarmManager.Call.armSystem AlarmMode.MODE_FULL,
         AlarmManager.Call.triggerAlarm 7 1000,
         AlarmManager.Call.process 2000]).currentMode ≠ AlarmMode.MODE_DISARMED :=
  ⟨by decide,
   C12_triggered_implies_armed
     [AlarmManager.Call.armSystem AlarmMode.MODE_FULL,
      AlarmManager.Call.triggerAlarm 7 1000,
      AlarmManager.Call.process 2000] (by decide)⟩

/-- A call other than `triggerAlarm` never sets `alarmTriggered`. -/
theorem AlarmManager.call_untriggered (s : AlarmManager) (c : AlarmManager.Call)
    (hc : c.isTriggerAlarm = false) (h : s.alarmTriggered = false) :
    (s.call c).alarmTriggered = false := by
  cases c with
  | begin => simp [AlarmManager.call, AlarmManager.begin]
  | armSystem mode => simp [AlarmManager.call, AlarmManager.armSystem]
  | disarm => simp [AlarmManager.call, AlarmManager.disarm]
  | triggerAlarm nodeID millis => simp [AlarmManager.Call.isTriggerAlarm] at hc
  | setPin newPin => simpa [AlarmManager.call, AlarmManager.setPin] using h
  | verifyPin pin => simpa [AlarmManager.call] using h
  | process millis =>
    simp only [AlarmManager.call]
    rw [AlarmManager.process_eq]
    split
    · rfl
    · exact h

theorem AlarmManager.calls_untriggered (cs : List AlarmManager.Call) (s : AlarmManager)
    (hcs : ∀ c ∈ cs, c.isTriggerAlarm = false) (h : s.alarmTriggered = false) :
    (s.calls cs).alarmTriggered = false := by
  induction cs generalizing s with
  | nil => simpa [AlarmManager.calls] using h
  | cons c cs ih =>
    have h1 := AlarmManager.call_untriggered s c (hcs c (List.mem_cons_self c cs)) h
    have := ih (s.call c) (fun c' hc' => hcs c' (List.mem_cons_of_mem c hc')) h1
    simpa [AlarmManager.calls] using this

/-- C13: `AlarmManager::armSystem(mode)`, from any state, a triggered one included, gives
`currentMode = mode` and `alarmTriggered = false` and keeps `triggeringNode`, `alarmTime` and
the PIN. Applied twice it gives the same state as applied once, and so does any number of
repetitions. After it, any sequence of calls without a `triggerAlarm` (repeated
`armSystem(mode)` calls in particular) leaves `alarmTriggered` false. -/
theorem C13_armSystem (s : AlarmManager) (mode : AlarmMode) :
    s.armSystem mode
      = { currentMode := mode, alarmTriggered := false, triggeringNode := s.triggeringNode,
          alarmTime := s.alarmTime, alarmPin := s.alarmPin } ∧
    (s.armSystem mode).armSystem mode = s.armSystem mode ∧
    (∀ n : Nat, (fun t : AlarmManager => t.armSystem mode)^[n + 1] s = s.armSystem mode) ∧
    (∀ cs : List AlarmManager.Call, (∀ c ∈ cs, c.isTriggerAlarm = false) →
      ((s.armSystem mode).calls cs).alarmTriggered = false) := by
  refine ⟨rfl, rfl, ?_, ?_⟩
  · intro n
    induction n with
    | zero => rfl
    | succ n ih =>
      rw [Function.iterate_succ_apply', ih]
      rfl
  · intro cs hcs
    exact AlarmManager.calls_untriggered cs _ hcs rfl

/-- C13 at a concrete input: a triggered alarm re-armed with the same mode three times, with
a `process` and a `setPin` in between. -/
theorem C13_armSystem_witness :
    ((((AlarmManager.new.armSystem AlarmMode.MODE_FULL).triggerAlarm 7 1000).armSystem
        AlarmMode.MODE_FULL).calls
      [AlarmManager.Call.armSystem AlarmMode.MODE_FULL, AlarmManager.Call.process 700000,
       AlarmManager.Call.setPin "0000",
       AlarmManager.Call.armSystem AlarmMode.MODE_FULL]).alarmTriggered = false :=
  (C13_armSystem ((AlarmManager.new.armSystem AlarmMode.MODE_FULL).triggerAlarm 7 1000)
    AlarmMode.MODE_FULL).2.2.2
    [AlarmManager.Call.armSystem AlarmMode.MODE_FULL, AlarmManager.Call.process 700000,
     AlarmManager.Call.setPin "0000", AlarmManager.Call.armSystem AlarmMode.MODE_FULL]
    (by decide)

/-! ## Lemmas: the gateway intrusion state machine -/

theorem u32_lt (n : Nat) : u32 n < 4294967296 := Nat.mod_lt _ (by norm_num)

theorem u32_of_lt (n : Nat) (h : n < 4294967296) : u32 n = n := Nat.mod_eq_of_lt h

theorem u32sub_self (n : Nat) : u32sub n n = 0 := by
  unfold u32sub
  omega

theorem u32sub_of_le (a b : Nat) (ha : a < 4294967296) (hb : b ≤ a) : u32sub a b = a - b := by
  unfold u32sub
  omega

/-- While the clock has not wrapped since `t` and the configured duration fits 32 bits, the
32-bit comparison made by the code is the plain comparison of the elapsed time. -/
theorem u32_elapsed_gt_iff (now t s : Nat) (ht : t ≤ now) (hnow : now < 4294967296)
    (hs : s * 1000 < 4294967296) :
    u32sub (u32 now) t > u32 (s * 1000) ↔ now - t > s * 1000 := by
  unfold u32sub u32
  omega

namespace gateway

/-- A frame that fails to decode changes nothing and sends nothing. -/
theorem handle_frame_rejected (CFG : AppCfg) (st : Statics) (buf : List Nat) (len millis : Nat)
    (hok : (proto.decode buf len {} [] 0).ok = false) :
    handle_frame CFG st buf len millis = (st, []) := by
  simp [handle_frame, hok]

/-- What `handle_frame` does with a frame that decodes with type `MOTION`. -/
theorem handle_frame_motion (CFG : AppCfg) (st : Statics) (buf : List Nat) (len millis : Nat)
    (hok : (proto.decode buf len {} [] 0).ok = true)
    (hty : (proto.decode buf len {} [] 0).h.type = proto.MOTION) :
    handle_frame CFG st buf len millis
      = if st.alarm_state = AlarmState.ARMED then
          ({ st with last_motion_time := u32 millis, alarm_state := AlarmState.GRACE_PERIOD,
                     grace_period_active := true }, [mailGraceStarted])
        else if st.alarm_state = AlarmState.GRACE_PERIOD then
          ({ st with last_motion_time := u32 millis }, [mailVisitor])
        else if st.alarm_state = AlarmState.ALARM_ACTIVE then
          if u32sub (u32 millis) st.last_alert_time > u32 (CFG.alarm.alert_cooldown_s * 1000)
          then ({ st with last_motion_time := u32 millis, last_alert_time := u32 millis },
                 [mailAlarmUpdate])
          else ({ st with last_motion_time := u32 millis }, [])
        else ({ st with last_motion_time := u32 millis }, []) := by
  simp only [handle_frame, hok, hty, Bool.not_true, if_true]
  rfl

/-- The `WIND` branch of `handle_frame` touches the two wind variables only. -/
theorem wind_update_fields (st : Statics) (w : ℚ) (d : Int) :
    ({ st with last_tws_knots := w, last_twd_deg := d } : Statics).alarm_state
      = st.alarm_state ∧
    ({ st with last_tws_knots := w, last_twd_deg := d } : Statics).last_motion_time
      = st.last_motion_time ∧
    ({ st with last_tws_knots := w, last_twd_deg := d } : Statics).last_alert_time
      = st.last_alert_time ∧
    ({ st with last_tws_knots := w, last_twd_deg := d } : Statics).grace_period_active
      = st.grace_period_active :=
  ⟨rfl, rfl, rfl, rfl⟩

/-- What `handle_frame` does with a frame that decodes with another type. -/
theorem handle_frame_other (CFG : AppCfg) (st : Statics) (buf : List Nat) (len millis : Nat)
    (hok : (proto.decode buf len {} [] 0).ok = true)
    (hty : (proto.decode buf len {} [] 0).h.type ≠ proto.MOTION) :
    (handle_frame CFG st buf len millis).2 = [] ∧
    (handle_frame CFG st buf len millis).1.alarm_state = st.alarm_state ∧
    (handle_frame CFG st buf len millis).1.last_motion_time = st.last_motion_time ∧
    (handle_frame CFG st buf len millis).1.last_alert_time = st.last_alert_time ∧
    (handle_frame CFG st buf len millis).1.grace_period_active = st.grace_period_active := by
  unfold handle_frame
  simp only [hok, Bool.not_true]
  rw [if_neg Bool.false_ne_true, if_neg hty]
  by_cases h1 : (proto.decode buf len {} [] 0).h.type = proto.ENV
  · rw [if_pos h1]
    exact ⟨rfl, rfl, rfl, rfl, rfl⟩
  · rw [if_neg h1]
    by_cases h2 : (proto.decode buf len {} [] 0).h.type = proto.WIND
    · rw [if_pos h2]
      exact ⟨rfl, (wind_update_fields st _ _).1, (wind_update_fields st _ _).2.1,
        (wind_update_fields st _ _).2.2.1, (wind_update_fields st _ _).2.2.2⟩
    · rw [if_neg h2]
      exact ⟨rfl, rfl, rfl, rfl, rfl⟩

/-- What one pass of `task_alarm_manager` does, by cases. -/
theorem task_alarm_manager_eq (CFG : AppCfg) (st : Statics) (millis : Nat) :
    task_alarm_manager CFG st millis
      = if st.alarm_state = AlarmState.GRACE_PERIOD ∧ st.grace_period_active = true ∧
            u32sub (u32 millis) st.last_motion_time > u32 (CFG.alarm.grace_period_s * 1000) then
          ({ st with alarm_state := AlarmState.ALARM_ACTIVE, grace_period_active := false,
                     last_alert_time := u32 millis }, [mailIntruder])
        else if st.alarm_state = AlarmState.ALARM_ACTIVE ∧
            u32sub (u32 millis) st.last_alert_time > u32 (CFG.alarm.alert_cooldown_s * 1000) then
          ({ st with alarm_state := AlarmState.ARMED }, [mailAlarmReset])
        else (st, []) := by
  have h0 : ¬ u32sub (u32 millis) (u32 millis) > u32 (CFG.alarm.alert_cooldown_s * 1000) := by
    rw [u32sub_self]
    omega
  unfold task_alarm_manager
  by_cases h1 : st.alarm_state = AlarmState.GRACE_PERIOD
  · by_cases h2 : st.grace_period_active = true
    · by_cases h3 : u32sub (u32 millis) st.last_motion_time
          > u32 (CFG.alarm.grace_period_s * 1000)
      · simp [h1, h2, h3, h0]
      · simp [h1, h2, h3]
    · simp [h1, h2]
  · by_cases h4 : st.alarm_state = AlarmState.ALARM_ACTIVE ∧
        u32sub (u32 millis) st.last_alert_time > u32 (CFG.alarm.alert_cooldown_s * 1000)
    · simp [h1, h4]
    · simp [h1, h4]

/-- The invariant of the shared variables: the state is never `DISARMED`, and
`grace_period_active` is set exactly in `GRACE_PERIOD`. -/
theorem step_invariant (CFG : AppCfg) (st : Statics) (e : Event)
    (h : st.alarm_state ≠ AlarmState.DISARMED ∧
      (st.grace_period_active = true ↔ st.alarm_state = AlarmState.GRACE_PERIOD)) :
    (step CFG st e).1.alarm_state ≠ AlarmState.DISARMED ∧
      ((step CFG st e).1.grace_period_active = true
        ↔ (step CFG st e).1.alarm_state = AlarmState.GRACE_PERIOD) := by
  obtain ⟨hd, hg⟩ := h
  cases e with
  | frame buf len millis =>
    simp only [step]
    by_cases hok : (proto.decode buf len {} [] 0).ok = true
    · by_cases hty : (proto.decode buf len {} [] 0).h.type = proto.MOTION
      · rw [handle_frame_motion CFG st buf len millis hok hty]
        split_ifs with h1 h2 h3 h4 <;> simp_all
      · obtain ⟨_, h1, _, _, h2⟩ := handle_frame_other CFG st buf len millis hok hty
        rw [h1, h2]
        exact ⟨hd, hg⟩
    · rw [handle_frame_rejected CFG st buf len millis (by simpa using hok)]
      exact ⟨hd, hg⟩
  | tick millis =>
    simp only [step]
    rw [task_alarm_manager_eq]
    split_ifs with h1 h2 <;> simp_all

theorem run_invariant (CFG : AppCfg) (events : List Event) (st : Statics)
    (h : st.alarm_state ≠ AlarmState.DISARMED ∧
      (st.grace_period_active = true ↔ st.alarm_state = AlarmState.GRACE_PERIOD)) :
    (run CFG st events).1.alarm_state ≠ AlarmState.DISARMED ∧
      ((run CFG st events).1.grace_period_active = true
        ↔ (run CFG st events).1.alarm_state = AlarmState.GRACE_PERIOD) := by
  induction events generalizing st with
  | nil => exact h
  | cons e es ih => exact ih _ (step_invariant CFG st e h)

theorem run_invariant_init (CFG : AppCfg) (events : List Event) :
    (run CFG {} events).1.alarm_state ≠ AlarmState.DISARMED ∧
      ((run CFG {} events).1.grace_period_active = true
        ↔ (run CFG {} events).1.alarm_state = AlarmState.GRACE_PERIOD) :=
  run_invariant CFG events {} (by decide)

end gateway

/-! ## Intrusion state machine: the claims -/

/-- C14: Armed + onMotion. When `alarm_state` is `ARMED` and `handle_frame` receives a frame
that decodes with type `MOTION` at time `now`, the state becomes `GRACE_PERIOD`,
`last_motion_time` becomes `now`, `last_alert_time` (and the wind values) are unchanged, and
exactly one notification is sent, the "grace period started" notice. -/
theorem C14_armed_motion (CFG : AppCfg) (st : gateway.Statics) (buf : List Nat)
    (len millis : Nat)
    (hok : (proto.decode buf len {} [] 0).ok = true)
    (hty : (proto.decode buf len {} [] 0).h.type = proto.MOTION)
    (hst : st.alarm_state = gateway.AlarmState.ARMED) :
    gateway.handle_frame CFG st buf len millis
      = ({ alarm_state := gateway.AlarmState.GRACE_PERIOD,
           last_motion_time := u32 millis,
           last_alert_time := st.last_alert_time,
           grace_period_active := true,
           last_tws_knots := st.last_tws_knots,
           last_twd_deg := st.last_twd_deg },
         [{ subject := "[Bristol32] NOTICE",
            body := "Motion detected - grace period started" }]) := by
  rw [gateway.handle_frame_motion CFG st buf len millis hok hty, if_pos hst]
  rfl

/-- C14 at a concrete input: a MOTION frame from node 2 received in the initial state at
5000 ms. -/
theorem C14_armed_motion_witness :
    (gateway.handle_frame {} {} [1, 1, 2, 0, 7, 0, 0, 0, 0, 16, 39, 0, 0, 1] 14 5000).1.alarm_state
      = gateway.AlarmState.GRACE_PERIOD ∧
    (gateway.handle_frame {} {} [1, 1, 2, 0, 7, 0, 0, 0, 0, 16, 39, 0, 0, 1] 14
        5000).1.last_motion_time = 5000 := by
  have h := C14_armed_motion {} {} [1, 1, 2, 0, 7, 0, 0, 0, 0, 16, 39, 0, 0, 1] 14 5000
    (by decide!) (by decide!) rfl
  rw [h]
  exact ⟨rfl, by decide⟩

/-- C15, counterexample: default configuration (grace 30 s), motion frames at 0 ms and at
20000 ms. The second frame, received in `GRACE_PERIOD`, moves `last_motion_time` from 0 to
20000, and the tick at 30001 ms, more than 30 s after the first motion, stays in
`GRACE_PERIOD` and sends nothing. -/
theorem C15_grace_motion_counterexample :
    (gateway.run {} {}
        [gateway.Event.frame [1, 1, 2, 0, 7, 0, 0, 0, 0, 16, 39, 0, 0, 1] 14 0]).1.alarm_state
      = gateway.AlarmState.GRACE_PERIOD ∧
    (gateway.run {} {}
        [gateway.Event.frame [1, 1, 2, 0, 7, 0, 0, 0, 0, 16, 39, 0, 0, 1] 14 0]).1.last_motion_time
      = 0 ∧
    (gateway.run {} {}
        [gateway.Event.frame [1, 1, 2, 0, 7, 0, 0, 0, 0, 16, 39, 0, 0, 1] 14 0,
         gateway.Event.frame [1, 1, 2, 0, 7, 0, 0, 0, 0, 16, 39, 0, 0, 1] 14 20000]
        ).1.last_motion_time = 20000 ∧
    (gateway.run {} {}
        [gateway.Event.frame [1, 1, 2, 0, 7, 0, 0, 0, 0, 16, 39, 0, 0, 1] 14 0,
         gateway.Event.frame [1, 1, 2, 0, 7, 0, 0, 0, 0, 16, 39, 0, 0, 1] 14 20000,
         gateway.Event.tick 30001]).1.alarm_state = gateway.AlarmState.GRACE_PERIOD ∧
    (gateway.run {} {}
        [gateway.Event.frame [1, 1, 2, 0, 7, 0, 0, 0, 0, 16, 39, 0, 0, 1] 14 0,
         gateway.Event.frame [1, 1, 2, 0, 7, 0, 0, 0, 0, 16, 39, 0, 0, 1] 14 20000,
         gateway.Event.tick 30001]).2
      = [(0, gateway.mailGraceStarted), (20000, gateway.mailVisitor)] := by
  decide!

/-- C15, amended: GracePeriod + onMotion. When `alarm_state` is `GRACE_PERIOD`, a decoded
`MOTION` frame at time `now` keeps the state `GRACE_PERIOD`, sends exactly one "visitor"
notification and sets `last_motion_time = now`, everything else unchanged: the grace timer
restarts. A following tick at time `now2` escalates to `ALARM_ACTIVE` exactly when the
32-bit difference `now2 - now` exceeds the grace duration. -/
theorem C15_grace_motion_amended (CFG : AppCfg) (st : gateway.Statics) (buf : List Nat)
    (len millis millis2 : Nat)
    (hok : (proto.decode buf len {} [] 0).ok = true)
    (hty : (proto.decode buf len {} [] 0).h.type = proto.MOTION)
    (hst : st.alarm_state = gateway.AlarmState.GRACE_PERIOD)
    (hg : st.grace_period_active = true) :
    gateway.handle_frame CFG st buf len millis
      = ({ st with last_motion_time := u32 millis },
         [{ subject := "[Bristol32] VISITOR", body := "Visitor detected at entrance" }]) ∧
    ((gateway.task_alarm_manager CFG (gateway.handle_frame CFG st buf len millis).1
          millis2).1.alarm_state = gateway.AlarmState.ALARM_ACTIVE
      ↔ u32sub (u32 millis2) (u32 millis) > u32 (CFG.alarm.grace_period_s * 1000)) := by
  have h1 : gateway.handle_frame CFG st buf len millis
      = ({ st with last_motion_time := u32 millis }, [gateway.mailVisitor]) := by
    rw [gateway.handle_frame_motion CFG st buf len millis hok hty]
    simp [hst]
  refine ⟨h1, ?_⟩
  rw [h1, gateway.task_alarm_manager_eq]
  by_cases h3 : u32sub (u32 millis2) (u32 millis) > u32 (CFG.alarm.grace_period_s * 1000)
  · simp [hst, hg, h3]
  · simp [hst, hg, h3]

/-- C15 amended, at a concrete input: in the state left by a motion frame at 0 ms, a second
motion frame at 20000 ms sets `last_motion_time` to 20000. -/
theorem C15_grace_motion_amended_witness :
    (gateway.handle_frame {}
        (gateway.handle_frame {} {} [1, 1, 2, 0, 7, 0, 0, 0, 0, 16, 39, 0, 0, 1] 14 0).1
        [1, 1, 2, 0, 7, 0, 0, 0, 0, 16, 39, 0, 0, 1] 14 20000).1.last_motion_time = 20000 := by
  have h := (C15_grace_motion_amended {}
    (gateway.handle_frame {} {} [1, 1, 2, 0, 7, 0, 0, 0, 0, 16, 39, 0, 0, 1] 14 0).1
    [1, 1, 2, 0, 7, 0, 0, 0, 0, 16, 39, 0, 0, 1] 14 20000 30001
    (by decide!) (by decide!) (by decide!) (by decide!)).1
  rw [h]
  decide

/-- C16: GracePeriod + onTick. In every state reached from the initial one by frames and
ticks in which `alarm_state` is `GRACE_PERIOD`, one pass of `task_alarm_manager` at time
`now` moves to `ALARM_ACTIVE`, clears `grace_period_active`, sets `last_alert_time = now` and
sends exactly one "intruder alert" notification if the 32-bit difference
`now - last_motion_time` exceeds `grace_period_s * 1000`; otherwise it changes nothing and
sends nothing; without a counter wrap and with a duration that fits 32 bits the test is the
plain `now - last_motion_time > grace_period_s * 1000`. The escalating pass ends in
`ALARM_ACTIVE`, not `ARMED`. With the default
30 s and a motion frame at 0 ms in the initial state, a tick at 29999 or 30000 ms changes
nothing and a tick at 30001 ms yields `ALARM_ACTIVE`. -/
theorem C16_grace_tick (CFG : AppCfg) (events : List gateway.Event) (millis : Nat) :
    ((gateway.run CFG {} events).1.alarm_state = gateway.AlarmState.GRACE_PERIOD →
      (u32sub (u32 millis) (gateway.run CFG {} events).1.last_motion_time
          > u32 (CFG.alarm.grace_period_s * 1000) →
        gateway.task_alarm_manager CFG (gateway.run CFG {} events).1 millis
          = ({ (gateway.run CFG {} events).1 with
                 alarm_state := gateway.AlarmState.ALARM_ACTIVE,
                 grace_period_active := false,
                 last_alert_time := u32 millis },
             [{ subject := "[Bristol32] INTRUDER ALERT",
                body := "Motion detected without visitor confirmation - possible intruder!" }]))
      ∧
      (¬ u32sub (u32 millis) (gateway.run CFG {} events).1.last_motion_time
          > u32 (CFG.alarm.grace_period_s * 1000) →
        gateway.task_alarm_manager CFG (gateway.run CFG {} events).1 millis
          = ((gateway.run CFG {} events).1, []))) ∧
    ((gateway.run CFG {} events).1.last_motion_time ≤ millis → millis < 4294967296 →
      CFG.alarm.grace_period_s * 1000 < 4294967296 →
      (u32sub (u32 millis) (gateway.run CFG {} events).1.last_motion_time
          > u32 (CFG.alarm.grace_period_s * 1000)
        ↔ millis - (gateway.run CFG {} events).1.last_motion_time
          > CFG.alarm.grace_period_s * 1000)) ∧
    (∀ (buf : List Nat) (len : Nat),
      (proto.decode buf len {} [] 0).ok = true →
      (proto.decode buf len {} [] 0).h.type = proto.MOTION →
      gateway.task_alarm_manager {} (gateway.handle_frame {} {} buf len 0).1 29999
        = ((gateway.handle_frame {} {} buf len 0).1, []) ∧
      gateway.task_alarm_manager {} (gateway.handle_frame {} {} buf len 0).1 30000
        = ((gateway.handle_frame {} {} buf len 0).1, []) ∧
      (gateway.task_alarm_manager {} (gateway.handle_frame {} {} buf len 0).1 30001).1.alarm_state
        = gateway.AlarmState.ALARM_ACTIVE ∧
      (gateway.task_alarm_manager {} (gateway.handle_frame {} {} buf len 0).1 30001).2
        = [gateway.mailIntruder]) := by
  refine ⟨?_, fun h1 h2 h3 => u32_elapsed_gt_iff _ _ _ h1 h2 h3, ?_⟩
  · intro hst
    have hg := (gateway.run_invariant_init CFG events).2.mpr hst
    constructor
    · intro h
      rw [gateway.task_alarm_manager_eq, if_pos ⟨hst, hg, h⟩]
      rfl
    · intro h
      rw [gateway.task_alarm_manager_eq, if_neg (fun hc => h hc.2.2),
        if_neg (fun hc => by rw [hst] at hc; exact absurd hc.1 (by decide))]
  · intro buf len hok hty
    rw [gateway.handle_frame_motion {} {} buf len 0 hok hty]
    simp only [gateway.task_alarm_manager_eq]
    decide

/-- C16 at a concrete input: the state reached by one motion frame at 0 ms, ticked at
29999 ms and at 30001 ms. -/
theorem C16_grace_tick_witness :
    gateway.task_alarm_manager {}
        (gateway.run {} {}
          [gateway.Event.frame [1, 1, 2, 0, 7, 0, 0, 0, 0, 16, 39, 0, 0, 1] 14 0]).1 29999
      = ((gateway.run {} {}
          [gateway.Event.frame [1, 1, 2, 0, 7, 0, 0, 0, 0, 16, 39, 0, 0, 1] 14 0]).1, []) ∧
    (gateway.task_alarm_manager {}
        (gateway.handle_frame {} {} [1, 1, 2, 0, 7, 0, 0, 0, 0, 16, 39, 0, 0, 1] 14 0).1
        30001).1.alarm_state = gateway.AlarmState.ALARM_ACTIVE :=
  ⟨((C16_grace_tick {}
      [gateway.Event.frame [1, 1, 2, 0, 7, 0, 0, 0, 0, 16, 39, 0, 0, 1] 14 0] 29999).1
      (by decide!)).2 (by decide!),
   ((C16_grace_tick {} [] 0).2.2 [1, 1, 2, 0, 7, 0, 0, 0, 0, 16, 39, 0, 0, 1] 14
      (by decide!) (by decide!)).2.2.1⟩

/-- C17: AlarmActive + onTick. When `alarm_state` is `ALARM_ACTIVE`, one pass of
`task_alarm_manager` at time `now` resets the state to `ARMED` and sends exactly one "alarm
reset" notification if the 32-bit difference `now - last_alert_time` exceeds
`alert_cooldown_s * 1000`, and otherwise changes nothing and sends nothing;
`last_motion_time` and `last_alert_time` are unchanged either way; without a counter wrap
and with a cooldown that fits 32 bits the test is the plain
`now - last_alert_time > alert_cooldown_s * 1000`. With the alarm raised at
`t` and no motion since, the tick at `t + cooldown + 1` yields `ARMED` (for the default
configuration and `t = 30001`: the tick at 330002 ms), the tick at `t + cooldown` does not. -/
theorem C17_alarm_active_tick (CFG : AppCfg) (st : gateway.Statics) (millis : Nat)
    (hst : st.alarm_state = gateway.AlarmState.ALARM_ACTIVE) :
    (u32sub (u32 millis) st.last_alert_time > u32 (CFG.alarm.alert_cooldown_s * 1000) →
      gateway.task_alarm_manager CFG st millis
        = ({ st with alarm_state := gateway.AlarmState.ARMED },
           [{ subject := "[Bristol32] ALARM RESET",
              body := "Alarm system reset to armed state" }])) ∧
    (¬ u32sub (u32 millis) st.last_alert_time > u32 (CFG.alarm.alert_cooldown_s * 1000) →
      gateway.task_alarm_manager CFG st millis = (st, [])) ∧
    (gateway.task_alarm_manager CFG st millis).1.last_motion_time = st.last_motion_time ∧
    (gateway.task_alarm_manager CFG st millis).1.last_alert_time = st.last_alert_time ∧
    (st.last_alert_time + CFG.alarm.alert_cooldown_s * 1000 + 1 < 4294967296 →
      (gateway.task_alarm_manager CFG st
          (st.last_alert_time + CFG.alarm.alert_cooldown_s * 1000 + 1)).1.alarm_state
        = gateway.AlarmState.ARMED ∧
      (gateway.task_alarm_manager CFG st
          (st.last_alert_time + CFG.alarm.alert_cooldown_s * 1000)).1.alarm_state
        = gateway.AlarmState.ALARM_ACTIVE) ∧
    (st.last_alert_time ≤ millis → millis < 4294967296 →
      CFG.alarm.alert_cooldown_s * 1000 < 4294967296 →
      (u32sub (u32 millis) st.last_alert_time > u32 (CFG.alarm.alert_cooldown_s * 1000)
        ↔ millis - st.last_alert_time > CFG.alarm.alert_cooldown_s * 1000)) := by
  have hne : ¬ (st.alarm_state = gateway.AlarmState.GRACE_PERIOD ∧
      st.grace_period_active = true ∧
      u32sub (u32 millis) st.last_motion_time > u32 (CFG.alarm.grace_period_s * 1000)) := by
    rw [hst]
    exact fun hc => absurd hc.1 (by decide)
  have key : ∀ m : Nat, gateway.task_alarm_manager CFG st m
      = if u32sub (u32 m) st.last_alert_time > u32 (CFG.alarm.alert_cooldown_s * 1000) then
          ({ st with alarm_state := gateway.AlarmState.ARMED }, [gateway.mailAlarmReset])
        else (st, []) := by
    intro m
    rw [gateway.task_alarm_manager_eq]
    simp [hst]
  refine ⟨?_, ?_, ?_, ?_, ?_, fun h1 h2 h3 => u32_elapsed_gt_iff _ _ _ h1 h2 h3⟩
  · intro h
    rw [key, if_pos h]
    rfl
  · intro h
    rw [key, if_neg h]
  · rw [key]
    split <;> rfl
  · rw [key]
    split <;> rfl
  · intro hb
    have e1 : u32sub (u32 (st.last_alert_time + CFG.alarm.alert_cooldown_s * 1000 + 1))
        st.last_alert_time > u32 (CFG.alarm.alert_cooldown_s * 1000) := by
      unfold u32sub u32
      omega
    have e2 : ¬ u32sub (u32 (st.last_alert_time + CFG.alarm.alert_cooldown_s * 1000))
        st.last_alert_time > u32 (CFG.alarm.alert_cooldown_s * 1000) := by
      unfold u32sub u32
      omega
    rw [key, key, if_pos e1, if_neg e2]
    exact ⟨rfl, hst⟩

/-- C17 at a concrete input: default configuration, alarm raised at 30001 ms by the tick
after a motion frame at 0 ms, then a tick at 330002 ms. -/
theorem C17_alarm_active_tick_witness :
    (gateway.run {} {}
        [gateway.Event.frame [1, 1, 2, 0, 7, 0, 0, 0, 0, 16, 39, 0, 0, 1] 14 0,
         gateway.Event.tick 30001]).1.alarm_state = gateway.AlarmState.ALARM_ACTIVE ∧
    (gateway.task_alarm_manager {}
        (gateway.run {} {}
          [gateway.Event.frame [1, 1, 2, 0, 7, 0, 0, 0, 0, 16, 39, 0, 0, 1] 14 0,
           gateway.Event.tick 30001]).1 330002).1.alarm_state = gateway.AlarmState.ARMED := by
  have hs : (gateway.run {} {}
      [gateway.Event.frame [1, 1, 2, 0, 7, 0, 0, 0, 0, 16, 39, 0, 0, 1] 14 0,
       gateway.Event.tick 30001]).1.alarm_state = gateway.AlarmState.ALARM_ACTIVE := by
    decide!
  have h := (C17_alarm_active_tick {}
    (gateway.run {} {}
      [gateway.Event.frame [1, 1, 2, 0, 7, 0, 0, 0, 0, 16, 39, 0, 0, 1] 14 0,
       gateway.Event.tick 30001]).1 330002 hs).1 (by decide!)
  rw [h]
  exact ⟨hs, rfl⟩

namespace gateway

/-- One event sends at most one notification. -/
theorem step_out_le_one (CFG : AppCfg) (st : Statics) (e : Event) :
    (step CFG st e).2 = [] ∨ ∃ m, (step CFG st e).2 = [m] := by
  cases e with
  | frame buf len millis =>
    simp only [step]
    by_cases hok : (proto.decode buf len {} [] 0).ok = true
    · by_cases hty : (proto.decode buf len {} [] 0).h.type = proto.MOTION
      · rw [handle_frame_motion CFG st buf len millis hok hty]
        split_ifs <;> simp
      · exact Or.inl (handle_frame_other CFG st buf len millis hok hty).1
    · rw [handle_frame_rejected CFG st buf len millis (by simpa using hok)]
      exact Or.inl rfl
  | tick millis =>
    simp only [step]
    rw [task_alarm_manager_eq]
    split_ifs <;> simp

/-- An event leaves `last_alert_time` alone or sets it to its own clock value. -/
theorem step_last_alert_time (CFG : AppCfg) (st : Statics) (e : Event) :
    (step CFG st e).1.last_alert_time = st.last_alert_time ∨
      (step CFG st e).1.last_alert_time = u32 e.millis := by
  cases e with
  | frame buf len millis =>
    simp only [step, Event.millis]
    by_cases hok : (proto.decode buf len {} [] 0).ok = true
    · by_cases hty : (proto.decode buf len {} [] 0).h.type = proto.MOTION
      · rw [handle_frame_motion CFG st buf len millis hok hty]
        split_ifs <;> simp
      · exact Or.inl (handle_frame_other CFG st buf len millis hok hty).2.2.2.1
    · rw [handle_frame_rejected CFG st buf len millis (by simpa using hok)]
      exact Or.inl rfl
  | tick millis =>
    simp only [step, Event.millis]
    rw [task_alarm_manager_eq]
    split_ifs <;> simp

/-- An "additional motion" notification is sent only past the cooldown, and the event that
sends it records its clock value in `last_alert_time`. -/
theorem step_alarm_update (CFG : AppCfg) (st : Statics) (e : Event)
    (h : mailAlarmUpdate ∈ (step CFG st e).2) :
    u32sub (u32 e.millis) st.last_alert_time > u32 (CFG.alarm.alert_cooldown_s * 1000) ∧
      (step CFG st e).1.last_alert_time = u32 e.millis := by
  cases e with
  | frame buf len millis =>
    simp only [step, Event.millis] at h ⊢
    by_cases hok : (proto.decode buf len {} [] 0).ok = true
    · by_cases hty : (proto.decode buf len {} [] 0).h.type = proto.MOTION
      · rw [handle_frame_motion CFG st buf len millis hok hty] at h ⊢
        split_ifs at h ⊢ with h1 h2 h3 h4
        · exact absurd (List.mem_singleton.mp h) (by decide)
        · exact absurd (List.mem_singleton.mp h) (by decide)
        · exact ⟨h4, rfl⟩
        · simp at h
        · simp at h
      · rw [(handle_frame_other CFG st buf len millis hok hty).1] at h
        simp at h
    · rw [handle_frame_rejected CFG st buf len millis (by simpa using hok)] at h
      simp at h
  | tick millis =>
    simp only [step, Event.millis] at h ⊢
    rw [task_alarm_manager_eq] at h
    split_ifs at h
    · exact absurd (List.mem_singleton.mp h) (by decide)
    · exact absurd (List.mem_singleton.mp h) (by decide)
    · simp at h

theorem run_cons (CFG : AppCfg) (st : Statics) (e : Event) (es : List Event) :
    run CFG st (e :: es)
      = ((run CFG (step CFG st e).1 es).1,
         (step CFG st e).2.map (fun m => (u32 e.millis, m))
           ++ (run CFG (step CFG st e).1 es).2) := rfl

end gateway

/-- The 32-bit difference of two counter values never exceeds the time that really passed
between them. -/
theorem u32sub_le_elapsed (t L : Nat) (h : L ≤ t) : u32sub (u32 t) (u32 L) ≤ t - L := by
  unfold u32sub u32
  omega

namespace gateway

theorem sentAt_cons (CFG : AppCfg) (st : Statics) (e : Event) (es : List Event) :
    sentAt CFG st (e :: es)
      = (step CFG st e).2.map (fun m => (e.millis, m)) ++ sentAt CFG (step CFG st e).1 es :=
  rfl

/-- With `last_alert_time` the counter value of a time `L` not after any of the events, and
the events in time order, every "additional motion" notification comes more than the
cooldown after `L`, whether or not the counter wraps in between. -/
theorem sentAt_alarm_update_after (CFG : AppCfg) (events : List Event) (st : Statics)
    (L : Nat) (hsorted : events.Pairwise (fun a b => a.millis ≤ b.millis))
    (hL : st.last_alert_time = u32 L) (h0 : ∀ e ∈ events, L ≤ e.millis) :
    ∀ x ∈ sentAt CFG st events, x.2 = mailAlarmUpdate →
      L + u32 (CFG.alarm.alert_cooldown_s * 1000) < x.1 := by
  induction events generalizing st L with
  | nil => intro x hx; simp [sentAt] at hx
  | cons e es ih =>
    intro x hx hupd
    have hle := h0 e (List.mem_cons_self e es)
    rw [sentAt_cons] at hx
    rcases List.mem_append.mp hx with hl | hr
    · obtain ⟨m, hm, rfl⟩ := List.mem_map.mp hl
      simp only at hupd
      subst hupd
      have h1 := (step_alarm_update CFG st e hm).1
      rw [hL] at h1
      have h2 := u32sub_le_elapsed e.millis L hle
      simp only
      omega
    · have hs : ∀ e' ∈ es, e.millis ≤ e'.millis := fun e' he' =>
        List.rel_of_pairwise_cons hsorted he'
      rcases step_last_alert_time CFG st e with h | h
      · have := ih (step CFG st e).1 L (List.Pairwise.of_cons hsorted) (by rw [h, hL])
          (fun e' he' => h0 e' (List.mem_cons_of_mem e he')) x hr hupd
        exact this
      · have := ih (step CFG st e).1 e.millis (List.Pairwise.of_cons hsorted) h hs x hr hupd
        omega

/-- In time order, any two "additional motion" notifications are more than the cooldown
apart in real time, whether or not the counter wraps in between. -/
theorem sentAt_alarm_updates_apart (CFG : AppCfg) (events : List Event) (st : Statics)
    (L : Nat) (hsorted : events.Pairwise (fun a b => a.millis ≤ b.millis))
    (hL : st.last_alert_time = u32 L) (h0 : ∀ e ∈ events, L ≤ e.millis) :
    (sentAt CFG st events).Pairwise (fun a b =>
      a.2 = mailAlarmUpdate → b.2 = mailAlarmUpdate →
        a.1 + u32 (CFG.alarm.alert_cooldown_s * 1000) < b.1) := by
  induction events generalizing st L with
  | nil => simp [sentAt]
  | cons e es ih =>
    have hs : ∀ e' ∈ es, e.millis ≤ e'.millis := fun e' he' =>
      List.rel_of_pairwise_cons hsorted he'
    have htail : (sentAt CFG (step CFG st e).1 es).Pairwise (fun a b =>
        a.2 = mailAlarmUpdate → b.2 = mailAlarmUpdate →
          a.1 + u32 (CFG.alarm.alert_cooldown_s * 1000) < b.1) := by
      rcases step_last_alert_time CFG st e with h | h
      · exact ih (step CFG st e).1 L (List.Pairwise.of_cons hsorted) (by rw [h, hL])
          (fun e' he' => h0 e' (List.mem_cons_of_mem e he'))
      · exact ih (step CFG st e).1 e.millis (List.Pairwise.of_cons hsorted) h hs
    rw [sentAt_cons, List.pairwise_append]
    refine ⟨?_, htail, ?_⟩
    · rcases step_out_le_one CFG st e with h | ⟨m, h⟩ <;> simp [h]
    · intro a ha b hb hau hbu
      obtain ⟨m, hm, rfl⟩ := List.mem_map.mp ha
      simp only at hau
      subst hau
      have h2 := (step_alarm_update CFG st e hm).2
      exact sentAt_alarm_update_after CFG es (step CFG st e).1 e.millis
        (List.Pairwise.of_cons hsorted) h2 hs b hb hbu

end gateway

/-- C18: AlarmActive + onMotion. When `alarm_state` is `ALARM_ACTIVE`, a decoded `MOTION`
frame at time `now` leaves the state `ALARM_ACTIVE`. If the 32-bit difference
`now - last_alert_time` exceeds `alert_cooldown_s * 1000` it sends exactly one "additional
motion during active alarm" notification and sets `last_alert_time = now`; otherwise it sends
nothing and leaves `last_alert_time` unchanged (without a counter wrap and with a cooldown
that fits 32 bits the test is the plain `now - last_alert_time > alert_cooldown_s * 1000`).
Hence, along any sequence of frames and ticks from the initial state, taken in time order,
any two "additional motion" notifications are more than the cooldown apart in real time,
also when the 32-bit millisecond counter wraps between them. -/
theorem C18_alarm_active_motion (CFG : AppCfg) :
    (∀ (st : gateway.Statics) (buf : List Nat) (len millis : Nat),
      (proto.decode buf len {} [] 0).ok = true →
      (proto.decode buf len {} [] 0).h.type = proto.MOTION →
      st.alarm_state = gateway.AlarmState.ALARM_ACTIVE →
      (u32sub (u32 millis) st.last_alert_time > u32 (CFG.alarm.alert_cooldown_s * 1000) →
        gateway.handle_frame CFG st buf len millis
          = ({ st with last_motion_time := u32 millis, last_alert_time := u32 millis },
             [{ subject := "[Bristol32] ALARM UPDATE",
                body := "Additional motion detected during active alarm" }])) ∧
      (¬ u32sub (u32 millis) st.last_alert_time > u32 (CFG.alarm.alert_cooldown_s * 1000) →
        gateway.handle_frame CFG st buf len millis
          = ({ st with last_motion_time := u32 millis }, []))) ∧
    (∀ events : List gateway.Event,
      events.Pairwise (fun a b => a.millis ≤ b.millis) →
      (gateway.sentAt CFG {} events).Pairwise (fun a b =>
        a.2 = gateway.mailAlarmUpdate → b.2 = gateway.mailAlarmUpdate →
          a.1 + u32 (CFG.alarm.alert_cooldown_s * 1000) < b.1)) ∧
    (CFG.alarm.alert_cooldown_s * 1000 < 4294967296 →
      u32 (CFG.alarm.alert_cooldown_s * 1000) = CFG.alarm.alert_cooldown_s * 1000) ∧
    (∀ (st : gateway.Statics) (millis : Nat),
      st.last_alert_time ≤ millis → millis < 4294967296 →
      CFG.alarm.alert_cooldown_s * 1000 < 4294967296 →
      (u32sub (u32 millis) st.last_alert_time > u32 (CFG.alarm.alert_cooldown_s * 1000)
        ↔ millis - st.last_alert_time > CFG.alarm.alert_cooldown_s * 1000)) := by
  refine ⟨?_, ?_, fun h => u32_of_lt _ h,
    fun st millis h1 h2 h3 => u32_elapsed_gt_iff _ _ _ h1 h2 h3⟩
  · intro st buf len millis hok hty hst
    have hm := gateway.handle_frame_motion CFG st buf len millis hok hty
    constructor
    · intro h
      rw [hm]
      simp [hst, h]
      rfl
    · intro h
      rw [hm]
      simp [hst, h]
  · intro events hsorted
    exact gateway.sentAt_alarm_updates_apart CFG events {} 0 hsorted rfl
      (fun e _ => Nat.zero_le _)

/-- C18 at a concrete input, across a wrap of the counter: default configuration; motion at
4294636294 ms, alarm raised by the tick at 4294666295 ms, motion frames at 4294966296 ms,
at 4295000000 ms (counter 32704) and at 4295266297 ms (counter 299001). The first and the
third send the "additional motion" notification, 300001 ms apart. -/
theorem C18_alarm_active_motion_witness :
    gateway.sentAt {} {}
        [gateway.Event.frame [1, 1, 2, 0, 7, 0, 0, 0, 0, 16, 39, 0, 0, 1] 14 4294636294,
         gateway.Event.tick 4294666295,
         gateway.Event.frame [1, 1, 2, 0, 7, 0, 0, 0, 0, 16, 39, 0, 0, 1] 14 4294966296,
         gateway.Event.frame [1, 1, 2, 0, 7, 0, 0, 0, 0, 16, 39, 0, 0, 1] 14 4295000000,
         gateway.Event.frame [1, 1, 2, 0, 7, 0, 0, 0, 0, 16, 39, 0, 0, 1] 14 4295266297]
      = [(4294636294, gateway.mailGraceStarted), (4294666295, gateway.mailIntruder),
         (4294966296, gateway.mailAlarmUpdate), (4295266297, gateway.mailAlarmUpdate)] ∧
    (gateway.sentAt {} {}
        [gateway.Event.frame [1, 1, 2, 0, 7, 0, 0, 0, 0, 16, 39, 0, 0, 1] 14 4294636294,
         gateway.Event.tick 4294666295,
         gateway.Event.frame [1, 1, 2, 0, 7, 0, 0, 0, 0, 16, 39, 0, 0, 1] 14 4294966296,
         gateway.Event.frame [1, 1, 2, 0, 7, 0, 0, 0, 0, 16, 39, 0, 0, 1] 14 4295000000,
         gateway.Event.frame [1, 1, 2, 0, 7, 0, 0, 0, 0, 16, 39, 0, 0, 1] 14 4295266297]
        ).Pairwise (fun a b =>
          a.2 = gateway.mailAlarmUpdate → b.2 = gateway.mailAlarmUpdate →
            a.1 + u32 (({} : AppCfg).alarm.alert_cooldown_s * 1000) < b.1) :=
  ⟨by decide!,
   (C18_alarm_active_motion {}).2.1
     [gateway.Event.frame [1, 1, 2, 0, 7, 0, 0, 0, 0, 16, 39, 0, 0, 1] 14 4294636294,
      gateway.Event.tick 4294666295,
      gateway.Event.frame [1, 1, 2, 0, 7, 0, 0, 0, 0, 16, 39, 0, 0, 1] 14 4294966296,
      gateway.Event.frame [1, 1, 2, 0, 7, 0, 0, 0, 0, 16, 39, 0, 0, 1] 14 4295000000,
      gateway.Event.frame [1, 1, 2, 0, 7, 0, 0, 0, 0, 16, 39, 0, 0, 1] 14 4295266297]
     (by decide)⟩

/-- C19: decode failures never touch the intrusion state. On every buffer and length on
which `proto::decode` returns `false`, `handle_frame` leaves all the shared variables (the
wind values included) unchanged and sends no notification. A frame that decodes with a type
other than `MOTION` sends no notification and leaves `alarm_state`, `last_motion_time`,
`last_alert_time` and `grace_period_active` unchanged. -/
theorem C19_decode_failure_no_effect (CFG : AppCfg) (st : gateway.Statics) (buf : List Nat)
    (len millis : Nat) :
    ((proto.decode buf len {} [] 0).ok = false →
      gateway.handle_frame CFG st buf len millis = (st, [])) ∧
    ((proto.decode buf len {} [] 0).ok = true →
      (proto.decode buf len {} [] 0).h.type ≠ proto.MOTION →
      (gateway.handle_frame CFG st buf len millis).2 = [] ∧
      (gateway.handle_frame CFG st buf len millis).1.alarm_state = st.alarm_state ∧
      (gateway.handle_frame CFG st buf len millis).1.last_motion_time = st.last_motion_time ∧
      (gateway.handle_frame CFG st buf len millis).1.last_alert_time = st.last_alert_time ∧
      (gateway.handle_frame CFG st buf len millis).1.grace_period_active
        = st.grace_period_active) :=
  ⟨gateway.handle_frame_rejected CFG st buf len millis,
   gateway.handle_frame_other CFG st buf len millis⟩

/-- C19 at concrete inputs: in the state left by a motion frame, a frame with a corrupted
CRC byte changes nothing, and a valid WIND frame keeps the alarm state. -/
theorem C19_decode_failure_no_effect_witness :
    gateway.handle_frame {}
        (gateway.handle_frame {} {} [1, 1, 2, 0, 7, 0, 0, 0, 0, 16, 39, 0, 0, 1] 14 0).1
        [1, 1, 2, 0, 7, 0, 0, 0, 0, 16, 39, 0, 0, 0] 14 500
      = ((gateway.handle_frame {} {} [1, 1, 2, 0, 7, 0, 0, 0, 0, 16, 39, 0, 0, 1] 14 0).1, []) ∧
    (gateway.handle_frame {}
        (gateway.handle_frame {} {} [1, 1, 2, 0, 7, 0, 0, 0, 0, 16, 39, 0, 0, 1] 14 0).1
        (proto.frameOf { type := 5, node_id := 3 } [1, 0, 2, 0, 0x1D, 0x18, 0x84, 0x03])
        18 500).1.alarm_state
      = (gateway.handle_frame {} {} [1, 1, 2, 0, 7, 0, 0, 0, 0, 16, 39, 0, 0, 1] 14
          0).1.alarm_state :=
  ⟨(C19_decode_failure_no_effect {}
      (gateway.handle_frame {} {} [1, 1, 2, 0, 7, 0, 0, 0, 0, 16, 39, 0, 0, 1] 14 0).1
      [1, 1, 2, 0, 7, 0, 0, 0, 0, 16, 39, 0, 0, 0] 14 500).1 (by decide!),
   ((C19_decode_failure_no_effect {}
      (gateway.handle_frame {} {} [1, 1, 2, 0, 7, 0, 0, 0, 0, 16, 39, 0, 0, 1] 14 0).1
      (proto.frameOf { type := 5, node_id := 3 } [1, 0, 2, 0, 0x1D, 0x18, 0x84, 0x03])
      18 500).2 (by decide!) (by decide!)).2.1⟩

/-! ## Hub dispatch: the claims -/

theorem verifyChecksum_iff (buf : List Nat) (n : Nat) (hn : 2 ≤ n) :
    verifyChecksum buf n = true ↔ LoRaHub.lastIsXorOfRest buf n := by
  have h1 : ¬ n < 2 := by omega
  simp [verifyChecksum, h1, LoRaHub.lastIsXorOfRest, calculateChecksum]

namespace LoRaHub

theorem handleEnvironmentalPacket_ok (cb : Callbacks) (buf : List Nat) (rssi : Int)
    (hcb : cb.onEnvData = true) (hx : lastIsXorOfRest buf 12) :
    ∃ e, unpackEnvironmentalPacket buf = some e ∧
      handleEnvironmentalPacket cb buf 12 rssi
        = [Invocation.onEnvData e.nodeID e.temp e.humidity e.pressure e.batteryMv
            (toInt8 (low8 rssi))] := by
  have hv := (verifyChecksum_iff buf 12 (by norm_num)).mpr hx
  simp [handleEnvironmentalPacket, unpackEnvironmentalPacket, ENV_PACKET_SIZE, hv, hcb]

theorem handleEnvironmentalPacket_none (cb : Callbacks) (buf : List Nat) (len : Nat)
    (rssi : Int) (h : ¬ (len = 12 ∧ lastIsXorOfRest buf 12)) :
    handleEnvironmentalPacket cb buf len rssi = [] := by
  unfold handleEnvironmentalPacket
  by_cases hl : len = 12
  · have hv : verifyChecksum buf 12 = false := by
      rw [Bool.eq_false_iff, ne_eq, verifyChecksum_iff buf 12 (by norm_num)]
      exact fun hx => h ⟨hl, hx⟩
    simp [unpackEnvironmentalPacket, ENV_PACKET_SIZE, hv, hl]
  · simp [ENV_PACKET_SIZE, hl]

theorem handleDetectionPacket_ok (cb : Callbacks) (buf : List Nat)
    (hcb : cb.onDetection = true) (hx : lastIsXorOfRest buf 8) :
    ∃ e, unpackDetectionPacket buf = some e ∧
      handleDetectionPacket cb buf 8
        = [Invocation.onDetection e.nodeID e.eventType e.confidence e.distance e.zone] := by
  have hv := (verifyChecksum_iff buf 8 (by norm_num)).mpr hx
  simp [handleDetectionPacket, unpackDetectionPacket, DETECTION_PACKET_SIZE, hv, hcb]

theorem handleDetectionPacket_none (cb : Callbacks) (buf : List Nat) (len : Nat)
    (h : ¬ (len = 8 ∧ lastIsXorOfRest buf 8)) :
    handleDetectionPacket cb buf len = [] := by
  unfold handleDetectionPacket
  by_cases hl : len = 8
  · have hv : verifyChecksum buf 8 = false := by
      rw [Bool.eq_false_iff, ne_eq, verifyChecksum_iff buf 8 (by norm_num)]
      exact fun hx => h ⟨hl, hx⟩
    simp [unpackDetectionPacket, DETECTION_PACKET_SIZE, hv, hl]
  · simp [DETECTION_PACKET_SIZE, hl]

theorem handleAlarmPacket_ok (cb : Callbacks) (buf : List Nat)
    (hcb : cb.onAlarm = true) (hx : lastIsXorOfRest buf 6) :
    ∃ e, unpackAlarmPacket buf = some e ∧
      handleAlarmPacket cb buf 6 = [Invocation.onAlarm e.fromNodeID e.command e.mode] := by
  have hv := (verifyChecksum_iff buf 6 (by norm_num)).mpr hx
  simp [handleAlarmPacket, unpackAlarmPacket, ALARM_PACKET_SIZE, hv, hcb]

theorem handleAlarmPacket_none (cb : Callbacks) (buf : List Nat) (len : Nat)
    (h : ¬ (len = 6 ∧ lastIsXorOfRest buf 6)) :
    handleAlarmPacket cb buf len = [] := by
  unfold handleAlarmPacket
  by_cases hl : len = 6
  · have hv : verifyChecksum buf 6 = false := by
      rw [Bool.eq_false_iff, ne_eq, verifyChecksum_iff buf 6 (by norm_num)]
      exact fun hx => h ⟨hl, hx⟩
    simp [unpackAlarmPacket, ALARM_PACKET_SIZE, hv, hl]
  · simp [ALARM_PACKET_SIZE, hl]

/-- When `handleHeartbeatPacket` runs into the missing `return`. -/
theorem handleHeartbeatPacket_eq (cb : Callbacks) (buf : List Nat) (len : Nat) :
    handleHeartbeatPacket cb buf len
      = if len = 5 ∧ lastIsXorOfRest buf 5 then none else some [] := by
  unfold handleHeartbeatPacket
  by_cases hl : len = 5
  · by_cases hx : lastIsXorOfRest buf 5
    · have hv := (verifyChecksum_iff buf 5 (by norm_num)).mpr hx
      rw [if_neg (by rw [hl]; decide), if_pos ⟨hl, hx⟩]
      simp [unpackHeartbeatPacket, HEARTBEAT_PACKET_SIZE, hv]
    · have hv : verifyChecksum buf 5 = false := by
        rw [Bool.eq_false_iff, ne_eq, verifyChecksum_iff buf 5 (by norm_num)]
        exact hx
      rw [if_neg (by rw [hl]; decide), if_neg (fun h => hx h.2)]
      simp [unpackHeartbeatPacket, HEARTBEAT_PACKET_SIZE, hv]
  · rw [if_pos (by simpa [HEARTBEAT_PACKET_SIZE] using hl), if_neg (fun h => hl h.1)]

/-- The dispatch of `handleMessage` on the kind tag, for a length of at least 2. -/
theorem handleMessage_dispatch (cb : Callbacks) (buf : List Nat) (len sender : Nat)
    (rssi : Int) (hlen : 2 ≤ len) :
    handleMessage cb buf len sender rssi
      = if buf.getD 1 0 = 0x01 then some (handleEnvironmentalPacket cb buf len rssi)
        else if buf.getD 1 0 = 0x02 then some (handleDetectionPacket cb buf len)
        else if buf.getD 1 0 = 0x03 then some (handleAlarmPacket cb buf len)
        else if buf.getD 1 0 = 0x04 ∧ len = 5 ∧ lastIsXorOfRest buf 5 then none
        else some [] := by
  have h1 : ¬ len < 2 := by omega
  simp only [handleMessage, h1, if_false, MSG_TYPE_ENVIRONMENTAL, MSG_TYPE_DETECTION,
    MSG_TYPE_ALARM, MSG_TYPE_HEARTBEAT, handleHeartbeatPacket_eq]
  split_ifs <;> simp_all

end LoRaHub

theorem LoRaHub.handleMessage_wrong_length (cb : LoRaHub.Callbacks) (buf : List Nat)
    (len sender : Nat) (rssi : Int) (h12 : len ≠ 12) (h8 : len ≠ 8) (h6 : len ≠ 6)
    (h5 : len = 5 → buf.getD 1 0 ≠ 0x04) :
    LoRaHub.handleMessage cb buf len sender rssi = some [] := by
  by_cases hlen : 2 ≤ len
  · rw [LoRaHub.handleMessage_dispatch cb buf len sender rssi hlen]
    split_ifs with t1 t2 t3 t4
    · rw [LoRaHub.handleEnvironmentalPacket_none cb buf len rssi (fun h => h12 h.1)]
    · rw [LoRaHub.handleDetectionPacket_none cb buf len (fun h => h8 h.1)]
    · rw [LoRaHub.handleAlarmPacket_none cb buf len (fun h => h6 h.1)]
    · exact absurd t4.1 (h5 t4.2.1)
    · rfl
  · simp [LoRaHub.handleMessage, Nat.lt_of_not_le hlen]

/-- Whatever the buffer handed to `packAlarmPacket`, its byte 1 afterwards is not the
Heartbeat tag. -/
theorem packAlarmPacket_tag_ne (packet : List Nat) (fromNodeID command mode targetNode : Nat) :
    (packAlarmPacket packet fromNodeID command mode targetNode).getD 1 0 ≠ 0x04 := by
  rcases packet with _ | ⟨x, _ | ⟨y, rest⟩⟩ <;>
    simp [packAlarmPacket, MSG_TYPE_ALARM]

/-- C20: hub-side validity gating for Format A, and where it breaks. With the three
callbacks registered, `LoRaHub::handleMessage` invokes the environmental, detection or alarm
callback, once and with the unpacked fields, when byte 1 is that kind's tag (`0x01`, `0x02`,
`0x03`), the received length is the kind's size (12, 8, 6) and the final byte is the XOR of
all preceding bytes. In every other case but one (another tag, a wrong length, a failing
checksum) it returns without invoking a callback; in particular a packet written by a pack
function and received one byte short invokes nothing. The exception is a 5-byte packet with
the Heartbeat tag `0x04` and a verifying checksum, such as `12 04 0E 74 6C`: there control
flows off the end of `unpackHeartbeatPacket` and the behaviour of `handleMessage` is
undefined. -/
theorem C20_hub_validity_gating (cb : LoRaHub.Callbacks) (buf : List Nat) (len sender : Nat)
    (rssi : Int)
    (hcb : cb.onEnvData = true ∧ cb.onDetection = true ∧ cb.onAlarm = true) :
    (buf.getD 1 0 = 0x01 ∧ len = 12 ∧ LoRaHub.lastIsXorOfRest buf 12 →
      ∃ e, unpackEnvironmentalPacket buf = some e ∧
        LoRaHub.handleMessage cb buf len sender rssi
          = some [LoRaHub.Invocation.onEnvData e.nodeID e.temp e.humidity e.pressure
              e.batteryMv (toInt8 (low8 rssi))]) ∧
    (buf.getD 1 0 = 0x02 ∧ len = 8 ∧ LoRaHub.lastIsXorOfRest buf 8 →
      ∃ e, unpackDetectionPacket buf = some e ∧
        LoRaHub.handleMessage cb buf len sender rssi
          = some [LoRaHub.Invocation.onDetection e.nodeID e.eventType e.confidence e.distance
              e.zone]) ∧
    (buf.getD 1 0 = 0x03 ∧ len = 6 ∧ LoRaHub.lastIsXorOfRest buf 6 →
      ∃ e, unpackAlarmPacket buf = some e ∧
        LoRaHub.handleMessage cb buf len sender rssi
          = some [LoRaHub.Invocation.onAlarm e.fromNodeID e.command e.mode]) ∧
    (¬ (buf.getD 1 0 = 0x01 ∧ len = 12 ∧ LoRaHub.lastIsXorOfRest buf 12) ∧
      ¬ (buf.getD 1 0 = 0x02 ∧ len = 8 ∧ LoRaHub.lastIsXorOfRest buf 8) ∧
      ¬ (buf.getD 1 0 = 0x03 ∧ len = 6 ∧ LoRaHub.lastIsXorOfRest buf 6) ∧
      ¬ (buf.getD 1 0 = 0x04 ∧ len = 5 ∧ LoRaHub.lastIsXorOfRest buf 5) →
      LoRaHub.handleMessage cb buf len sender rssi = some []) ∧
    (buf.getD 1 0 = 0x04 ∧ len = 5 ∧ LoRaHub.lastIsXorOfRest buf 5 →
      LoRaHub.handleMessage cb buf len sender rssi = none) ∧
    LoRaHub.handleMessage cb [0x12, 0x04, 0x0E, 0x74, 0x6C] 5 sender rssi = none ∧
    (∀ (packet : List Nat) (nodeID : Nat) (temp humidity pressure : ℚ) (batteryMv : Nat)
        (packetRssi : Int),
      LoRaHub.handleMessage cb
        (packEnvironmentalPacket packet nodeID temp humidity pressure batteryMv packetRssi)
        11 sender rssi = some []) ∧
    (∀ (packet : List Nat) (nodeID eventType confidence distance zone : Nat),
      LoRaHub.handleMessage cb
        (packDetectionPacket packet nodeID eventType confidence distance zone)
        7 sender rssi = some []) ∧
    (∀ (packet : List Nat) (fromNodeID command mode targetNode : Nat),
      LoRaHub.handleMessage cb (packAlarmPacket packet fromNodeID command mode targetNode)
        5 sender rssi = some []) := by
  obtain ⟨hE, hD, hA⟩ := hcb
  refine ⟨?_, ?_, ?_, ?_, ?_, ?_, ?_, ?_, ?_⟩
  · rintro ⟨ht, hl, hx⟩
    subst hl
    rw [LoRaHub.handleMessage_dispatch cb buf 12 sender rssi (by norm_num), if_pos ht]
    obtain ⟨e, h1, h2⟩ := LoRaHub.handleEnvironmentalPacket_ok cb buf rssi hE hx
    exact ⟨e, h1, by rw [h2]⟩
  · rintro ⟨ht, hl, hx⟩
    subst hl
    rw [LoRaHub.handleMessage_dispatch cb buf 8 sender rssi (by norm_num),
      if_neg (by rw [ht]; decide), if_pos ht]
    obtain ⟨e, h1, h2⟩ := LoRaHub.handleDetectionPacket_ok cb buf hD hx
    exact ⟨e, h1, by rw [h2]⟩
  · rintro ⟨ht, hl, hx⟩
    subst hl
    rw [LoRaHub.handleMessage_dispatch cb buf 6 sender rssi (by norm_num),
      if_neg (by rw [ht]; decide), if_neg (by rw [ht]; decide), if_pos ht]
    obtain ⟨e, h1, h2⟩ := LoRaHub.handleAlarmPacket_ok cb buf hA hx
    exact ⟨e, h1, by rw [h2]⟩
  · rintro ⟨h1, h2, h3, h4⟩
    by_cases hlen : 2 ≤ len
    · rw [LoRaHub.handleMessage_dispatch cb buf len sender rssi hlen]
      rw [if_neg h4]
      split_ifs with t1 t2 t3
      · rw [LoRaHub.handleEnvironmentalPacket_none cb buf len rssi
          (fun h => h1 ⟨t1, h.1, h.2⟩)]
      · rw [LoRaHub.handleDetectionPacket_none cb buf len (fun h => h2 ⟨t2, h.1, h.2⟩)]
      · rw [LoRaHub.handleAlarmPacket_none cb buf len (fun h => h3 ⟨t3, h.1, h.2⟩)]
      · rfl
    · simp [LoRaHub.handleMessage, Nat.lt_of_not_le hlen]
  · rintro ⟨ht, hl, hx⟩
    subst hl
    rw [LoRaHub.handleMessage_dispatch cb buf 5 sender rssi (by norm_num),
      if_neg (by rw [ht]; decide), if_neg (by rw [ht]; decide), if_neg (by rw [ht]; decide),
      if_pos ⟨ht, rfl, hx⟩]
  · rw [LoRaHub.handleMessage_dispatch cb _ 5 sender rssi (by norm_num),
      if_neg (by decide), if_neg (by decide), if_neg (by decide), if_pos (by decide)]
  · intro packet nodeID temp humidity pressure batteryMv packetRssi
    exact LoRaHub.handleMessage_wrong_length cb _ 11 sender rssi
      (by decide) (by decide) (by decide) (fun h => absurd h (by decide))
  · intro packet nodeID eventType confidence distance zone
    exact LoRaHub.handleMessage_wrong_length cb _ 7 sender rssi
      (by decide) (by decide) (by decide) (fun h => absurd h (by decide))
  · intro packet fromNodeID command mode targetNode
    exact LoRaHub.handleMessage_wrong_length cb _ 5 sender rssi
      (by decide) (by decide) (by decide) (fun _ => packAlarmPacket_tag_ne _ _ _ _ _)

/-- C20 at concrete inputs: the Alarm packet "arm, mode 3, all nodes" from node 5 received
whole invokes the alarm callback; received with its checksum byte off by one bit, or one
byte short, it invokes nothing; the Heartbeat packet of node `0x12` with 3700 mV runs into
the undefined behaviour. -/
theorem C20_hub_validity_gating_witness :
    LoRaHub.handleMessage { onEnvData := true, onDetection := true, onAlarm := true }
        [5, 3, 1, 3, 255, 251] 6 5 (-70) = some [LoRaHub.Invocation.onAlarm 5 1 3] ∧
    LoRaHub.handleMessage { onEnvData := true, onDetection := true, onAlarm := true }
        [5, 3, 1, 3, 255, 250] 6 5 (-70) = some [] ∧
    LoRaHub.handleMessage { onEnvData := true, onDetection := true, onAlarm := true }
        (packAlarmPacket [0, 0, 0, 0, 0, 0] 5 1 3 255) 5 5 (-70) = some [] ∧
    LoRaHub.handleMessage { onEnvData := true, onDetection := true, onAlarm := true }
        (packHeartbeatPacket [0, 0, 0, 0, 0] 0x12 3700) 5 0x12 (-70) = none := by
  refine ⟨?_, ?_, ?_, ?_⟩
  · obtain ⟨e, h1, h2⟩ := (C20_hub_validity_gating
      { onEnvData := true, onDetection := true, onAlarm := true }
      [5, 3, 1, 3, 255, 251] 6 5 (-70) (by decide)).2.2.1 (by decide)
    rw [h2]
    have h3 : unpackAlarmPacket [5, 3, 1, 3, 255, 251]
        = some { fromNodeID := 5, command := 1, mode := 3, targetNode := 255 } := by decide
    rw [h3] at h1
    cases h1
    rfl
  · exact (C20_hub_validity_gating
      { onEnvData := true, onDetection := true, onAlarm := true }
      [5, 3, 1, 3, 255, 250] 6 5 (-70) (by decide)).2.2.2.1 (by decide)
  · exact (C20_hub_validity_gating
      { onEnvData := true, onDetection := true, onAlarm := true }
      [] 0 5 (-70) (by decide)).2.2.2.2.2.2.2.2 [0, 0, 0, 0, 0, 0] 5 1 3 255
  · exact (C20_hub_validity_gating
      { onEnvData := true, onDetection := true, onAlarm := true }
      (packHeartbeatPacket [0, 0, 0, 0, 0] 0x12 3700) 5 0x12 (-70) (by decide)).2.2.2.2.1
      (by decide)

/-! ## Format B at the gateway: payload length, rejected frames, zero padding -/

/-- C21, counterexample: the CRC-valid frame `01 01 02 00 07 00 00 00 00 11` has type
`MOTION` and an empty payload (`payload_len = 0`, not 4). Received in the initial state it is
treated as a motion event: the state becomes `GRACE_PERIOD`, `grace_period_active` is set and
the grace notice is sent. -/
theorem C21_motion_length_counterexample :
    (proto.decode [1, 1, 2, 0, 7, 0, 0, 0, 0, 17] 10 {} [] 0).ok = true ∧
    (proto.decode [1, 1, 2, 0, 7, 0, 0, 0, 0, 17] 10 {} [] 0).h.type = proto.MOTION ∧
    (proto.decode [1, 1, 2, 0, 7, 0, 0, 0, 0, 17] 10 {} [] 0).payload_len = 0 ∧
    (gateway.handle_frame {} {} [1, 1, 2, 0, 7, 0, 0, 0, 0, 17] 10 5000).1.alarm_state
      = gateway.AlarmState.GRACE_PERIOD ∧
    (gateway.handle_frame {} {} [1, 1, 2, 0, 7, 0, 0, 0, 0, 17] 10 5000).1.last_motion_time
      = 5000 ∧
    (gateway.handle_frame {} {} [1, 1, 2, 0, 7, 0, 0, 0, 0, 17] 10 5000).2
      = [gateway.mailGraceStarted] := by
  decide!

/-- C21, amended: `handle_frame` never looks at the payload length. Any two CRC-valid frames
of type `MOTION`, whatever their payloads and lengths, have the same effect when received in
the same state at the same time; in `ARMED` that effect is the transition to `GRACE_PERIOD`
with the grace notice. -/
theorem C21_motion_any_payload_length (CFG : AppCfg) (st : gateway.Statics)
    (buf : List Nat) (len : Nat) (buf2 : List Nat) (len2 : Nat) (millis : Nat)
    (hok : (proto.decode buf len {} [] 0).ok = true)
    (hty : (proto.decode buf len {} [] 0).h.type = proto.MOTION)
    (hok2 : (proto.decode buf2 len2 {} [] 0).ok = true)
    (hty2 : (proto.decode buf2 len2 {} [] 0).h.type = proto.MOTION) :
    gateway.handle_frame CFG st buf len millis = gateway.handle_frame CFG st buf2 len2 millis ∧
    (st.alarm_state = gateway.AlarmState.ARMED →
      (gateway.handle_frame CFG st buf len millis).1.alarm_state
        = gateway.AlarmState.GRACE_PERIOD ∧
      (gateway.handle_frame CFG st buf len millis).2 = [gateway.mailGraceStarted]) := by
  rw [gateway.handle_frame_motion CFG st buf len millis hok hty,
    gateway.handle_frame_motion CFG st buf2 len2 millis hok2 hty2]
  refine ⟨rfl, ?_⟩
  intro hst
  rw [if_pos hst]
  exact ⟨rfl, rfl⟩

/-- C21 amended, at a concrete input: a MOTION frame with a 4-byte payload and one with an
empty payload, both received in the initial state at 5000 ms. -/
theorem C21_motion_any_payload_length_witness :
    gateway.handle_frame {} {} [1, 1, 2, 0, 7, 0, 0, 0, 0, 16, 39, 0, 0, 1] 14 5000
      = gateway.handle_frame {} {} [1, 1, 2, 0, 7, 0, 0, 0, 0, 17] 10 5000 :=
  (C21_motion_any_payload_length {} {} [1, 1, 2, 0, 7, 0, 0, 0, 0, 16, 39, 0, 0, 1] 14
    [1, 1, 2, 0, 7, 0, 0, 0, 0, 17] 10 5000
    (by decide!) (by decide!) (by decide!) (by decide!)).1

/-- C23, counterexample: a 10-byte buffer starting with version byte 2 whose last byte is not
its CRC. `proto::decode` returns `false`, yet the caller's header, which had `ver = 1`
before the call, has `ver = 2` after it. -/
theorem C23_rejected_frame_counterexample :
    (proto.decode [2, 0, 0, 0, 0, 0, 0, 0, 0, 0] 10 {} [] 0).ok = false ∧
    ({} : proto.Header).ver = 1 ∧
    (proto.decode [2, 0, 0, 0, 0, 0, 0, 0, 0, 0] 10 {} [] 0).h.ver = 2 := by
  decide!

/-- C23, amended: whenever `proto::decode` returns `false`, the caller's payload pointer and
payload length keep the values they had before the call. The header keeps its value when the
length is below 10; on a CRC mismatch it has been overwritten with the first 9 bytes of the
input. -/
theorem C23_rejected_frame_amended (inp : List Nat) (len : Nat) (h0 : proto.Header)
    (payload0 : List Nat) (payload_len0 : Nat)
    (hrej : (proto.decode inp len h0 payload0 payload_len0).ok = false) :
    (proto.decode inp len h0 payload0 payload_len0).payload = payload0 ∧
    (proto.decode inp len h0 payload0 payload_len0).payload_len = payload_len0 ∧
    (len < 10 → (proto.decode inp len h0 payload0 payload_len0).h = h0) ∧
    (10 ≤ len →
      (proto.decode inp len h0 payload0 payload_len0).h = proto.Header.ofBytes inp ∧
      crc8_dallas inp (len - 1) 0xFF ≠ inp.getD (len - 1) 0) := by
  by_cases hl : len < proto.hdr_len + 1
  · have hd : proto.decode inp len h0 payload0 payload_len0
        = ⟨false, h0, payload0, payload_len0⟩ := by
      unfold proto.decode
      rw [if_pos hl]
    rw [hd]
    refine ⟨rfl, rfl, fun _ => rfl, fun h => ?_⟩
    unfold proto.hdr_len at hl
    omega
  · by_cases hc : crc8_dallas inp (len - 1) 0xFF ≠ inp.getD (len - 1) 0
    · have hd : proto.decode inp len h0 payload0 payload_len0
          = ⟨false, proto.Header.ofBytes inp, payload0, payload_len0⟩ := by
        unfold proto.decode
        rw [if_neg hl]
        simp only []
        rw [if_pos hc]
      rw [hd]
      refine ⟨rfl, rfl, fun h => ?_, fun _ => ⟨rfl, hc⟩⟩
      unfold proto.hdr_len at hl
      omega
    · have hd : (proto.decode inp len h0 payload0 payload_len0).ok = true := by
        unfold proto.decode
        rw [if_neg hl]
        simp only []
        rw [if_neg hc]
      rw [hd] at hrej
      exact absurd hrej (by decide)

/-- C23 amended, at a concrete input: the caller's payload pointer and length survive a CRC
mismatch. -/
theorem C23_rejected_frame_amended_witness :
    (proto.decode [2, 0, 0, 0, 0, 0, 0, 0, 0, 0] 10 {} [7, 7] 2).payload = [7, 7] ∧
    (proto.decode [2, 0, 0, 0, 0, 0, 0, 0, 0, 0] 10 {} [7, 7] 2).payload_len = 2 :=
  ⟨(C23_rejected_frame_amended [2, 0, 0, 0, 0, 0, 0, 0, 0, 0] 10 {} [7, 7] 2 (by decide!)).1,
   (C23_rejected_frame_amended [2, 0, 0, 0, 0, 0, 0, 0, 0, 0] 10 {} [7, 7] 2 (by decide!)).2.1⟩

/-- C27: the gateway can never be disarmed. From the initial state, after any sequence of
`handle_frame` calls (any buffers, lengths and times) and `task_alarm_manager` passes (any
times), `alarm_state` is `ARMED`, `GRACE_PERIOD` or `ALARM_ACTIVE`, never `DISARMED`, and
`grace_period_active` is true exactly when `alarm_state` is `GRACE_PERIOD`. -/
theorem C27_never_disarmed (CFG : AppCfg) (events : List gateway.Event) :
    ((gateway.run CFG {} events).1.alarm_state = gateway.AlarmState.ARMED ∨
      (gateway.run CFG {} events).1.alarm_state = gateway.AlarmState.GRACE_PERIOD ∨
      (gateway.run CFG {} events).1.alarm_state = gateway.AlarmState.ALARM_ACTIVE) ∧
    (gateway.run CFG {} events).1.alarm_state ≠ gateway.AlarmState.DISARMED ∧
    ((gateway.run CFG {} events).1.grace_period_active = true
      ↔ (gateway.run CFG {} events).1.alarm_state = gateway.AlarmState.GRACE_PERIOD) := by
  obtain ⟨h1, h2⟩ := gateway.run_invariant_init CFG events
  refine ⟨?_, h1, h2⟩
  cases hs : (gateway.run CFG {} events).1.alarm_state with
  | DISARMED => exact absurd hs h1
  | ARMED => exact Or.inl rfl
  | ALARM_ACTIVE => exact Or.inr (Or.inr rfl)
  | GRACE_PERIOD => exact Or.inr (Or.inl rfl)

theorem crc8_byte_self (c : Nat) : crc8_byte c c = 0 := by
  unfold crc8_byte
  rw [Nat.xor_self]
  decide

theorem crc8_foldl_zeros (k : Nat) : (List.replicate k 0).foldl crc8_byte 0 = 0 := by
  induction k with
  | zero => rfl
  | succ k ih =>
    rw [List.replicate_succ, List.foldl_cons]
    have h : crc8_byte 0 0 = 0 := crc8_byte_self 0
    rw [h, ih]

namespace proto

/-- When `decode` returns `true`. -/
theorem decode_ok_iff (inp : List Nat) (len : Nat) (h0 : Header) (pl0 : List Nat) (n0 : Nat) :
    (decode inp len h0 pl0 n0).ok = true
      ↔ 10 ≤ len ∧ crc8_dallas inp (len - 1) 0xFF = inp.getD (len - 1) 0 := by
  unfold decode
  by_cases hl : len < hdr_len + 1
  · rw [if_pos hl]
    unfold hdr_len at hl
    constructor
    · intro h
      exact absurd h Bool.false_ne_true
    · intro h
      omega
  · rw [if_neg hl]
    simp only []
    unfold hdr_len at hl
    by_cases hc : crc8_dallas inp (len - 1) 0xFF ≠ inp.getD (len - 1) 0
    · rw [if_pos hc]
      constructor
      · intro h
        exact absurd h Bool.false_ne_true
      · intro h
        exact absurd h.2 hc
    · rw [if_neg hc]
      exact ⟨fun _ => ⟨by omega, not_not.mp hc⟩, fun _ => rfl⟩

/-- What `decode` stores when it returns `true`. -/
theorem decode_ok_fields (inp : List Nat) (len : Nat) (h0 : Header) (pl0 : List Nat) (n0 : Nat)
    (hok : (decode inp len h0 pl0 n0).ok = true) :
    (decode inp len h0 pl0 n0).h = Header.ofBytes inp ∧
    (decode inp len h0 pl0 n0).payload = inp.drop 9 ∧
    (decode inp len h0 pl0 n0).payload_len = len - 10 := by
  obtain ⟨hl, hc⟩ := (decode_ok_iff inp len h0 pl0 n0).mp hok
  have hl' : ¬ len < hdr_len + 1 := by unfold hdr_len; omega
  have hc' : ¬ crc8_dallas inp (len - 1) 0xFF ≠ inp.getD (len - 1) 0 := not_not.mpr hc
  unfold decode
  rw [if_neg hl']
  simp only []
  rw [if_neg hc']
  refine ⟨rfl, rfl, ?_⟩
  show len - hdr_len - 1 = len - 10
  unfold hdr_len
  omega

theorem Header.ofBytes_append (f rest : List Nat) (hf : 9 ≤ f.length) :
    Header.ofBytes (f ++ rest) = Header.ofBytes f := by
  unfold Header.ofBytes
  rw [List.getD_append f rest 0 0 (by omega), List.getD_append f rest 0 1 (by omega),
    List.getD_append f rest 0 2 (by omega), List.getD_append f rest 0 3 (by omega),
    List.getD_append f rest 0 4 (by omega), List.getD_append f rest 0 5 (by omega),
    List.getD_append f rest 0 6 (by omega), List.getD_append f rest 0 7 (by omega),
    List.getD_append f rest 0 8 (by omega)]

/-- The CRC-8 of a valid frame, its own trailer included, is zero. -/
theorem crc_of_valid_frame (f : List Nat) (h0 : Header) (pl0 : List Nat) (n0 : Nat)
    (hok : (decode f f.length h0 pl0 n0).ok = true) :
    f.foldl crc8_byte 0xFF = 0 := by
  obtain ⟨hl, hc⟩ := (decode_ok_iff f f.length h0 pl0 n0).mp hok
  rcases List.eq_nil_or_concat f with hnil | ⟨body, c, hf⟩
  · subst hnil
    simp at hl
  · rw [List.concat_eq_append] at hf
    subst hf
    have e1 : (body ++ [c]).length - 1 = body.length := by simp
    rw [e1, crc8_dallas_append, List.getD_append_right _ _ _ _ (le_refl _)] at hc
    simp only [Nat.sub_self, List.getD_cons_zero] at hc
    rw [List.foldl_append, hc]
    exact crc8_byte_self c

/-- A valid frame followed by zero bytes, decoded with the longer length. -/
theorem decode_zero_padded (f : List Nat) (k : Nat) (rest : List Nat) (h0 : Header)
    (pl0 : List Nat) (n0 : Nat) (hok : (decode f f.length h0 pl0 n0).ok = true) :
    (decode (f ++ List.replicate k 0 ++ rest) (f.length + k) h0 pl0 n0).ok = true := by
  obtain ⟨hl, hc⟩ := (decode_ok_iff f f.length h0 pl0 n0).mp hok
  rw [decode_ok_iff]
  refine ⟨by omega, ?_⟩
  cases k with
  | zero =>
    simp only [List.replicate_zero, List.append_nil, Nat.add_zero]
    rw [List.getD_append f rest 0 _ (by omega)]
    unfold crc8_dallas at hc ⊢
    rw [List.take_append_of_le_length (by omega)]
    exact hc
  | succ k =>
    have e1 : f.length + (k + 1) - 1 = f.length + k := by omega
    have e2 : (f ++ List.replicate (k + 1) 0 ++ rest).take (f.length + k)
        = f ++ List.replicate k 0 := by
      rw [List.append_assoc, List.take_append, List.take_append_of_le_length (by simp),
        List.take_replicate]
      congr 2
      omega
    have e3 : (f ++ List.replicate (k + 1) 0 ++ rest).getD (f.length + k) 0 = 0 := by
      rw [List.getD_append _ rest 0 _ (by simp), List.getD_append_right _ _ _ _ (by omega)]
      have : f.length + k - f.length = k := by omega
      rw [this, List.getD_eq_getElem _ _ (by simp : k < (List.replicate (k + 1) 0).length)]
      simp
    rw [e1, e3]
    unfold crc8_dallas
    rw [e2, List.foldl_append, crc_of_valid_frame f h0 pl0 n0 hok, crc8_foldl_zeros]

end proto

/-- C26: zero padding keeps a Format B frame valid. For every frame `f` on which
`proto::decode` returns `true` and every `k ≥ 0`, `proto::decode` on `f` followed by `k` zero
bytes (and whatever lies in the buffer beyond them) with the length `|f| + k` also returns
`true`, with the same header and a `payload_len` larger by `k`; the CRC-8 of `f`, trailer
included, is 0. So a valid 14-byte motion frame followed by 18 zero bytes, decoded by the
gateway with the fixed length 32, has the effect of the frame itself. -/
theorem C26_zero_padding_accepted (f : List Nat) (k : Nat) (rest : List Nat) (h0 : proto.Header)
    (payload0 : List Nat) (payload_len0 : Nat)
    (hok : (proto.decode f f.length h0 payload0 payload_len0).ok = true) :
    (proto.decode (f ++ List.replicate k 0 ++ rest) (f.length + k) h0 payload0 payload_len0).ok
      = true ∧
    (proto.decode (f ++ List.replicate k 0 ++ rest) (f.length + k) h0 payload0 payload_len0).h
      = (proto.decode f f.length h0 payload0 payload_len0).h ∧
    (proto.decode (f ++ List.replicate k 0 ++ rest) (f.length + k) h0 payload0
        payload_len0).payload_len
      = (proto.decode f f.length h0 payload0 payload_len0).payload_len + k ∧
    crc8_dallas f f.length 0xFF = 0 ∧
    (f.length = 14 → k = 18 →
      (proto.decode f f.length h0 payload0 payload_len0).h.type = proto.MOTION →
      ∀ (CFG : AppCfg) (st : gateway.Statics) (millis : Nat),
        gateway.handle_frame CFG st (f ++ List.replicate k 0 ++ rest) 32 millis
          = gateway.handle_frame CFG st f 14 millis) := by
  have hl := ((proto.decode_ok_iff f f.length h0 payload0 payload_len0).mp hok).1
  have hok' := proto.decode_zero_padded f k rest h0 payload0 payload_len0 hok
  obtain ⟨a1, _, a3⟩ := proto.decode_ok_fields f f.length h0 payload0 payload_len0 hok
  obtain ⟨b1, _, b3⟩ := proto.decode_ok_fields _ _ h0 payload0 payload_len0 hok'
  have hh : proto.Header.ofBytes (f ++ List.replicate k 0 ++ rest) = proto.Header.ofBytes f := by
    rw [List.append_assoc, proto.Header.ofBytes_append f _ (by omega)]
  refine ⟨hok', ?_, ?_, ?_, ?_⟩
  · rw [a1, b1, hh]
  · rw [a3, b3]
    omega
  · rw [crc8_dallas_full]
    exact proto.crc_of_valid_frame f h0 payload0 payload_len0 hok
  · intro h14 hk hty CFG st millis
    have o1 : (proto.decode f 14 {} [] 0).ok = true := by
      rw [proto.decode_ok_iff]
      have := (proto.decode_ok_iff f f.length h0 payload0 payload_len0).mp hok
      rw [h14] at this
      exact this
    have o2 : (proto.decode (f ++ List.replicate k 0 ++ rest) 32 {} [] 0).ok = true := by
      rw [proto.decode_ok_iff]
      have := (proto.decode_ok_iff _ _ h0 payload0 payload_len0).mp hok'
      rw [h14, hk] at this
      rw [hk]
      exact this
    have t1 : (proto.decode f 14 {} [] 0).h.type = proto.MOTION := by
      rw [(proto.decode_ok_fields f 14 {} [] 0 o1).1]
      rw [a1] at hty
      exact hty
    have t2 : (proto.decode (f ++ List.replicate k 0 ++ rest) 32 {} [] 0).h.type
        = proto.MOTION := by
      rw [(proto.decode_ok_fields _ 32 {} [] 0 o2).1, hh]
      rw [a1] at hty
      exact hty
    rw [gateway.handle_frame_motion CFG st _ 32 millis o2 t2,
      gateway.handle_frame_motion CFG st f 14 millis o1 t1]

/-- C26 at a concrete input: the 14-byte motion frame in a 64-byte receive buffer whose next
18 bytes are zero and whose second half holds older data, decoded with length 32. -/
theorem C26_zero_padding_accepted_witness :
    (proto.decode
        ([1, 1, 2, 0, 7, 0, 0, 0, 0, 16, 39, 0, 0, 1] ++ List.replicate 18 0
          ++ List.replicate 32 0xA5) 32 {} [] 0).ok = true ∧
    (proto.decode
        ([1, 1, 2, 0, 7, 0, 0, 0, 0, 16, 39, 0, 0, 1] ++ List.replicate 18 0
          ++ List.replicate 32 0xA5) 32 {} [] 0).payload_len = 22 := by
  have h := C26_zero_padding_accepted [1, 1, 2, 0, 7, 0, 0, 0, 0, 16, 39, 0, 0, 1] 18
    (List.replicate 32 0xA5) {} [] 0 (by decide!)
  refine ⟨h.1, ?_⟩
  have h3 := h.2.2.1
  have e : (proto.decode [1, 1, 2, 0, 7, 0, 0, 0, 0, 16, 39, 0, 0, 1] 14 {} [] 0).payload_len
      = 4 := by decide!
  exact h3.trans (by rw [show ([1, 1, 2, 0, 7, 0, 0, 0, 0, 16, 39, 0, 0, 1] : List Nat).length
    = 14 from rfl, e])

/-! ## Format A: the checksum and byte order -/

theorem xor_right_comm_nat (z x y : Nat) : (z ^^^ x) ^^^ y = (z ^^^ y) ^^^ x := by
  rw [Nat.xor_assoc, Nat.xor_comm x y, ← Nat.xor_assoc]

theorem calculateChecksum_perm (buf buf2 : List Nat) (n : Nat)
    (hperm : (buf.take n).Perm (buf2.take n)) :
    calculateChecksum buf n = calculateChecksum buf2 n := by
  unfold calculateChecksum
  exact List.Perm.foldl_eq' hperm (fun x _ y _ z => xor_right_comm_nat z x y) 0

/-- C28: the Format A checksum ignores byte order. For every two buffers and every length,
if the first `len - 1` bytes of one are a permutation of the first `len - 1` bytes of the
other and the bytes at `len - 1` agree, `verifyChecksum` gives the same result on both. For
example, every Alarm packet written by `packAlarmPacket`, with its command byte (offset 2) and
mode byte (offset 3) swapped, is accepted by `unpackAlarmPacket`, which returns the two
values exchanged. -/
theorem C28_checksum_ignores_order (buf buf2 : List Nat) (len : Nat)
    (hperm : (buf.take (len - 1)).Perm (buf2.take (len - 1)))
    (hlast : buf.getD (len - 1) 0 = buf2.getD (len - 1) 0) :
    verifyChecksum buf len = verifyChecksum buf2 len ∧
    (∀ (packet : List Nat) (fromNodeID command mode targetNode : Nat),
      6 ≤ packet.length →
      unpackAlarmPacket
          (((packAlarmPacket packet fromNodeID command mode targetNode).set 2
              ((packAlarmPacket packet fromNodeID command mode targetNode).getD 3 0)).set 3
            ((packAlarmPacket packet fromNodeID command mode targetNode).getD 2 0))
        = some { fromNodeID := fromNodeID, command := mode, mode := command,
                 targetNode := targetNode }) := by
  constructor
  · unfold verifyChecksum
    rw [hlast, calculateChecksum_perm buf buf2 (len - 1) hperm]
  · intro packet fromNodeID command mode targetNode hlen
    rw [packAlarmPacket_eq packet fromNodeID command mode targetNode hlen]
    simp [unpackAlarmPacket, verifyChecksum, calculateChecksum, ALARM_PACKET_SIZE]
    exact xor_right_comm_nat _ _ _

/-- C28 at a concrete input: the Alarm packet `05 03 01 03 FF FB` and the same packet with
bytes 2 and 3 exchanged verify alike. -/
theorem C28_checksum_ignores_order_witness :
    verifyChecksum [5, 3, 1, 3, 255, 251] 6 = verifyChecksum [5, 3, 3, 1, 255, 251] 6 ∧
    unpackAlarmPacket
        (((packAlarmPacket [0, 0, 0, 0, 0, 0] 5 1 3 255).set 2
            ((packAlarmPacket [0, 0, 0, 0, 0, 0] 5 1 3 255).getD 3 0)).set 3
          ((packAlarmPacket [0, 0, 0, 0, 0, 0] 5 1 3 255).getD 2 0))
      = some { fromNodeID := 5, command := 3, mode := 1, targetNode := 255 } :=
  ⟨(C28_checksum_ignores_order [5, 3, 1, 3, 255, 251] [5, 3, 3, 1, 255, 251] 6
      (by decide) (by decide)).1,
   (C28_checksum_ignores_order [] [] 0 (by decide) (by decide)).2
      [0, 0, 0, 0, 0, 0] 5 1 3 255 (by decide)⟩

/-! ## Counter wrap and the reported RSSI -/

theorem u32sub_wrapped (t d : Nat) (ht : t < 4294967296) (hd : d < 4294967296) :
    u32sub (u32 ((t + d) % 4294967296)) t = d := by
  unfold u32sub u32
  omega

/-- C29: timeouts survive the wrap of the 32-bit millisecond counter. For a start time `t`
and a true elapsed time `d`, both below `2^32`, at `now = (t + d) mod 2^32`:
`AlarmManager::process` disarms an alarm triggered at `t` iff `d > 600000`, and the gateway
tick leaves `GRACE_PERIOD` entered by a motion at `t` iff `d` exceeds the 32-bit value of
`grace_period_s * 1000`, which is `grace_period_s * 1000` itself when that fits 32 bits. No
assumption is made on whether `now` is numerically smaller than `t`. -/
theorem C29_timeouts_survive_wrap (t d : Nat) (ht : t < 4294967296) (hd : d < 4294967296) :
    (∀ s : AlarmManager, s.alarmTriggered = true → s.alarmTime = t →
      ((s.process ((t + d) % 4294967296)).alarmTriggered = false ↔ d > 600000) ∧
      (d > 600000 → s.process ((t + d) % 4294967296) = s.disarm) ∧
      (¬ d > 600000 → s.process ((t + d) % 4294967296) = s)) ∧
    (∀ (CFG : AppCfg) (st : gateway.Statics),
      st.alarm_state = gateway.AlarmState.GRACE_PERIOD → st.grace_period_active = true →
      st.last_motion_time = t →
      ((gateway.task_alarm_manager CFG st ((t + d) % 4294967296)).1.alarm_state
          ≠ gateway.AlarmState.GRACE_PERIOD
        ↔ d > u32 (CFG.alarm.grace_period_s * 1000)) ∧
      (CFG.alarm.grace_period_s * 1000 < 4294967296 →
        ((gateway.task_alarm_manager CFG st ((t + d) % 4294967296)).1.alarm_state
            ≠ gateway.AlarmState.GRACE_PERIOD
          ↔ d > CFG.alarm.grace_period_s * 1000))) := by
  constructor
  · intro s htr hst
    have he : ((t + d) % 4294967296 + 4294967296 - s.alarmTime) % 4294967296 = d := by
      rw [hst]
      omega
    have hp := AlarmManager.process_eq s ((t + d) % 4294967296)
    rw [he] at hp
    by_cases hgt : d > 600000
    · rw [if_pos ⟨htr, hgt⟩] at hp
      refine ⟨?_, fun _ => ?_, fun h => absurd hgt h⟩
      · rw [hp]
        exact ⟨fun _ => hgt, fun _ => rfl⟩
      · rw [hp]
        rfl
    · rw [if_neg (fun h => hgt h.2)] at hp
      refine ⟨?_, fun h => absurd h hgt, fun _ => hp⟩
      rw [hp, htr]
      exact ⟨fun h => absurd h (by decide), fun h => absurd h hgt⟩
  · intro CFG st hst hg hlm
    have he : u32sub (u32 ((t + d) % 4294967296)) st.last_motion_time = d := by
      rw [hlm]
      exact u32sub_wrapped t d ht hd
    have key : (gateway.task_alarm_manager CFG st ((t + d) % 4294967296)).1.alarm_state
          ≠ gateway.AlarmState.GRACE_PERIOD
        ↔ d > u32 (CFG.alarm.grace_period_s * 1000) := by
      rw [gateway.task_alarm_manager_eq, he]
      by_cases hgt : d > u32 (CFG.alarm.grace_period_s * 1000)
      · rw [if_pos ⟨hst, hg, hgt⟩]
        exact ⟨fun _ => hgt, fun _ => by simp⟩
      · rw [if_neg (fun h => hgt h.2.2),
          if_neg (fun h => by rw [hst] at h; exact absurd h.1 (by decide))]
        exact ⟨fun h => absurd hst h, fun h => absurd h hgt⟩
    refine ⟨key, fun hfit => ?_⟩
    rw [key, u32_of_lt _ hfit]

/-- C29 at a concrete input: an alarm triggered 1000 ms before the counter wraps and ticked
601000 ms later, when the counter reads 600000. -/
theorem C29_timeouts_survive_wrap_witness :
    (4294966296 + 601000) % 4294967296 = 600000 ∧
    (({ currentMode := AlarmMode.MODE_FULL, alarmTriggered := true, triggeringNode := 7,
        alarmTime := 4294966296, alarmPin := "1234" } : AlarmManager).process
      ((4294966296 + 601000) % 4294967296)).alarmTriggered = false :=
  ⟨by decide,
   (((C29_timeouts_survive_wrap 4294966296 601000 (by decide) (by decide)).1
      { currentMode := AlarmMode.MODE_FULL, alarmTriggered := true, triggeringNode := 7,
        alarmTime := 4294966296, alarmPin := "1234" } rfl rfl).1).mpr (by decide)⟩

theorem toInt8_low8 (r : Int) : toInt8 (low8 r) = (r + 128) % 256 - 128 := by
  unfold toInt8 low8
  split <;> omega

/-- C30: the RSSI the hub reports for an environmental packet is the receiver-measured RSSI
narrowed to `int8_t`, not the packet's RSSI field. With the callback registered, for every
valid 12-byte Environmental packet and receiver RSSI `r`, the unpacked RSSI field is the
signed value of byte 10, but the last argument of the callback is `r` reduced modulo 256 into
`[-128, 127]`, an expression without the packet in it; it equals `r` exactly when
`-128 ≤ r ≤ 127`, and `-130` is delivered as `126`. -/
theorem C30_hub_reports_receiver_rssi (cb : LoRaHub.Callbacks) (buf : List Nat) (sender : Nat)
    (r : Int) (hcb : cb.onEnvData = true) (htag : buf.getD 1 0 = 0x01)
    (hx : LoRaHub.lastIsXorOfRest buf 12) :
    (∃ e, unpackEnvironmentalPacket buf = some e ∧
      e.rssi = toInt8 (buf.getD 10 0) ∧
      LoRaHub.handleMessage cb buf 12 sender r
        = some [LoRaHub.Invocation.onEnvData e.nodeID e.temp e.humidity e.pressure e.batteryMv
            ((r + 128) % 256 - 128)]) ∧
    -128 ≤ (r + 128) % 256 - 128 ∧ (r + 128) % 256 - 128 ≤ 127 ∧
    ((r + 128) % 256 - 128 = r ↔ -128 ≤ r ∧ r ≤ 127) ∧
    toInt8 (low8 (-130)) = 126 := by
  refine ⟨?_, by omega, by omega, by omega, by decide⟩
  rw [LoRaHub.handleMessage_dispatch cb buf 12 sender r (by norm_num), if_pos htag,
    ← toInt8_low8]
  obtain ⟨e, h1, h2⟩ := LoRaHub.handleEnvironmentalPacket_ok cb buf r hcb hx
  refine ⟨e, h1, ?_, by rw [h2]⟩
  have hv := (verifyChecksum_iff buf 12 (by norm_num)).mpr hx
  unfold unpackEnvironmentalPacket at h1
  rw [show ENV_PACKET_SIZE = 12 from rfl, hv] at h1
  cases h1
  rfl

/-- C30 at a concrete input: an Environmental packet from node 5 whose RSSI field is -67
(byte 10 = `0xBD`), received with a measured RSSI of -130: the callback is given 126. -/
theorem C30_hub_reports_receiver_rssi_witness :
    ∃ e, unpackEnvironmentalPacket [5, 1, 8, 102, 17, 148, 39, 148, 14, 116, 189, 155] = some e ∧
      e.rssi = -67 ∧
      LoRaHub.handleMessage { onEnvData := true }
          [5, 1, 8, 102, 17, 148, 39, 148, 14, 116, 189, 155] 12 5 (-130)
        = some [LoRaHub.Invocation.onEnvData e.nodeID e.temp e.humidity e.pressure
            e.batteryMv 126] := by
  obtain ⟨e, h1, h2, h3⟩ := (C30_hub_reports_receiver_rssi { onEnvData := true }
    [5, 1, 8, 102, 17, 148, 39, 148, 14, 116, 189, 155] 5 (-130)
    rfl (by decide) (by decide)).1
  refine ⟨e, h1, ?_, ?_⟩
  · rw [h2]
    decide
  · rw [h3]
    norm_num

/-! ## Node receive path -/

/-- The callback invocations made by `handleIncomingMessage`. -/
theorem LoRaComm.handleIncomingMessage_invocations (node : LoRaComm.Node) (buf : List Nat)
    (len sender : Nat) :
    (LoRaComm.handleIncomingMessage node buf len sender).invocations
      = if (sender = node.hubID ∨ sender = BROADCAST_ADDRESS) ∧ 2 ≤ len ∧
            node.onMessageReceived = true then
          [{ data := buf, len := len, sender := sender }]
        else [] := by
  unfold LoRaComm.handleIncomingMessage
  by_cases h1 : sender ≠ node.hubID ∧ sender ≠ BROADCAST_ADDRESS
  · rw [if_pos h1, if_neg (fun h => by rcases h.1 with h | h; exact h1.1 h; exact h1.2 h)]
  · rw [if_neg h1]
    have h1' : sender = node.hubID ∨ sender = BROADCAST_ADDRESS := by
      by_contra hc
      exact h1 ⟨fun h => hc (Or.inl h), fun h => hc (Or.inr h)⟩
    by_cases h2 : len < 2
    · rw [if_pos h2, if_neg (fun h => by omega)]
    · rw [if_neg h2]
      by_cases h3 : node.onMessageReceived = true
      · simp only [h3, if_true]
        rw [if_pos ⟨h1', by omega, trivial⟩]
      · simp [h3]

/-- C22, counterexample: node 5 with hub address 0 and a registered callback. An Alarm packet
from the hub with a wrong checksum byte, an Alarm packet one byte short, and a packet with
the unknown tag `0x7E` are each logged as invalid and each handed to the callback. -/
theorem C22_node_discard_counterexample :
    LoRaComm.handleIncomingMessage { nodeID := 5, hubID := 0, onMessageReceived := true }
        [0, 3, 1, 3, 255, 0] 6 0
      = { log := [LoRaComm.Log.alarmChecksumFailed],
          invocations := [{ data := [0, 3, 1, 3, 255, 0], len := 6, sender := 0 }] } ∧
    LoRaComm.handleIncomingMessage { nodeID := 5, hubID := 0, onMessageReceived := true }
        [0, 3, 1, 3, 255] 5 0
      = { log := [LoRaComm.Log.invalidAlarmSize],
          invocations := [{ data := [0, 3, 1, 3, 255], len := 5, sender := 0 }] } ∧
    LoRaComm.handleIncomingMessage { nodeID := 5, hubID := 0, onMessageReceived := true }
        [0, 0x7E, 1, 2] 4 0
      = { log := [LoRaComm.Log.unknownType 0x7E],
          invocations := [{ data := [0, 0x7E, 1, 2], len := 4, sender := 0 }] } := by
  decide

/-- C22, amended: in `LoRaComm::handleIncomingMessage`, with a callback registered, the
callback is invoked, once and with the received buffer, length and sender, exactly when the
sender is the hub or the broadcast address and the length is at least 2, whatever the
checksum, the length for the kind, or the kind tag. A message from another sender or shorter
than 2 bytes is the only one discarded. -/
theorem C22_node_callback_amended (node : LoRaComm.Node) (buf : List Nat) (len sender : Nat)
    (hcb : node.onMessageReceived = true) :
    ((sender = node.hubID ∨ sender = BROADCAST_ADDRESS) ∧ 2 ≤ len →
      (LoRaComm.handleIncomingMessage node buf len sender).invocations
        = [{ data := buf, len := len, sender := sender }]) ∧
    (¬ ((sender = node.hubID ∨ sender = BROADCAST_ADDRESS) ∧ 2 ≤ len) →
      (LoRaComm.handleIncomingMessage node buf len sender).invocations = []) := by
  rw [LoRaComm.handleIncomingMessage_invocations]
  constructor
  · intro h
    rw [if_pos ⟨h.1, h.2, hcb⟩]
  · intro h
    rw [if_neg (fun hc => h ⟨hc.1, hc.2.1⟩)]

/-- C22 amended, at concrete inputs: a packet with a wrong checksum from the hub reaches the
callback, the same packet from node 9 does not. -/
theorem C22_node_callback_amended_witness :
    (LoRaComm.handleIncomingMessage { nodeID := 5, hubID := 0, onMessageReceived := true }
        [0, 3, 1, 3, 255, 0] 6 0).invocations
      = [{ data := [0, 3, 1, 3, 255, 0], len := 6, sender := 0 }] ∧
    (LoRaComm.handleIncomingMessage { nodeID := 5, hubID := 0, onMessageReceived := true }
        [0, 3, 1, 3, 255, 0] 6 9).invocations = [] :=
  ⟨(C22_node_callback_amended { nodeID := 5, hubID := 0, onMessageReceived := true }
      [0, 3, 1, 3, 255, 0] 6 0 rfl).1 (by decide),
   (C22_node_callback_amended { nodeID := 5, hubID := 0, onMessageReceived := true }
      [0, 3, 1, 3, 255, 0] 6 9 rfl).2 (by decide)⟩

/-! ## Notification queue and retry task -/

/-- C24, counterexample: a call of `smtp_send_async` before `smtp_client_start` leaves the
null handle as it is, and a call on a queue holding its 10 items leaves the queue as it is:
in both states the message is not placed in the queue. -/
theorem C24_submit_counterexample :
    smtp.smtp_send_async none "[Bristol32] INTRUDER ALERT" "possible intruder" = none ∧
    smtp.smtp_send_async
        (some (List.replicate 10 { subject := "[Bristol32] NOTICE", body := "queued" }))
        "[Bristol32] INTRUDER ALERT" "possible intruder"
      = some (List.replicate 10 { subject := "[Bristol32] NOTICE", body := "queued" }) ∧
    ({ subject := "[Bristol32] INTRUDER ALERT", body := "possible intruder" } : smtp.MailItem)
      ∉ List.replicate 10 ({ subject := "[Bristol32] NOTICE", body := "queued" } : smtp.MailItem)
    := by
  decide

/-- C24, amended: `smtp_send_async(subject, body)` places the message at the back of the
queue exactly when the queue has been created and holds fewer than 10 items. Before
`smtp_client_start`, and on a queue holding 10 items, the call returns at once and leaves the
queue as it was. -/
theorem C24_submit_amended (q_mail : Option (List smtp.MailItem)) (subject body : String) :
    (q_mail = none → smtp.smtp_send_async q_mail subject body = none) ∧
    (∀ q : List smtp.MailItem, q_mail = some q → q.length < 10 →
      smtp.smtp_send_async q_mail subject body
        = some (q ++ [{ subject := subject, body := body }])) ∧
    (∀ q : List smtp.MailItem, q_mail = some q → 10 ≤ q.length →
      smtp.smtp_send_async q_mail subject body = some q) := by
  refine ⟨?_, ?_, ?_⟩
  · intro h
    rw [h]
    rfl
  · intro q h hl
    rw [h]
    simp [smtp.smtp_send_async, smtp.xQueueSend, smtp.QUEUE_LENGTH, hl]
  · intro q h hl
    rw [h]
    have : ¬ q.length < 10 := by omega
    simp [smtp.smtp_send_async, smtp.xQueueSend, smtp.QUEUE_LENGTH, this]

/-- C24 amended, at a concrete input: a submit on the freshly started, empty queue. -/
theorem C24_submit_amended_witness :
    smtp.smtp_send_async (smtp.smtp_client_start none) "[Bristol32] NOTICE" "queued"
      = some [{ subject := "[Bristol32] NOTICE", body := "queued" }] :=
  (C24_submit_amended (smtp.smtp_client_start none) "[Bristol32] NOTICE" "queued").2.1 []
    rfl (by decide)

namespace smtp

/-- An item is held or can be taken: the task is not blocked in `xQueueReceive`. -/
theorem smtp_task_pass_failed (s : Task) (a : Attempt) (ha : a.failed = true)
    (hbusy : s.it ≠ none ∨ s.q ≠ []) :
    (smtp_task_pass s a).backoff_ms = min (u32 (s.backoff_ms * 2)) 600000 ∧
    (smtp_task_pass s a).delays = s.delays ++ [s.backoff_ms] ∧
    (smtp_task_pass s a).it ≠ none := by
  unfold smtp_task_pass
  cases hit : s.it with
  | some it =>
    cases a with
    | sent => simp [Attempt.failed] at ha
    | loginFailed => simp
    | sendFailed => simp
  | none =>
    cases hq : s.q with
    | nil =>
      rcases hbusy with h | h
      · exact absurd hit h
      · exact absurd hq h
    | cons x rest =>
      cases a with
      | sent => simp [Attempt.failed] at ha
      | loginFailed => simp
      | sendFailed => simp

theorem smtp_task_pass_backoff (s : Task) (a : Attempt)
    (h : 10000 ≤ s.backoff_ms ∧ s.backoff_ms ≤ 600000) :
    10000 ≤ (smtp_task_pass s a).backoff_ms ∧ (smtp_task_pass s a).backoff_ms ≤ 600000 := by
  have hb : min (u32 (s.backoff_ms * 2)) 600000 ≥ 10000 ∧
      min (u32 (s.backoff_ms * 2)) 600000 ≤ 600000 := by
    unfold u32
    omega
  unfold smtp_task_pass
  cases s.it with
  | some it =>
    cases a with
    | sent => simp
    | loginFailed => exact hb
    | sendFailed => exact hb
  | none =>
    cases s.q with
    | nil => exact h
    | cons x rest =>
      cases a with
      | sent => simp
      | loginFailed => exact hb
      | sendFailed => exact hb

theorem smtp_task_run_backoff (outcomes : List Attempt) (s : Task)
    (h : 10000 ≤ s.backoff_ms ∧ s.backoff_ms ≤ 600000) :
    10000 ≤ (smtp_task_run s outcomes).backoff_ms ∧
      (smtp_task_run s outcomes).backoff_ms ≤ 600000 := by
  induction outcomes generalizing s with
  | nil => exact h
  | cons a rest ih => exact ih _ (smtp_task_pass_backoff s a h)

/-- After `j` doublings the backoff is `min (10000 * 2^j) 600000`; a run of failed attempts
waits the successive values. -/
theorem smtp_task_run_failures (fails : List Attempt) (s : Task) (j : Nat)
    (hf : ∀ a ∈ fails, a.failed = true) (hbusy : s.it ≠ none ∨ s.q ≠ [])
    (hb : s.backoff_ms = min (10000 * 2 ^ j) 600000) :
    (smtp_task_run s fails).backoff_ms = min (10000 * 2 ^ (j + fails.length)) 600000 ∧
    (smtp_task_run s fails).delays
      = s.delays ++ (List.range fails.length).map (fun k => min (10000 * 2 ^ (j + k)) 600000) := by
  induction fails generalizing s j with
  | nil => simp [smtp_task_run, hb]
  | cons a rest ih =>
    obtain ⟨h1, h2, h3⟩ := smtp_task_pass_failed s a (hf a (List.mem_cons_self a rest)) hbusy
    have hstep : (smtp_task_pass s a).backoff_ms = min (10000 * 2 ^ (j + 1)) 600000 := by
      rw [h1, hb, pow_succ, ← Nat.mul_assoc]
      generalize 10000 * 2 ^ j = x
      unfold u32
      omega
    obtain ⟨i1, i2⟩ := ih (smtp_task_pass s a) (j + 1)
      (fun a' ha' => hf a' (List.mem_cons_of_mem a ha')) (Or.inl h3) hstep
    have e : smtp_task_run s (a :: rest) = smtp_task_run (smtp_task_pass s a) rest := rfl
    rw [e, i1, i2, h2, hb]
    constructor
    · simp only [List.length_cons]
      congr 3
      omega
    · rw [List.length_cons, List.range_succ_eq_map, List.map_cons, List.map_map,
        List.append_assoc]
      simp only [List.singleton_append, Nat.add_zero, List.cons.injEq, true_and,
        List.append_cancel_left_eq]
      apply List.map_congr_left
      intro k _
      simp only [Function.comp_apply]
      congr 3
      omega

end smtp

/-- C25: in `smtp_task` the backoff value lies in [10000, 600000] ms after every sequence of
attempts from the start; it is 10000 at the start and again after a successful delivery; and
from a state whose backoff is 10000, the wait applied after the (k+1)-th consecutive failed
attempt (login or send) is `min (10000 * 2^k) 600000` ms. -/
theorem C25_retry_backoff (q : List smtp.MailItem) (outcomes fails : List smtp.Attempt)
    (hf : ∀ a ∈ fails, a.failed = true) :
    (10000 ≤ (smtp.smtp_task_run { q := q } outcomes).backoff_ms ∧
      (smtp.smtp_task_run { q := q } outcomes).backoff_ms ≤ 600000) ∧
    ({ q := q } : smtp.Task).backoff_ms = 10000 ∧
    (∀ t : smtp.Task, (t.it ≠ none ∨ t.q ≠ []) →
      (smtp.smtp_task_pass t smtp.Attempt.sent).backoff_ms = 10000 ∧
      (smtp.smtp_task_pass t smtp.Attempt.sent).delays = t.delays) ∧
    (∀ t : smtp.Task, t.backoff_ms = 10000 → (t.it ≠ none ∨ t.q ≠ []) →
      (smtp.smtp_task_run t fails).delays
        = t.delays ++ (List.range fails.length).map (fun k => min (10000 * 2 ^ k) 600000) ∧
      (smtp.smtp_task_run t fails).backoff_ms = min (10000 * 2 ^ fails.length) 600000) := by
  refine ⟨smtp.smtp_task_run_backoff outcomes _ ⟨Nat.le_refl _, by simp⟩, rfl, ?_, ?_⟩
  · intro t hbusy
    unfold smtp.smtp_task_pass
    cases hit : t.it with
    | some it => simp
    | none =>
      cases hq : t.q with
      | nil =>
        rcases hbusy with h | h
        · exact absurd hit h
        · exact absurd hq h
      | cons x rest => simp
  · intro t hb hbusy
    have h := smtp.smtp_task_run_failures fails t 0 hf hbusy (by rw [hb]; rfl)
    simp only [Nat.zero_add] at h
    exact ⟨h.2, h.1⟩

/-- C25 at a concrete input: eight failed attempts on one queued message wait 10 s, 20 s,
40 s, 80 s, 160 s, 320 s, 600 s and 600 s. -/
theorem C25_retry_backoff_witness :
    (smtp.smtp_task_run { q := [{ subject := "[Bristol32] NOTICE", body := "queued" }] }
        [smtp.Attempt.loginFailed, smtp.Attempt.sendFailed, smtp.Attempt.loginFailed,
         smtp.Attempt.loginFailed, smtp.Attempt.sendFailed, smtp.Attempt.sendFailed,
         smtp.Attempt.loginFailed, smtp.Attempt.sendFailed]).delays
      = [10000, 20000, 40000, 80000, 160000, 320000, 600000, 600000] := by
  have h := ((C25_retry_backoff [{ subject := "[Bristol32] NOTICE", body := "queued" }] []
      [smtp.Attempt.loginFailed, smtp.Attempt.sendFailed, smtp.Attempt.loginFailed,
       smtp.Attempt.loginFailed, smtp.Attempt.sendFailed, smtp.Attempt.sendFailed,
       smtp.Attempt.loginFailed, smtp.Attempt.sendFailed]
      (by decide)).2.2.2
      { q := [{ subject := "[Bristol32] NOTICE", body := "queued" }] } rfl
      (Or.inr (by simp))).1
  rw [h]
  decide

end Bristol32
